import Mathlib

/-!
# Verification of the Stonehold procedural dungeon-layout generator

Shallow embedding of `src/map/mapgen.rs` (struct `MapGenerator` and its
methods) together with proofs about the spec's claims.

Modelling conventions:
* `u32` / `usize` values are modelled as `Nat`; subtraction is `Nat`
  truncated subtraction.  All theorems only exercise the functions on
  inputs where the Rust arithmetic does not overflow or underflow, except
  where the underflow behaviour itself is the subject of a claim (the
  corridor carves), which is analysed through explicit predicates.
* A `Tile` carries a constant tileset reference and empty attributes in the
  source, so a cell is modelled as its numeric id; the tile grid
  (`macroquad_tiled::Layer`) is a flat row-major `List (Option Nat)`
  exactly like the source's `Vec<Option<Tile>>`, indexed through `xytoi`.
* The global random source (`macroquad::rand::gen_range`) is replaced by an
  injected stream of naturals (`List Nat`, defaulting to 0 when exhausted).
  An oracle value `v` is mapped into the requested interval by
  `gen_range lo hi v`; every value the real generator can produce for
  `lo < hi` is reachable by some `v`, which is all the claims depend on.
  The float draw of `rewrite_random_filler` (uniform in `[0,1)`) is
  modelled as the rational `v / (v+1) ∈ [0,1)`; the claims about it only
  use probabilities 0 and 1, where `f32` and `ℚ` comparisons agree.
* Rust `assert_eq!` and `Vec::remove` panics are modelled by
  `generate_layer` returning `none`.
-/

namespace Stonehold

set_option maxRecDepth 4000

/-! ## Tile-id constants (from `src/constants.rs`) -/

def WALL_01_TILE_ID : Nat := 0
def WALL_02_TILE_ID : Nat := 12
def WALL_03_TILE_ID : Nat := 24
def WALL_UP_TILE_ID : Nat := 2
def WALL_DOWN_TILE_ID : Nat := 26
def WALL_LEFT_TILE_ID : Nat := 13
def WALL_RIGHT_TILE_ID : Nat := 15
def WALL_INNER_UL_ID : Nat := 1
def WALL_INNER_UR_ID : Nat := 3
def WALL_INNER_DL_ID : Nat := 25
def WALL_INNER_DR_ID : Nat := 27
def WALL_OUTER_UL_ID : Nat := 4
def WALL_OUTER_UR_ID : Nat := 5
def WALL_OUTER_DL_ID : Nat := 16
def WALL_OUTER_DR_ID : Nat := 17

def WALL_TILE_IDS : List Nat :=
  [WALL_01_TILE_ID, WALL_02_TILE_ID, WALL_03_TILE_ID, WALL_UP_TILE_ID,
   WALL_DOWN_TILE_ID, WALL_LEFT_TILE_ID, WALL_RIGHT_TILE_ID,
   WALL_INNER_UL_ID, WALL_INNER_UR_ID, WALL_INNER_DL_ID, WALL_INNER_DR_ID,
   WALL_OUTER_UL_ID, WALL_OUTER_UR_ID, WALL_OUTER_DL_ID, WALL_OUTER_DR_ID]

def FACADE_CENTER_TILE_ID : Nat := 40
def FACADE_LEFT_TILE_ID : Nat := 57
def FACADE_RIGHT_TILE_ID : Nat := 59
def FACADE_CENTER_02_TILE_ID : Nat := 14
def GROUND_01_TILE_ID : Nat := 48
def GROUND_02_TILE_ID : Nat := 49
def GROUND_03_TILE_ID : Nat := 42
def DOOR_LEFT_CLOSED_TILE_ID : Nat := 46
def DOOR_RIGHT_CLOSED_TILE_ID : Nat := 47
def DOOR_LEFT_OPEN_TILE_ID : Nat := 10
def DOOR_RIGHT_OPEN_TILE_ID : Nat := 11
def STAIRS_LEFT_TILE_ID : Nat := 36
def STAIRS_RIGHT_TILE_ID : Nat := 38
def MONSTER_PIPE_CLOSED_TILE_ID : Nat := 19
def POOL_EMPTY_TILE_ID : Nat := 31

/-- An exact probability `num / den`.  The source stores probabilities in
`f32`; all theorems below only depend on exact comparisons at 0, 1 and the
small constants of `generate_layer`, where the embedding and `f32` agree. -/
structure Frac where
  num : Nat
  den : Nat
deriving DecidableEq

/-- `prob * 10.` (used for the facade filler call). -/
def Frac.mulNat (p : Frac) (k : Nat) : Frac := ⟨p.num * k, p.den⟩

def TILE_FILLER_PROB : Frac := ⟨3, 1000⟩

/-! ## The tile grid (`macroquad_tiled::Layer`) -/

structure UVec2 where
  x : Nat
  y : Nat
deriving DecidableEq

structure Layer where
  width : Nat
  height : Nat
  data : List (Option Nat)
deriving DecidableEq

/-- `fn xytoi(x: u32, y: u32, layer: &Layer) -> usize`. -/
def xytoi (x y : Nat) (g : Layer) : Nat := y * g.width + x

/-- Reading `layer.data[i]`; out-of-range reads yield `none` (the source
only reads after an explicit bounds check, where the index is in range). -/
def readCell (g : Layer) (i : Nat) : Option Nat := g.data.getD i none

/-- Writing `layer.data[i] = Some(tile)`; `List.set` ignores out-of-range
indices (the source only writes in-range in every situation the theorems
exercise). -/
def writeCell (g : Layer) (i : Nat) (t : Nat) : Layer :=
  { g with data := g.data.set i (some t) }

/-- Cell at grid coordinates, via the source's flat indexing. -/
def cellAt (g : Layer) (x y : Nat) : Option Nat := readCell g (xytoi x y g)

/-! ## The injected random stream -/

/-- One draw from the injected random stream. -/
def drawNat (s : List Nat) : Nat × List Nat := (s.headD 0, s.tail)

/-- Oracle model of `gen_range(low, high)`: the stream value `v` selects a
result.  For `low < high` every value of `[low, high)` is reachable; for
`high < low` the real (float-based) implementation produces values of
`(high, low]`, matched here; for `low = high` it returns `low`. -/
def gen_range (lo hi v : Nat) : Nat :=
  if lo < hi then lo + v % (hi - lo)
  else if hi < lo then lo - v % (lo - hi)
  else lo

/-- The test `sample >= prob` where `sample` is the float draw
`gen_range(0., 1.)`: the stream value `v` selects the sample
`v / (v+1) ∈ [0, 1)` (every probability of `[0,1)` is approached by some
`v`), and the comparison with `prob = num/den` is the exact
cross-multiplied rational comparison. -/
def sampleGe (v : Nat) (p : Frac) : Bool := decide (v * p.den ≥ p.num * (v + 1))

/-! ## The generator configuration (struct `MapGenerator`) -/

structure MapGenerator where
  ground_tile_id : Nat
  wall_tile_id : Nat
  size : UVec2
  min_room_size : UVec2
  max_room_size : UVec2
  max_room_count : Nat
  corridor_padding : Option Nat
  door_clearance : Nat
deriving DecidableEq

/-- `MapGenerator::new(size)` with the constants of `src/constants.rs`. -/
def MapGenerator.new (size : UVec2) : MapGenerator where
  ground_tile_id := GROUND_01_TILE_ID
  wall_tile_id := WALL_01_TILE_ID
  size := size
  min_room_size := ⟨10, 10⟩
  max_room_size := ⟨20, 20⟩
  max_room_count := 50
  corridor_padding := some 2
  door_clearance := 8

/-! ## Phase-A cleanup rules

Each `try_rewrite_*` function mirrors its Rust source: a bounds guard, an
`if let (&Some(..), ..)` pattern match that rejects non-matching fully
populated neighbourhoods, and an unconditional rewrite otherwise. -/

def try_rewrite_thin_horizontal_wall (g : Layer) (x y : Nat) : Bool × Layer :=
  if x ≥ g.width ∨ y ≥ g.height - 2 then (false, g)
  else
    let i0 := xytoi x y g
    let i1 := xytoi x (y + 1) g
    let i2 := xytoi x (y + 2) g
    match readCell g i0, readCell g i1, readCell g i2 with
    | some t0, some t1, some t2 =>
      if t0 ≠ GROUND_01_TILE_ID ∨ t1 ≠ WALL_01_TILE_ID ∨ t2 ≠ GROUND_01_TILE_ID
      then (false, g)
      else (true, writeCell g i0 WALL_01_TILE_ID)
    | _, _, _ => (true, writeCell g i0 WALL_01_TILE_ID)

def try_rewrite_thin_vertical_wall (g : Layer) (x y : Nat) : Bool × Layer :=
  if x ≥ g.width - 2 ∨ y ≥ g.height then (false, g)
  else
    let i0 := xytoi x y g
    let i1 := xytoi (x + 1) y g
    let i2 := xytoi (x + 2) y g
    match readCell g i0, readCell g i1, readCell g i2 with
    | some t0, some t1, some t2 =>
      if t0 ≠ GROUND_01_TILE_ID ∨ t1 ≠ WALL_01_TILE_ID ∨ t2 ≠ GROUND_01_TILE_ID
      then (false, g)
      else (true, writeCell g i0 WALL_01_TILE_ID)
    | _, _, _ => (true, writeCell g i0 WALL_01_TILE_ID)

/-- The six cells of a double-corner neighbourhood all rewritten to
generic wall (the shared tail of both `try_rewrite_double_corner_*`). -/
def writeDoubleCorner (g : Layer) (i00 i10 i20 i01 i11 i21 : Nat) : Layer :=
  let g := writeCell g i00 WALL_01_TILE_ID
  let g := writeCell g i10 WALL_01_TILE_ID
  let g := writeCell g i20 WALL_01_TILE_ID
  let g := writeCell g i01 WALL_01_TILE_ID
  let g := writeCell g i11 WALL_01_TILE_ID
  writeCell g i21 WALL_01_TILE_ID

/-- The double-corner pattern guard shared by both variants. -/
def doubleCornerPattern (t00 t10 t20 t01 t11 t21 : Nat) : Prop :=
  (t00 = WALL_01_TILE_ID ∧ t10 = WALL_01_TILE_ID ∧ t20 = GROUND_01_TILE_ID ∧
   t01 = GROUND_01_TILE_ID ∧ t11 = WALL_01_TILE_ID ∧ t21 = WALL_01_TILE_ID) ∨
  (t00 = GROUND_01_TILE_ID ∧ t10 = WALL_01_TILE_ID ∧ t20 = WALL_01_TILE_ID ∧
   t01 = WALL_01_TILE_ID ∧ t11 = WALL_01_TILE_ID ∧ t21 = GROUND_01_TILE_ID)

instance (t00 t10 t20 t01 t11 t21 : Nat) :
    Decidable (doubleCornerPattern t00 t10 t20 t01 t11 t21) := by
  unfold doubleCornerPattern; infer_instance

def try_rewrite_double_corner_horizontal (g : Layer) (x y : Nat) : Bool × Layer :=
  if x ≥ g.width - 2 ∨ y ≥ g.height - 1 then (false, g)
  else
    let i00 := xytoi x y g
    let i10 := xytoi (x + 1) y g
    let i20 := xytoi (x + 2) y g
    let i01 := xytoi x (y + 1) g
    let i11 := xytoi (x + 1) (y + 1) g
    let i21 := xytoi (x + 2) (y + 1) g
    match readCell g i00, readCell g i10, readCell g i20,
          readCell g i01, readCell g i11, readCell g i21 with
    | some t00, some t10, some t20, some t01, some t11, some t21 =>
      if doubleCornerPattern t00 t10 t20 t01 t11 t21
      then (true, writeDoubleCorner g i00 i10 i20 i01 i11 i21)
      else (false, g)
    | _, _, _, _, _, _ => (true, writeDoubleCorner g i00 i10 i20 i01 i11 i21)

def try_rewrite_double_corner_vertical (g : Layer) (x y : Nat) : Bool × Layer :=
  if x ≥ g.width - 1 ∨ y ≥ g.height - 2 then (false, g)
  else
    let i00 := xytoi x y g
    let i10 := xytoi x (y + 1) g
    let i20 := xytoi x (y + 2) g
    let i01 := xytoi (x + 1) y g
    let i11 := xytoi (x + 1) (y + 1) g
    let i21 := xytoi (x + 1) (y + 2) g
    match readCell g i00, readCell g i10, readCell g i20,
          readCell g i01, readCell g i11, readCell g i21 with
    | some t00, some t10, some t20, some t01, some t11, some t21 =>
      if doubleCornerPattern t00 t10 t20 t01 t11 t21
      then (true, writeDoubleCorner g i00 i10 i20 i01 i11 i21)
      else (false, g)
    | _, _, _, _, _, _ => (true, writeDoubleCorner g i00 i10 i20 i01 i11 i21)

/-! ## Phase-B detailing rules -/

/-- Shared shape of the four 1×2 edge rules (`top`/`bottom`/`left`/`right`
wall): cells `i0, i1`, pattern `t0 = pat0 ∧ t1 = pat1`, rewrite of `iw`
(which is `i0` or `i1`) to `wid`. -/
def edgeRule (g : Layer) (i0 i1 : Nat) (pat0 pat1 : Nat) (iw wid : Nat) :
    Bool × Layer :=
  match readCell g i0, readCell g i1 with
  | some t0, some t1 =>
    if t0 ≠ pat0 ∨ t1 ≠ pat1 then (false, g) else (true, writeCell g iw wid)
  | _, _ => (true, writeCell g iw wid)

def try_rewrite_top_wall (g : Layer) (x y : Nat) : Bool × Layer :=
  if x ≥ g.width ∨ y ≥ g.height - 1 then (false, g)
  else
    let i0 := xytoi x y g
    let i1 := xytoi x (y + 1) g
    edgeRule g i0 i1 WALL_01_TILE_ID GROUND_01_TILE_ID i0 WALL_UP_TILE_ID

def try_rewrite_bottom_wall (g : Layer) (x y : Nat) : Bool × Layer :=
  if x ≥ g.width ∨ y ≥ g.height - 1 then (false, g)
  else
    let i0 := xytoi x y g
    let i1 := xytoi x (y + 1) g
    edgeRule g i0 i1 GROUND_01_TILE_ID WALL_01_TILE_ID i1 WALL_DOWN_TILE_ID

def try_rewrite_left_wall (g : Layer) (x y : Nat) : Bool × Layer :=
  if x ≥ g.width - 1 ∨ y ≥ g.height then (false, g)
  else
    let i0 := xytoi x y g
    let i1 := xytoi (x + 1) y g
    edgeRule g i0 i1 WALL_01_TILE_ID GROUND_01_TILE_ID i0 WALL_LEFT_TILE_ID

def try_rewrite_right_wall (g : Layer) (x y : Nat) : Bool × Layer :=
  if x ≥ g.width - 1 ∨ y ≥ g.height then (false, g)
  else
    let i0 := xytoi x y g
    let i1 := xytoi (x + 1) y g
    edgeRule g i0 i1 GROUND_01_TILE_ID WALL_01_TILE_ID i1 WALL_RIGHT_TILE_ID

/-- A corner-rule cell requirement: either "one of the wall-class ids"
(`WALL_TILE_IDS.contains`) or "exactly ground". -/
inductive CornerPat where
  | wall : CornerPat
  | ground : CornerPat
deriving DecidableEq

def cornerPatHolds : CornerPat → Nat → Prop
  | .wall, t => t ∈ WALL_TILE_IDS
  | .ground, t => t = GROUND_01_TILE_ID

instance (p : CornerPat) (t : Nat) : Decidable (cornerPatHolds p t) := by
  cases p <;> (unfold cornerPatHolds; infer_instance)

/-- Shared shape of the eight 2×2 corner rules: cells at
`(x,y), (x+1,y), (x,y+1), (x+1,y+1)` (the source's `i00, i01, i10, i11`),
patterns `p00 p01 p10 p11`, rewrite of `iw` to `wid`. -/
def cornerRule (g : Layer) (x y : Nat) (p00 p01 p10 p11 : CornerPat)
    (iw wid : Nat) : Bool × Layer :=
  let i00 := xytoi x y g
  let i01 := xytoi (x + 1) y g
  let i10 := xytoi x (y + 1) g
  let i11 := xytoi (x + 1) (y + 1) g
  match readCell g i00, readCell g i01, readCell g i10, readCell g i11 with
  | some t00, some t01, some t10, some t11 =>
    if ¬ cornerPatHolds p00 t00 ∨ ¬ cornerPatHolds p01 t01 ∨
       ¬ cornerPatHolds p10 t10 ∨ ¬ cornerPatHolds p11 t11
    then (false, g)
    else (true, writeCell g iw wid)
  | _, _, _, _ => (true, writeCell g iw wid)

def try_rewrite_inner_ul_wall (g : Layer) (x y : Nat) : Bool × Layer :=
  if x ≥ g.width - 1 ∨ y ≥ g.height - 1 then (false, g)
  else cornerRule g x y .wall .wall .wall .ground (xytoi x y g) WALL_INNER_UL_ID

def try_rewrite_inner_ur_wall (g : Layer) (x y : Nat) : Bool × Layer :=
  if x ≥ g.width - 1 ∨ y ≥ g.height - 1 then (false, g)
  else cornerRule g x y .wall .wall .ground .wall (xytoi (x + 1) y g) WALL_INNER_UR_ID

def try_rewrite_inner_dl_wall (g : Layer) (x y : Nat) : Bool × Layer :=
  if x ≥ g.width - 1 ∨ y ≥ g.height - 1 then (false, g)
  else cornerRule g x y .wall .ground .wall .wall (xytoi x (y + 1) g) WALL_INNER_DL_ID

def try_rewrite_inner_dr_wall (g : Layer) (x y : Nat) : Bool × Layer :=
  if x ≥ g.width - 1 ∨ y ≥ g.height - 1 then (false, g)
  else cornerRule g x y .ground .wall .wall .wall (xytoi (x + 1) (y + 1) g) WALL_INNER_DR_ID

def try_rewrite_outer_ul_wall (g : Layer) (x y : Nat) : Bool × Layer :=
  if x ≥ g.width - 1 ∨ y ≥ g.height - 1 then (false, g)
  else cornerRule g x y .ground .ground .ground .wall (xytoi (x + 1) (y + 1) g) WALL_OUTER_UL_ID

def try_rewrite_outer_ur_wall (g : Layer) (x y : Nat) : Bool × Layer :=
  if x ≥ g.width - 1 ∨ y ≥ g.height - 1 then (false, g)
  else cornerRule g x y .ground .ground .wall .ground (xytoi x (y + 1) g) WALL_OUTER_UR_ID

def try_rewrite_outer_dl_wall (g : Layer) (x y : Nat) : Bool × Layer :=
  if x ≥ g.width - 1 ∨ y ≥ g.height - 1 then (false, g)
  else cornerRule g x y .ground .wall .ground .ground (xytoi (x + 1) y g) WALL_OUTER_DL_ID

def try_rewrite_outer_dr_wall (g : Layer) (x y : Nat) : Bool × Layer :=
  if x ≥ g.width - 1 ∨ y ≥ g.height - 1 then (false, g)
  else cornerRule g x y .wall .ground .ground .ground (xytoi x y g) WALL_OUTER_DR_ID

def try_rewrite_center_facades (g : Layer) (x y : Nat) : Bool × Layer :=
  if x ≥ g.width ∨ y ≥ g.height - 1 then (false, g)
  else
    let i0 := xytoi x y g
    let i1 := xytoi x (y + 1) g
    edgeRule g i0 i1 WALL_UP_TILE_ID GROUND_01_TILE_ID i1 FACADE_CENTER_TILE_ID

def try_rewrite_left_facades (g : Layer) (x y : Nat) : Bool × Layer :=
  if x ≥ g.width ∨ y ≥ g.height - 1 then (false, g)
  else
    let i0 := xytoi x y g
    let i1 := xytoi x (y + 1) g
    edgeRule g i0 i1 WALL_OUTER_DL_ID GROUND_01_TILE_ID i1 FACADE_LEFT_TILE_ID

def try_rewrite_right_facades (g : Layer) (x y : Nat) : Bool × Layer :=
  if x ≥ g.width ∨ y ≥ g.height - 1 then (false, g)
  else
    let i0 := xytoi x y g
    let i1 := xytoi x (y + 1) g
    edgeRule g i0 i1 WALL_OUTER_DR_ID GROUND_01_TILE_ID i1 FACADE_RIGHT_TILE_ID

/-! ## `rewrite_wall_details`: Phase-A loop and Phase-B passes -/

/-- The scan order of every `for x in 0..width { for y in 0..height }`
double loop of `rewrite_wall_details` and of the door-candidate search. -/
def cellsColMajor (w h : Nat) : List (Nat × Nat) :=
  (List.range w).flatMap fun x => (List.range h).map fun y => (x, y)

/-- One Phase-A loop body at one cell: the four cleanup rules in source
order.  The returned flag is
`dcv || (dch || (thinv || (thinh || false)))` — the value `needs_scan`
holds after this cell, since the source re-initialises `needs_scan = false`
at the top of the body. -/
def cleanupCell (g : Layer) (xy : Nat × Nat) : Bool × Layer :=
  let (r1, g1) := try_rewrite_thin_horizontal_wall g xy.1 xy.2
  let (r2, g2) := try_rewrite_thin_vertical_wall g1 xy.1 xy.2
  let (r3, g3) := try_rewrite_double_corner_horizontal g2 xy.1 xy.2
  let (r4, g4) := try_rewrite_double_corner_vertical g3 xy.1 xy.2
  (r4 || (r3 || (r2 || (r1 || false))), g4)

/-- One full Phase-A scan exactly as coded: the flag each cell leaves
behind **overwrites** the previous cell's flag, so the scan's resulting
flag is the flag of the last cell only. -/
def cleanupScan (g : Layer) : Bool × Layer :=
  (cellsColMajor g.width g.height).foldl (fun st xy => cleanupCell st.2 xy) (false, g)

/-- A full Phase-A scan with an honest accumulator: did **any** cleanup
rule fire anywhere during the scan?  This is the checker for the claim's
"one further full scan … fires zero rewrites". -/
def cleanupScanAny (g : Layer) : Bool × Layer :=
  (cellsColMajor g.width g.height).foldl
    (fun st xy =>
      let (f, g') := cleanupCell st.2 xy
      (st.1 || f, g')) (false, g)

/-- The `while needs_scan` Phase-A loop, fuelled.  (For any grid with at
least one cell the four rules all fail their bounds guards at the last
cell, so the coded loop always stops after a single scan; the fuel value
is therefore irrelevant as long as it is positive.) -/
def cleanupLoop : Nat → Layer → Layer
  | 0, g => g
  | fuel + 1, g =>
    let (f, g') := cleanupScan g
    if f then cleanupLoop fuel g' else g'

/-- Phase-B first pass body: the eight corner rules, in source order. -/
def detailCornersCell (g : Layer) (xy : Nat × Nat) : Layer :=
  let g := (try_rewrite_inner_ul_wall g xy.1 xy.2).2
  let g := (try_rewrite_inner_ur_wall g xy.1 xy.2).2
  let g := (try_rewrite_inner_dl_wall g xy.1 xy.2).2
  let g := (try_rewrite_inner_dr_wall g xy.1 xy.2).2
  let g := (try_rewrite_outer_ul_wall g xy.1 xy.2).2
  let g := (try_rewrite_outer_ur_wall g xy.1 xy.2).2
  let g := (try_rewrite_outer_dl_wall g xy.1 xy.2).2
  (try_rewrite_outer_dr_wall g xy.1 xy.2).2

def detailSidesCell (g : Layer) (xy : Nat × Nat) : Layer :=
  let g := (try_rewrite_left_wall g xy.1 xy.2).2
  (try_rewrite_right_wall g xy.1 xy.2).2

def detailTopBottomCell (g : Layer) (xy : Nat × Nat) : Layer :=
  let g := (try_rewrite_bottom_wall g xy.1 xy.2).2
  (try_rewrite_top_wall g xy.1 xy.2).2

def detailFacadesCell (g : Layer) (xy : Nat × Nat) : Layer :=
  let g := (try_rewrite_center_facades g xy.1 xy.2).2
  let g := (try_rewrite_left_facades g xy.1 xy.2).2
  (try_rewrite_right_facades g xy.1 xy.2).2

/-- One full `for x { for y }` Phase-B pass. -/
def detailPass (cell : Layer → Nat × Nat → Layer) (g : Layer) : Layer :=
  (cellsColMajor g.width g.height).foldl cell g

/-- `MapGenerator::rewrite_wall_details`: the Phase-A loop followed by the
four Phase-B passes, each a full grid scan. -/
def rewrite_wall_details (g : Layer) : Layer :=
  detailPass detailFacadesCell
    (detailPass detailTopBottomCell
      (detailPass detailSidesCell
        (detailPass detailCornersCell
          (cleanupLoop (g.width * g.height + 1) g))))

/-! ## Stage 1: rooms and corridors -/

/-- Axis-aligned room rectangle (the source's `macroquad::math::Rect`,
whose fields are small exact integers stored in `f32`). -/
structure RectN where
  x : Nat
  y : Nat
  w : Nat
  h : Nat
deriving DecidableEq

/-- `Rect::overlaps` (all comparisons closed, as in macroquad). -/
def rectOverlaps (a b : RectN) : Bool :=
  decide (a.x ≤ b.x + b.w) && decide (b.x ≤ a.x + a.w) &&
  decide (a.y ≤ b.y + b.h) && decide (b.y ≤ a.y + a.h)

/-- `Rect::center().x as u32`: the floor of `x + w/2.0`. -/
def rectCenterX (r : RectN) : Nat := r.x + r.w / 2

def rectCenterY (r : RectN) : Nat := r.y + r.h / 2

/-- `MapGenerator::generate_room`: carve the rectangle with the ground
tile. -/
def generate_room (self : MapGenerator) (g : Layer) (dest size : UVec2) : Layer :=
  (List.range' dest.x size.x).foldl
    (fun g x =>
      (List.range' dest.y size.y).foldl
        (fun g y => writeCell g (xytoi x y g) self.ground_tile_id) g) g

/-- The cells written by `generate_corridor_horizontal`, in write order
(`for y in (y-p)..=(y+p) { for x in (lo-p)..=(hi+p) }`), with `Nat`
truncated subtraction standing for the `u32` subtraction. -/
def corridorHTargets (src_x dest_x y p : Nat) : List (Nat × Nat) :=
  let lo := min src_x dest_x
  let hi := max src_x dest_x
  (List.range' (y - p) (y + p + 1 - (y - p))).flatMap fun yy =>
    (List.range' (lo - p) (hi + p + 1 - (lo - p))).map fun xx => (xx, yy)

/-- The cells written by `generate_corridor_vertical`, in write order
(`for x in (x-p)..=(x+p) { for y in (lo-p)..=(hi+p) }`). -/
def corridorVTargets (x src_y dest_y p : Nat) : List (Nat × Nat) :=
  let lo := min src_y dest_y
  let hi := max src_y dest_y
  (List.range' (x - p) (x + p + 1 - (x - p))).flatMap fun xx =>
    (List.range' (lo - p) (hi + p + 1 - (lo - p))).map fun yy => (xx, yy)

def generate_corridor_horizontal (self : MapGenerator) (g : Layer)
    (src_x dest_x y : Nat) (padding : Option Nat) : Layer :=
  let p := padding.getD 0
  (corridorHTargets src_x dest_x y p).foldl
    (fun g t => writeCell g (xytoi t.1 t.2 g) self.ground_tile_id) g

def generate_corridor_vertical (self : MapGenerator) (g : Layer)
    (x src_y dest_y : Nat) (padding : Option Nat) : Layer :=
  let p := padding.getD 1
  (corridorVTargets x src_y dest_y p).foldl
    (fun g t => writeCell g (xytoi t.1 t.2 g) self.ground_tile_id) g

/-- State threaded through the room-placement loop. -/
structure RoomState where
  g : Layer
  rooms : List RectN
  s : List Nat
deriving DecidableEq

/-- The four `gen_range` draws at the top of one room-placement
iteration: the candidate rectangle and the remaining stream. -/
def roomDraw (self : MapGenerator) (g : Layer) (s : List Nat) : RectN × List Nat :=
  let (v1, s1) := drawNat s
  let width :=
    min (gen_range self.min_room_size.x (self.max_room_size.x + 1) v1) (g.width - 1)
  let (v2, s2) := drawNat s1
  let height :=
    min (gen_range self.min_room_size.y (self.max_room_size.y + 1) v2) (g.height - 1)
  let max_x := g.width - width - 1
  let max_y := g.height - height - 1
  let (v3, s3) := drawNat s2
  let x := gen_range 1 max_x v3
  let (v4, s4) := drawNat s3
  let y := gen_range 1 max_y v4
  (⟨x, y, width, height⟩, s4)

/-- The room-and-corridor carve performed for an accepted room. -/
def carveRoom (self : MapGenerator) (g : Layer) (prior : Option RectN)
    (room : RectN) : Layer :=
  let g1 := generate_room self g ⟨room.x, room.y⟩ ⟨room.w, room.h⟩
  match prior with
  | none => g1
  | some last_room =>
    let last_x := rectCenterX last_room
    let last_y := rectCenterY last_room
    let room_x := rectCenterX room
    let room_y := rectCenterY room
    let ga := generate_corridor_horizontal self g1 last_x room_x last_y
      self.corridor_padding
    generate_corridor_vertical self ga room_x last_y room_y
      self.corridor_padding

/-- One iteration of the room-placement loop of `generate_layer`: draw a
size and a position, reject on overlap, otherwise carve the room and (from
the second accepted room onward) the horizontal-then-vertical corridor
from the previous accepted room's centre. -/
def roomStep (self : MapGenerator) (st : RoomState) : RoomState :=
  let (room, s4) := roomDraw self st.g st.s
  if st.rooms.any (fun prior => rectOverlaps room prior) then
    { st with s := s4 }
  else
    { g := carveRoom self st.g st.rooms.getLast? room,
      rooms := st.rooms ++ [room], s := s4 }

/-- The wall-filled initial grid of `generate_layer`. -/
def initialLayer (self : MapGenerator) : Layer :=
  ⟨self.size.x, self.size.y,
   List.replicate (self.size.x * self.size.y) (some self.wall_tile_id)⟩

/-- The room/corridor stage of `generate_layer` (its first two loops). -/
def roomPhase (self : MapGenerator) (s : List Nat) : RoomState :=
  (List.range self.max_room_count).foldl (fun st _ => roomStep self st)
    ⟨initialLayer self, [], s⟩

/-! ## Stage 3: doors -/

/-- `MapGenerator::check_door_candidate`. -/
def check_door_candidate (self : MapGenerator) (g : Layer) (x y : Nat) : Bool :=
  if x + 4 > g.width ∨ y + self.door_clearance > g.height then false
  else
    (List.range' x 4).all fun xx =>
      (match readCell g (xytoi xx y g) with
       | some t => t == FACADE_CENTER_TILE_ID
       | none => true) &&
      ((List.range' (y + 1) (y + self.door_clearance - (y + 1))).all fun yy =>
        match readCell g (xytoi xx yy g) with
        | some t => t == GROUND_01_TILE_ID
        | none => true)

/-- The candidate list gathered by `generate_guard_doors`'s double loop. -/
def doorCandidates (self : MapGenerator) (g : Layer) : List UVec2 :=
  (cellsColMajor g.width g.height).filterMap fun xy =>
    if check_door_candidate self g xy.1 xy.2 then some ⟨xy.1, xy.2⟩ else none

/-- The placement loop of `generate_guard_doors`
(`while doors.len() < max_doors && candidates.len() > 0`).  Each iteration
removes exactly one candidate, so running it with fuel
`candidates.length` is the loop's exact behaviour. -/
def placeDoors (self : MapGenerator) (max_doors : Nat) :
    Nat → List UVec2 → List UVec2 → Layer → List Nat →
    List UVec2 × Layer × List Nat
  | 0, _, doors, g, s => (doors, g, s)
  | fuel + 1, cands, doors, g, s =>
    if doors.length < max_doors ∧ 0 < cands.length then
      let (v, s1) := drawNat s
      let i := gen_range 0 cands.length v
      let pos := cands.getD i ⟨0, 0⟩
      let cands' := cands.eraseIdx i
      if check_door_candidate self g pos.x pos.y then
        let g1 := writeCell g (xytoi (pos.x + 1) pos.y g) DOOR_LEFT_OPEN_TILE_ID
        let g2 := writeCell g1 (xytoi (pos.x + 2) pos.y g1) DOOR_RIGHT_OPEN_TILE_ID
        placeDoors self max_doors fuel cands' (doors ++ [pos]) g2 s1
      else
        placeDoors self max_doors fuel cands' doors g s1
    else (doors, g, s)

/-- `MapGenerator::generate_guard_doors`. -/
def generate_guard_doors (self : MapGenerator) (max_doors : Nat) (g : Layer)
    (s : List Nat) : List UVec2 × Layer × List Nat :=
  let cands := doorCandidates self g
  placeDoors self max_doors cands.length cands [] g s

/-- The `for _ in 0..10` retry loop around `generate_guard_doors` in
`generate_layer`, called with fuel 10: rerun the whole candidate search
and placement — on the grid as the previous attempt left it — until an
attempt places `num_doors` doors or the attempts are exhausted; the last
attempt's doors are kept either way. -/
def doorAttempts (self : MapGenerator) :
    Nat → Nat → Layer → List Nat → List UVec2 × Layer × List Nat
  | 0, _, g, s => ([], g, s)
  | fuel + 1, num_doors, g, s =>
    let (doors, g', s') := generate_guard_doors self num_doors g s
    if doors.length = num_doors ∨ fuel = 0 then (doors, g', s')
    else doorAttempts self fuel num_doors g' s'

/-- `MapGenerator::rewrite_exit_door`. -/
def rewrite_exit_door (pos : UVec2) (g : Layer) : Layer :=
  let g := writeCell g (xytoi pos.x pos.y g) MONSTER_PIPE_CLOSED_TILE_ID
  let g := writeCell g (xytoi (pos.x + 1) pos.y g) DOOR_LEFT_CLOSED_TILE_ID
  let g := writeCell g (xytoi (pos.x + 2) pos.y g) DOOR_RIGHT_CLOSED_TILE_ID
  let g := writeCell g (xytoi (pos.x + 3) pos.y g) MONSTER_PIPE_CLOSED_TILE_ID
  let g := writeCell g (xytoi pos.x (pos.y + 1) g) POOL_EMPTY_TILE_ID
  let g := writeCell g (xytoi (pos.x + 1) (pos.y + 1) g) STAIRS_LEFT_TILE_ID
  let g := writeCell g (xytoi (pos.x + 2) (pos.y + 1) g) STAIRS_RIGHT_TILE_ID
  writeCell g (xytoi (pos.x + 3) (pos.y + 1) g) POOL_EMPTY_TILE_ID

/-! ## Stage 4: decorative filler -/

/-- The interior cells visited by `rewrite_random_filler`
(`for x in 1..(width-1) { for y in 1..(height-1) }`). -/
def fillerCells (w h : Nat) : List (Nat × Nat) :=
  (List.range' 1 (w - 1 - 1)).flatMap fun x =>
    (List.range' 1 (h - 1 - 1)).map fun y => (x, y)

/-- One filler loop body: skip (without drawing) a populated cell whose id
differs from `src`; otherwise draw a sample from `[0,1)` and rewrite to
`dst` when it is below `prob`. -/
def fillerCellStep (src dst : Nat) (prob : Frac)
    (st : Nat × Layer × List Nat) (xy : Nat × Nat) : Nat × Layer × List Nat :=
  let (count, g, s) := st
  let i := xytoi xy.1 xy.2 g
  let srcMatch : Bool :=
    match readCell g i with
    | some t => t == src
    | none => true
  if !srcMatch then (count, g, s)
  else
    let (v, s') := drawNat s
    if sampleGe v prob then (count, g, s')
    else (count + 1, writeCell g i dst, s')

/-- `MapGenerator::rewrite_random_filler` (returns the rewrite count,
like the source). -/
def rewrite_random_filler (src dst : Nat) (prob : Frac) (g : Layer)
    (s : List Nat) : Nat × Layer × List Nat :=
  (fillerCells g.width g.height).foldl (fillerCellStep src dst prob) (0, g, s)

/-! ## `generate_layer` -/

structure MapGenResult where
  layer : Layer
  rooms : List RectN
  guard_doors : List UVec2
  exit_door : UVec2
deriving DecidableEq

instance : Inhabited MapGenResult := ⟨⟨⟨0, 0, []⟩, [], [], ⟨0, 0⟩⟩⟩

/-- One `rewrite_random_filler` call viewed as a grid-and-stream
transformer (the count the source also returns is dropped, as in
`generate_layer`). -/
def fillerApply (src dst : Nat) (prob : Frac) (p : Layer × List Nat) :
    Layer × List Nat :=
  (rewrite_random_filler src dst prob p.1 p.2).2

/-- The five `rewrite_random_filler` calls at the end of
`generate_layer`, in source order. -/
def fillersStage (g : Layer) (s : List Nat) : Layer :=
  (fillerApply FACADE_CENTER_TILE_ID FACADE_CENTER_02_TILE_ID (TILE_FILLER_PROB.mulNat 10)
    (fillerApply GROUND_01_TILE_ID GROUND_03_TILE_ID TILE_FILLER_PROB
      (fillerApply GROUND_01_TILE_ID GROUND_02_TILE_ID TILE_FILLER_PROB
        (fillerApply WALL_01_TILE_ID WALL_03_TILE_ID TILE_FILLER_PROB
          (fillerApply WALL_01_TILE_ID WALL_02_TILE_ID TILE_FILLER_PROB (g, s)))))).1

/-- The tail of `generate_layer` from the guard-door retry loop onward:
the `assert_eq!` (modelled as `none` on failure), the exit-door promotion
(`guard_doors.remove(gen_range(0, num_doors))`, `none` on the
out-of-range `remove` panic), the exit-door rewrite and the fillers. -/
def doorStage (self : MapGenerator) (rooms : List RectN) (g : Layer)
    (s : List Nat) : Option MapGenResult :=
  let da := doorAttempts self 10 rooms.length g s
  let guard_doors := da.1
  let g3 := da.2.1
  let s3 := da.2.2
  if rooms.length = guard_doors.length then
    let v := (drawNat s3).1
    let s4 := (drawNat s3).2
    let k := gen_range 0 rooms.length v
    if k < guard_doors.length then
      let exit_door := guard_doors.getD k ⟨0, 0⟩
      some ⟨fillersStage (rewrite_exit_door exit_door g3) s4,
            rooms, guard_doors.eraseIdx k, exit_door⟩
    else none
  else none

/-- `MapGenerator::generate_layer`.  `none` models a panic: the
`assert_eq!(num_doors, guard_doors.len())` failing, or
`guard_doors.remove` on an out-of-range index. -/
def generate_layer (self : MapGenerator) (s : List Nat) : Option MapGenResult :=
  doorStage self (roomPhase self s).rooms
    (rewrite_wall_details (roomPhase self s).g) (roomPhase self s).s

/-! ## Predicates used by the claims -/

/-- Every in-bounds cell of the grid holds a tile (`Some`). -/
def allCellsSome (g : Layer) : Prop :=
  ∀ c ∈ g.data, c ≠ none

/-- Every border cell holds a wall-class tile id. -/
def borderWallClass (g : Layer) : Prop :=
  ∀ x y, x < g.width → y < g.height →
    (x = 0 ∨ x = g.width - 1 ∨ y = 0 ∨ y = g.height - 1) →
    ∃ t, cellAt g x y = some t ∧ t ∈ WALL_TILE_IDS

/-- The grid invariant maintained over the whole pipeline: the flat data
has exactly `width * height` cells, all populated, and the border is
wall-class. -/
def LayerInv (g : Layer) : Prop :=
  g.data.length = g.width * g.height ∧ allCellsSome g ∧ borderWallClass g

/-- A cell (by coordinates) known to be strictly interior. -/
def interiorCell (g : Layer) (x y : Nat) : Prop :=
  1 ≤ x ∧ x + 2 ≤ g.width ∧ 1 ≤ y ∧ y + 2 ≤ g.height

/-- Well-formedness of a generator configuration: the implicit domain of
the spec's guarantees (§4.1 requires the grid to fit the rooms; §7 calls
out-of-bounds configurations a caller error).  `pmax` is the larger of the
two effective corridor paddings (horizontal default 0, vertical default
1). -/
def WellFormed (self : MapGenerator) : Prop :=
  let pmax := max (self.corridor_padding.getD 0) (self.corridor_padding.getD 1)
  1 ≤ self.min_room_size.x ∧ 1 ≤ self.min_room_size.y ∧
  self.min_room_size.x ≤ self.max_room_size.x ∧
  self.min_room_size.y ≤ self.max_room_size.y ∧
  self.max_room_size.x + 3 ≤ self.size.x ∧
  self.max_room_size.y + 3 ≤ self.size.y ∧
  2 * pmax ≤ self.min_room_size.x ∧ 2 * pmax ≤ self.min_room_size.y ∧
  2 ≤ self.door_clearance ∧
  self.wall_tile_id ∈ WALL_TILE_IDS

instance (self : MapGenerator) : Decidable (WellFormed self) := by
  unfold WellFormed; infer_instance

/-- Two doors at least 3 columns apart whenever they share a row (so
their 2-wide door tiles never collide; their 4-cell footprints can share
at most one edge cell). -/
def doorSep (a b : UVec2) : Prop :=
  a.y = b.y → a.x + 3 ≤ b.x ∨ b.x + 3 ≤ a.x

instance (a b : UVec2) : Decidable (doorSep a b) := by
  unfold doorSep; infer_instance

/-- The claim's notion of overlapping doors: the 4-cell-wide horizontal
footprints (cells `x .. x+4` of row `y`) share a cell. -/
def footprintsOverlap (a b : UVec2) : Prop :=
  a.y = b.y ∧ a.x < b.x + 4 ∧ b.x < a.x + 4

instance (a b : UVec2) : Decidable (footprintsOverlap a b) := by
  unfold footprintsOverlap; infer_instance

/-- The claim C2 guarantee, as stated: all returned doors (exit door and
guard doors) have pairwise non-overlapping footprints. -/
def claimNonOverlap (r : MapGenResult) : Prop :=
  (r.exit_door :: r.guard_doors).Pairwise fun a b => ¬ footprintsOverlap a b

instance (r : MapGenResult) : Decidable (claimNonOverlap r) := by
  unfold claimNonOverlap; exact List.instDecidablePairwise _

/-- Claim C6's candidate condition as the claim words it: the four facade
cells and **the clearance cells below them, rows `y+1` through
`y+clearance`**, all hold the required tile, and the whole region is
in-bounds. -/
def c6ClaimedCandidate (self : MapGenerator) (g : Layer) (x y : Nat) : Prop :=
  x + 4 ≤ g.width ∧ y + self.door_clearance ≤ g.height ∧
  (∀ i < 4, cellAt g (x + i) y = some FACADE_CENTER_TILE_ID) ∧
  (∀ i < 4, ∀ j, 1 ≤ j → j ≤ self.door_clearance →
    cellAt g (x + i) (y + j) = some GROUND_01_TILE_ID)

instance (self : MapGenerator) (g : Layer) (x y : Nat) :
    Decidable (c6ClaimedCandidate self g x y) := by
  unfold c6ClaimedCandidate; infer_instance

/-- The amended C6 candidate condition, matching the code: the region is
in-bounds, no cell of the 4-wide facade row holds a tile other than the
facade centre (empty cells pass), and no clearance cell of rows `y+1`
through `y + clearance - 1` holds a tile other than ground. -/
def codeCandidate (self : MapGenerator) (g : Layer) (x y : Nat) : Prop :=
  x + 4 ≤ g.width ∧ y + self.door_clearance ≤ g.height ∧
  ∀ xx, x ≤ xx → xx < x + 4 →
    (∀ t, cellAt g xx y = some t → t = FACADE_CENTER_TILE_ID) ∧
    ∀ yy, y + 1 ≤ yy → yy < y + self.door_clearance →
      ∀ t, cellAt g xx yy = some t → t = GROUND_01_TILE_ID

/-- Configuration used for the C6 counterexample (only `door_clearance`
matters to `check_door_candidate`). -/
def cfgC6 : MapGenerator :=
  { ground_tile_id := GROUND_01_TILE_ID, wall_tile_id := WALL_01_TILE_ID,
    size := ⟨8, 4⟩, min_room_size := ⟨1, 1⟩, max_room_size := ⟨1, 1⟩,
    max_room_count := 1, corridor_padding := some 0, door_clearance := 2 }

/-- An 8×4 grid whose candidate window at (1,1) has three facade cells,
one **empty** cell, and ground clearance below. -/
def gC6 : Layer :=
  ⟨8, 4,
   [some 0, some 0, some 0, some 0, some 0, some 0, some 0, some 0,
    some 0, some 40, some 40, some 40, none, some 0, some 0, some 0,
    some 0, some 48, some 48, some 48, some 48, some 0, some 0, some 0,
    some 0, some 48, some 48, some 48, some 48, some 0, some 0, some 0]⟩

/-- A 5×5 grid of entirely empty cells (used to exercise the
empty-neighbourhood behaviour of the rewrite rules). -/
def gNone : Layer := ⟨5, 5, List.replicate 25 none⟩

/-! ### Claim C10: corridor-carve safety predicates -/

/-- The `u32` subtractions of `generate_corridor_horizontal` do not
underflow. -/
def corridorHUnderflowFree (src_x dest_x y p : Nat) : Prop :=
  p ≤ y ∧ p ≤ min src_x dest_x

/-- Every cell `generate_corridor_horizontal` writes is in-bounds. -/
def corridorHWritesInBounds (w h src_x dest_x y p : Nat) : Prop :=
  ∀ t ∈ corridorHTargets src_x dest_x y p, t.1 < w ∧ t.2 < h

/-- The carve is safe: no underflow, and only in-bounds cells written. -/
def corridorHSafe (w h src_x dest_x y p : Nat) : Prop :=
  corridorHUnderflowFree src_x dest_x y p ∧ corridorHWritesInBounds w h src_x dest_x y p

def corridorVUnderflowFree (x src_y dest_y p : Nat) : Prop :=
  p ≤ x ∧ p ≤ min src_y dest_y

def corridorVWritesInBounds (w h x src_y dest_y p : Nat) : Prop :=
  ∀ t ∈ corridorVTargets x src_y dest_y p, t.1 < w ∧ t.2 < h

def corridorVSafe (w h x src_y dest_y p : Nat) : Prop :=
  corridorVUnderflowFree x src_y dest_y p ∧ corridorVWritesInBounds w h x src_y dest_y p

/-- The precondition claimed by C10 for the horizontal carve: the carve's
row coordinate and the span's lower endpoint are at least the padding, and
the upper endpoint plus padding is below the grid dimension the span runs
along.  (Note: no bound relating `y + p` to the height.) -/
def c10ClaimedPreH (w _h src_x dest_x y p : Nat) : Prop :=
  p ≤ y ∧ p ≤ min src_x dest_x ∧ max src_x dest_x + p < w

def c10ClaimedPreV (_w h x src_y dest_y p : Nat) : Prop :=
  p ≤ x ∧ p ≤ min src_y dest_y ∧ max src_y dest_y + p < h

/-! ## Invariants carried through the pipeline (rooms and doors) -/

/-- Geometric soundness of an accepted room inside a `WellFormed`
generator's grid, established at draw time (`roomDraw_ok`). -/
def RoomOK (self : MapGenerator) (r : RectN) : Prop :=
  1 ≤ r.x ∧ r.x + r.w + 2 ≤ self.size.x ∧
  1 ≤ r.y ∧ r.y + r.h + 2 ≤ self.size.y ∧
  self.min_room_size.x ≤ r.w ∧ self.min_room_size.y ≤ r.h

/-- A placed guard door: the geometric bounds its facade row implies
under the grid invariant, and the two door tiles its placement wrote. -/
def doorPlaced (g : Layer) (d : UVec2) : Prop :=
  1 ≤ d.x ∧ d.x + 5 ≤ g.width ∧ 1 ≤ d.y ∧ d.y + 3 ≤ g.height ∧
  cellAt g (d.x + 1) d.y = some DOOR_LEFT_OPEN_TILE_ID ∧
  cellAt g (d.x + 2) d.y = some DOOR_RIGHT_OPEN_TILE_ID

/-- Invariant of the door-placement loop: every accepted door is placed
and the accepted doors are pairwise separated. -/
def DoorsInv (g : Layer) (doors : List UVec2) : Prop :=
  (∀ d ∈ doors, doorPlaced g d) ∧ doors.Pairwise doorSep

/-- Invariant of the room-placement loop: the grid keeps the configured
dimensions and the grid invariant, and every accepted room is sound. -/
def RoomPhaseInv (self : MapGenerator) (st : RoomState) : Prop :=
  st.g.width = self.size.x ∧ st.g.height = self.size.y ∧ LayerInv st.g ∧
  ∀ r ∈ st.rooms, RoomOK self r

/-! ## Concrete configurations and runs used by the claims -/

/-- The claim-side retry semantics of the door-placement loop: each retry
reruns the candidate search and placement on the **original** grid (all of
the failed attempt's placements discarded), with the random stream
continuing. -/
def doorAttemptsRestoring (self : MapGenerator) :
    Nat → Nat → Layer → List Nat → List UVec2 × Layer × List Nat
  | 0, _, g, s => ([], g, s)
  | fuel + 1, num_doors, g, s =>
    let r := generate_guard_doors self num_doors g s
    if r.1.length = num_doors ∨ fuel = 0 then r
    else doorAttemptsRestoring self fuel num_doors g r.2.2

/-- An 11×8 configuration with one 5×4 room: a fully successful run on the
empty stream. -/
def cfgW : MapGenerator :=
  { ground_tile_id := GROUND_01_TILE_ID, wall_tile_id := WALL_01_TILE_ID,
    size := ⟨11, 8⟩, min_room_size := ⟨5, 4⟩, max_room_size := ⟨5, 4⟩,
    max_room_count := 1, corridor_padding := some 0, door_clearance := 2 }

/-- A 19×6 configuration with two 7×3 rooms: its run places two doors only
3 columns apart, overlapping 4-cell footprints. -/
def cfgC2 : MapGenerator :=
  { ground_tile_id := GROUND_01_TILE_ID, wall_tile_id := WALL_01_TILE_ID,
    size := ⟨19, 6⟩, min_room_size := ⟨7, 3⟩, max_room_size := ⟨7, 3⟩,
    max_room_count := 2, corridor_padding := some 0, door_clearance := 2 }

/-- An 8×8 configuration whose single 2×2 room never yields a door
candidate: all 10 attempts fall short and generation aborts (`none`). -/
def cfgF : MapGenerator :=
  { ground_tile_id := GROUND_01_TILE_ID, wall_tile_id := WALL_01_TILE_ID,
    size := ⟨8, 8⟩, min_room_size := ⟨2, 2⟩, max_room_size := ⟨2, 2⟩,
    max_room_count := 1, corridor_padding := some 0, door_clearance := 2 }

/-- A 7×8 configuration whose room-phase grid still holds a cleanup-rule
pattern after the coded Phase-A loop stops. -/
def cfgC1 : MapGenerator :=
  { ground_tile_id := GROUND_01_TILE_ID, wall_tile_id := WALL_01_TILE_ID,
    size := ⟨7, 8⟩, min_room_size := ⟨1, 2⟩, max_room_size := ⟨3, 3⟩,
    max_room_count := 3, corridor_padding := some 0, door_clearance := 2 }

def sC1 : List Nat := [0, 1, 2, 2, 2, 0, 0, 0, 0, 0, 0, 1]

/-- A 10×4 configuration for the door-retry comparison. -/
def cfgC3 : MapGenerator :=
  { ground_tile_id := GROUND_01_TILE_ID, wall_tile_id := WALL_01_TILE_ID,
    size := ⟨10, 4⟩, min_room_size := ⟨1, 1⟩, max_room_size := ⟨1, 1⟩,
    max_room_count := 0, corridor_padding := some 0, door_clearance := 2 }

/-- A 10×4 grid with one 8-cell facade strip (row 1) over a ground strip
(row 2): door candidates at x = 1..5 in row 1. -/
def gC3 : Layer :=
  ⟨10, 4, [some 0, some 0, some 0, some 0, some 0, some 0, some 0, some 0, some 0, some 0, some 0, some 40, some 40, some 40, some 40, some 40, some 40, some 40, some 40, some 0, some 0, some 48, some 48, some 48, some 48, some 48, some 48, some 48, some 48, some 0, some 0, some 0, some 0, some 0, some 0, some 0, some 0, some 0, some 0, some 0]⟩

def sC3 : List Nat := [2, 0, 0, 0, 0, 0, 3]

def gC1Room : Layer :=
  ⟨7, 8, [some 0, some 0, some 0, some 0, some 0, some 0, some 0, some 0, some 0, some 0, some 0, some 0, some 0, some 0, some 0, some 48, some 0, some 0, some 0, some 0, some 0, some 0, some 48, some 0, some 48, some 0, some 0, some 0, some 0, some 48, some 48, some 48, some 0, some 0, some 0, some 0, some 0, some 0, some 48, some 0, some 0, some 0, some 0, some 0, some 0, some 0, some 0, some 0, some 0, some 0, some 0, some 0, some 0, some 0, some 0, some 0]⟩

def roomsC1 : List RectN := [⟨3, 3, 1, 3⟩, ⟨1, 2, 1, 2⟩]

def sC1Room : List Nat := []

def gWRoom : Layer :=
  ⟨11, 8, [some 0, some 0, some 0, some 0, some 0, some 0, some 0, some 0, some 0, some 0, some 0, some 0, some 48, some 48, some 48, some 48, some 48, some 0, some 0, some 0, some 0, some 0, some 0, some 48, some 48, some 48, some 48, some 48, some 0, some 0, some 0, some 0, some 0, some 0, some 48, some 48, some 48, some 48, some 48, some 0, some 0, some 0, some 0, some 0, some 0, some 48, some 48, some 48, some 48, some 48, some 0, some 0, some 0, some 0, some 0, some 0, some 0, some 0, some 0, some 0, some 0, some 0, some 0, some 0, some 0, some 0, some 0, some 0, some 0, some 0, some 0, some 0, some 0, some 0, some 0, some 0, some 0, some 0, some 0, some 0, some 0, some 0, some 0, some 0, some 0, some 0, some 0, some 0]⟩
def roomsW : List RectN := [⟨1, 1, 5, 4⟩]
def sWRoom : List Nat := []
def gWClean : Layer :=
  ⟨11, 8, [some 0, some 0, some 0, some 0, some 0, some 0, some 0, some 0, some 0, some 0, some 0, some 0, some 48, some 48, some 48, some 48, some 48, some 0, some 0, some 0, some 0, some 0, some 0, some 48, some 48, some 48, some 48, some 48, some 0, some 0, some 0, some 0, some 0, some 0, some 48, some 48, some 48, some 48, some 48, some 0, some 0, some 0, some 0, some 0, some 0, some 48, some 48, some 48, some 48, some 48, some 0, some 0, some 0, some 0, some 0, some 0, some 0, some 0, some 0, some 0, some 0, some 0, some 0, some 0, some 0, some 0, some 0, some 0, some 0, some 0, some 0, some 0, some 0, some 0, some 0, some 0, some 0, some 0, some 0, some 0, some 0, some 0, some 0, some 0, some 0, some 0, some 0, some 0]⟩
def gWCor0 : Layer :=
  ⟨11, 8, [some 1, some 0, some 0, some 0, some 0, some 0, some 0, some 0, some 0, some 0, some 0, some 0, some 48, some 48, some 48, some 48, some 48, some 0, some 0, some 0, some 0, some 0, some 0, some 48, some 48, some 48, some 48, some 48, some 0, some 0, some 0, some 0, some 0, some 0, some 48, some 48, some 48, some 48, some 48, some 0, some 0, some 0, some 0, some 0, some 0, some 48, some 48, some 48, some 48, some 48, some 0, some 0, some 0, some 0, some 0, some 25, some 0, some 0, some 0, some 0, some 0, some 0, some 0, some 0, some 0, some 0, some 0, some 0, some 0, some 0, some 0, some 0, some 0, some 0, some 0, some 0, some 0, some 0, some 0, some 0, some 0, some 0, some 0, some 0, some 0, some 0, some 0, some 0]⟩
def gWCor1 : Layer :=
  ⟨11, 8, [some 1, some 0, some 0, some 0, some 0, some 0, some 0, some 0, some 0, some 0, some 0, some 0, some 48, some 48, some 48, some 48, some 48, some 0, some 0, some 0, some 0, some 0, some 0, some 48, some 48, some 48, some 48, some 48, some 0, some 0, some 0, some 0, some 0, some 0, some 48, some 48, some 48, some 48, some 48, some 0, some 0, some 0, some 0, some 0, some 0, some 48, some 48, some 48, some 48, some 48, some 0, some 0, some 0, some 0, some 0, some 25, some 0, some 0, some 0, some 0, some 0, some 0, some 0, some 0, some 0, some 0, some 0, some 0, some 0, some 0, some 0, some 0, some 0, some 0, some 0, some 0, some 0, some 0, some 0, some 0, some 0, some 0, some 0, some 0, some 0, some 0, some 0, some 0]⟩
def gWCor2 : Layer :=
  ⟨11, 8, [some 1, some 0, some 0, some 0, some 0, some 0, some 3, some 0, some 0, some 0, some 0, some 0, some 48, some 48, some 48, some 48, some 48, some 0, some 0, some 0, some 0, some 0, some 0, some 48, some 48, some 48, some 48, some 48, some 0, some 0, some 0, some 0, some 0, some 0, some 48, some 48, some 48, some 48, some 48, some 0, some 0, some 0, some 0, some 0, some 0, some 48, some 48, some 48, some 48, some 48, some 0, some 0, some 0, some 0, some 0, some 25, some 0, some 0, some 0, some 0, some 0, some 27, some 0, some 0, some 0, some 0, some 0, some 0, some 0, some 0, some 0, some 0, some 0, some 0, some 0, some 0, some 0, some 0, some 0, some 0, some 0, some 0, some 0, some 0, some 0, some 0, some 0, some 0]⟩
def gWCor3 : Layer :=
  ⟨11, 8, [some 1, some 0, some 0, some 0, some 0, some 0, some 3, some 0, some 0, some 0, some 0, some 0, some 48, some 48, some 48, some 48, some 48, some 0, some 0, some 0, some 0, some 0, some 0, some 48, some 48, some 48, some 48, some 48, some 0, some 0, some 0, some 0, some 0, some 0, some 48, some 48, some 48, some 48, some 48, some 0, some 0, some 0, some 0, some 0, some 0, some 48, some 48, some 48, some 48, some 48, some 0, some 0, some 0, some 0, some 0, some 25, some 0, some 0, some 0, some 0, some 0, some 27, some 0, some 0, some 0, some 0, some 0, some 0, some 0, some 0, some 0, some 0, some 0, some 0, some 0, some 0, some 0, some 0, some 0, some 0, some 0, some 0, some 0, some 0, some 0, some 0, some 0, some 0]⟩
def gWCor4 : Layer :=
  ⟨11, 8, [some 1, some 0, some 0, some 0, some 0, some 0, some 3, some 0, some 0, some 0, some 0, some 0, some 48, some 48, some 48, some 48, some 48, some 0, some 0, some 0, some 0, some 0, some 0, some 48, some 48, some 48, some 48, some 48, some 0, some 0, some 0, some 0, some 0, some 0, some 48, some 48, some 48, some 48, some 48, some 0, some 0, some 0, some 0, some 0, some 0, some 48, some 48, some 48, some 48, some 48, some 0, some 0, some 0, some 0, some 0, some 25, some 0, some 0, some 0, some 0, some 0, some 27, some 0, some 0, some 0, some 0, some 0, some 0, some 0, some 0, some 0, some 0, some 0, some 0, some 0, some 0, some 0, some 0, some 0, some 0, some 0, some 0, some 0, some 0, some 0, some 0, some 0, some 0]⟩
def gWCor5 : Layer :=
  ⟨11, 8, [some 1, some 0, some 0, some 0, some 0, some 0, some 3, some 0, some 0, some 0, some 0, some 0, some 48, some 48, some 48, some 48, some 48, some 0, some 0, some 0, some 0, some 0, some 0, some 48, some 48, some 48, some 48, some 48, some 0, some 0, some 0, some 0, some 0, some 0, some 48, some 48, some 48, some 48, some 48, some 0, some 0, some 0, some 0, some 0, some 0, some 48, some 48, some 48, some 48, some 48, some 0, some 0, some 0, some 0, some 0, some 25, some 0, some 0, some 0, some 0, some 0, some 27, some 0, some 0, some 0, some 0, some 0, some 0, some 0, some 0, some 0, some 0, some 0, some 0, some 0, some 0, some 0, some 0, some 0, some 0, some 0, some 0, some 0, some 0, some 0, some 0, some 0, some 0]⟩
def gWSides0 : Layer :=
  ⟨11, 8, [some 1, some 0, some 0, some 0, some 0, some 0, some 3, some 0, some 0, some 0, some 0, some 13, some 48, some 48, some 48, some 48, some 48, some 0, some 0, some 0, some 0, some 0, some 13, some 48, some 48, some 48, some 48, some 48, some 0, some 0, some 0, some 0, some 0, some 13, some 48, some 48, some 48, some 48, some 48, some 0, some 0, some 0, some 0, some 0, some 13, some 48, some 48, some 48, some 48, some 48, some 0, some 0, some 0, some 0, some 0, some 25, some 0, some 0, some 0, some 0, some 0, some 27, some 0, some 0, some 0, some 0, some 0, some 0, some 0, some 0, some 0, some 0, some 0, some 0, some 0, some 0, some 0, some 0, some 0, some 0, some 0, some 0, some 0, some 0, some 0, some 0, some 0, some 0]⟩
def gWSides1 : Layer :=
  ⟨11, 8, [some 1, some 0, some 0, some 0, some 0, some 0, some 3, some 0, some 0, some 0, some 0, some 13, some 48, some 48, some 48, some 48, some 48, some 0, some 0, some 0, some 0, some 0, some 13, some 48, some 48, some 48, some 48, some 48, some 0, some 0, some 0, some 0, some 0, some 13, some 48, some 48, some 48, some 48, some 48, some 0, some 0, some 0, some 0, some 0, some 13, some 48, some 48, some 48, some 48, some 48, some 0, some 0, some 0, some 0, some 0, some 25, some 0, some 0, some 0, some 0, some 0, some 27, some 0, some 0, some 0, some 0, some 0, some 0, some 0, some 0, some 0, some 0, some 0, some 0, some 0, some 0, some 0, some 0, some 0, some 0, some 0, some 0, some 0, some 0, some 0, some 0, some 0, some 0]⟩
def gWSides2 : Layer :=
  ⟨11, 8, [some 1, some 0, some 0, some 0, some 0, some 0, some 3, some 0, some 0, some 0, some 0, some 13, some 48, some 48, some 48, some 48, some 48, some 15, some 0, some 0, some 0, some 0, some 13, some 48, some 48, some 48, some 48, some 48, some 15, some 0, some 0, some 0, some 0, some 13, some 48, some 48, some 48, some 48, some 48, some 15, some 0, some 0, some 0, some 0, some 13, some 48, some 48, some 48, some 48, some 48, some 15, some 0, some 0, some 0, some 0, some 25, some 0, some 0, some 0, some 0, some 0, some 27, some 0, some 0, some 0, some 0, some 0, some 0, some 0, some 0, some 0, some 0, some 0, some 0, some 0, some 0, some 0, some 0, some 0, some 0, some 0, some 0, some 0, some 0, some 0, some 0, some 0, some 0]⟩
def gWSides3 : Layer :=
  ⟨11, 8, [some 1, some 0, some 0, some 0, some 0, some 0, some 3, some 0, some 0, some 0, some 0, some 13, some 48, some 48, some 48, some 48, some 48, some 15, some 0, some 0, some 0, some 0, some 13, some 48, some 48, some 48, some 48, some 48, some 15, some 0, some 0, some 0, some 0, some 13, some 48, some 48, some 48, some 48, some 48, some 15, some 0, some 0, some 0, some 0, some 13, some 48, some 48, some 48, some 48, some 48, some 15, some 0, some 0, some 0, some 0, some 25, some 0, some 0, some 0, some 0, some 0, some 27, some 0, some 0, some 0, some 0, some 0, some 0, some 0, some 0, some 0, some 0, some 0, some 0, some 0, some 0, some 0, some 0, some 0, some 0, some 0, some 0, some 0, some 0, some 0, some 0, some 0, some 0]⟩
def gWSides4 : Layer :=
  ⟨11, 8, [some 1, some 0, some 0, some 0, some 0, some 0, some 3, some 0, some 0, some 0, some 0, some 13, some 48, some 48, some 48, some 48, some 48, some 15, some 0, some 0, some 0, some 0, some 13, some 48, some 48, some 48, some 48, some 48, some 15, some 0, some 0, some 0, some 0, some 13, some 48, some 48, some 48, some 48, some 48, some 15, some 0, some 0, some 0, some 0, some 13, some 48, some 48, some 48, some 48, some 48, some 15, some 0, some 0, some 0, some 0, some 25, some 0, some 0, some 0, some 0, some 0, some 27, some 0, some 0, some 0, some 0, some 0, some 0, some 0, some 0, some 0, some 0, some 0, some 0, some 0, some 0, some 0, some 0, some 0, some 0, some 0, some 0, some 0, some 0, some 0, some 0, some 0, some 0]⟩
def gWSides5 : Layer :=
  ⟨11, 8, [some 1, some 0, some 0, some 0, some 0, some 0, some 3, some 0, some 0, some 0, some 0, some 13, some 48, some 48, some 48, some 48, some 48, some 15, some 0, some 0, some 0, some 0, some 13, some 48, some 48, some 48, some 48, some 48, some 15, some 0, some 0, some 0, some 0, some 13, some 48, some 48, some 48, some 48, some 48, some 15, some 0, some 0, some 0, some 0, some 13, some 48, some 48, some 48, some 48, some 48, some 15, some 0, some 0, some 0, some 0, some 25, some 0, some 0, some 0, some 0, some 0, some 27, some 0, some 0, some 0, some 0, some 0, some 0, some 0, some 0, some 0, some 0, some 0, some 0, some 0, some 0, some 0, some 0, some 0, some 0, some 0, some 0, some 0, some 0, some 0, some 0, some 0, some 0]⟩
def gWTB0 : Layer :=
  ⟨11, 8, [some 1, some 2, some 0, some 0, some 0, some 0, some 3, some 0, some 0, some 0, some 0, some 13, some 48, some 48, some 48, some 48, some 48, some 15, some 0, some 0, some 0, some 0, some 13, some 48, some 48, some 48, some 48, some 48, some 15, some 0, some 0, some 0, some 0, some 13, some 48, some 48, some 48, some 48, some 48, some 15, some 0, some 0, some 0, some 0, some 13, some 48, some 48, some 48, some 48, some 48, some 15, some 0, some 0, some 0, some 0, some 25, some 26, some 0, some 0, some 0, some 0, some 27, some 0, some 0, some 0, some 0, some 0, some 0, some 0, some 0, some 0, some 0, some 0, some 0, some 0, some 0, some 0, some 0, some 0, some 0, some 0, some 0, some 0, some 0, some 0, some 0, some 0, some 0]⟩
def gWTB1 : Layer :=
  ⟨11, 8, [some 1, some 2, some 2, some 2, some 0, some 0, some 3, some 0, some 0, some 0, some 0, some 13, some 48, some 48, some 48, some 48, some 48, some 15, some 0, some 0, some 0, some 0, some 13, some 48, some 48, some 48, some 48, some 48, some 15, some 0, some 0, some 0, some 0, some 13, some 48, some 48, some 48, some 48, some 48, some 15, some 0, some 0, some 0, some 0, some 13, some 48, some 48, some 48, some 48, some 48, some 15, some 0, some 0, some 0, some 0, some 25, some 26, some 26, some 26, some 0, some 0, some 27, some 0, some 0, some 0, some 0, some 0, some 0, some 0, some 0, some 0, some 0, some 0, some 0, some 0, some 0, some 0, some 0, some 0, some 0, some 0, some 0, some 0, some 0, some 0, some 0, some 0, some 0]⟩
def gWTB2 : Layer :=
  ⟨11, 8, [some 1, some 2, some 2, some 2, some 2, some 2, some 3, some 0, some 0, some 0, some 0, some 13, some 48, some 48, some 48, some 48, some 48, some 15, some 0, some 0, some 0, some 0, some 13, some 48, some 48, some 48, some 48, some 48, some 15, some 0, some 0, some 0, some 0, some 13, some 48, some 48, some 48, some 48, some 48, some 15, some 0, some 0, some 0, some 0, some 13, some 48, some 48, some 48, some 48, some 48, some 15, some 0, some 0, some 0, some 0, some 25, some 26, some 26, some 26, some 26, some 26, some 27, some 0, some 0, some 0, some 0, some 0, some 0, some 0, some 0, some 0, some 0, some 0, some 0, some 0, some 0, some 0, some 0, some 0, some 0, some 0, some 0, some 0, some 0, some 0, some 0, some 0, some 0]⟩
def gWTB3 : Layer :=
  ⟨11, 8, [some 1, some 2, some 2, some 2, some 2, some 2, some 3, some 0, some 0, some 0, some 0, some 13, some 48, some 48, some 48, some 48, some 48, some 15, some 0, some 0, some 0, some 0, some 13, some 48, some 48, some 48, some 48, some 48, some 15, some 0, some 0, some 0, some 0, some 13, some 48, some 48, some 48, some 48, some 48, some 15, some 0, some 0, some 0, some 0, some 13, some 48, some 48, some 48, some 48, some 48, some 15, some 0, some 0, some 0, some 0, some 25, some 26, some 26, some 26, some 26, some 26, some 27, some 0, some 0, some 0, some 0, some 0, some 0, some 0, some 0, some 0, some 0, some 0, some 0, some 0, some 0, some 0, some 0, some 0, some 0, some 0, some 0, some 0, some 0, some 0, some 0, some 0, some 0]⟩
def gWTB4 : Layer :=
  ⟨11, 8, [some 1, some 2, some 2, some 2, some 2, some 2, some 3, some 0, some 0, some 0, some 0, some 13, some 48, some 48, some 48, some 48, some 48, some 15, some 0, some 0, some 0, some 0, some 13, some 48, some 48, some 48, some 48, some 48, some 15, some 0, some 0, some 0, some 0, some 13, some 48, some 48, some 48, some 48, some 48, some 15, some 0, some 0, some 0, some 0, some 13, some 48, some 48, some 48, some 48, some 48, some 15, some 0, some 0, some 0, some 0, some 25, some 26, some 26, some 26, some 26, some 26, some 27, some 0, some 0, some 0, some 0, some 0, some 0, some 0, some 0, some 0, some 0, some 0, some 0, some 0, some 0, some 0, some 0, some 0, some 0, some 0, some 0, some 0, some 0, some 0, some 0, some 0, some 0]⟩
def gWTB5 : Layer :=
  ⟨11, 8, [some 1, some 2, some 2, some 2, some 2, some 2, some 3, some 0, some 0, some 0, some 0, some 13, some 48, some 48, some 48, some 48, some 48, some 15, some 0, some 0, some 0, some 0, some 13, some 48, some 48, some 48, some 48, some 48, some 15, some 0, some 0, some 0, some 0, some 13, some 48, some 48, some 48, some 48, some 48, some 15, some 0, some 0, some 0, some 0, some 13, some 48, some 48, some 48, some 48, some 48, some 15, some 0, some 0, some 0, some 0, some 25, some 26, some 26, some 26, some 26, some 26, some 27, some 0, some 0, some 0, some 0, some 0, some 0, some 0, some 0, some 0, some 0, some 0, some 0, some 0, some 0, some 0, some 0, some 0, some 0, some 0, some 0, some 0, some 0, some 0, some 0, some 0, some 0]⟩
def gWFac0 : Layer :=
  ⟨11, 8, [some 1, some 2, some 2, some 2, some 2, some 2, some 3, some 0, some 0, some 0, some 0, some 13, some 40, some 48, some 48, some 48, some 48, some 15, some 0, some 0, some 0, some 0, some 13, some 48, some 48, some 48, some 48, some 48, some 15, some 0, some 0, some 0, some 0, some 13, some 48, some 48, some 48, some 48, some 48, some 15, some 0, some 0, some 0, some 0, some 13, some 48, some 48, some 48, some 48, some 48, some 15, some 0, some 0, some 0, some 0, some 25, some 26, some 26, some 26, some 26, some 26, some 27, some 0, some 0, some 0, some 0, some 0, some 0, some 0, some 0, some 0, some 0, some 0, some 0, some 0, some 0, some 0, some 0, some 0, some 0, some 0, some 0, some 0, some 0, some 0, some 0, some 0, some 0]⟩
def gWFac1 : Layer :=
  ⟨11, 8, [some 1, some 2, some 2, some 2, some 2, some 2, some 3, some 0, some 0, some 0, some 0, some 13, some 40, some 40, some 40, some 48, some 48, some 15, some 0, some 0, some 0, some 0, some 13, some 48, some 48, some 48, some 48, some 48, some 15, some 0, some 0, some 0, some 0, some 13, some 48, some 48, some 48, some 48, some 48, some 15, some 0, some 0, some 0, some 0, some 13, some 48, some 48, some 48, some 48, some 48, some 15, some 0, some 0, some 0, some 0, some 25, some 26, some 26, some 26, some 26, some 26, some 27, some 0, some 0, some 0, some 0, some 0, some 0, some 0, some 0, some 0, some 0, some 0, some 0, some 0, some 0, some 0, some 0, some 0, some 0, some 0, some 0, some 0, some 0, some 0, some 0, some 0, some 0]⟩
def gWFac2 : Layer :=
  ⟨11, 8, [some 1, some 2, some 2, some 2, some 2, some 2, some 3, some 0, some 0, some 0, some 0, some 13, some 40, some 40, some 40, some 40, some 40, some 15, some 0, some 0, some 0, some 0, some 13, some 48, some 48, some 48, some 48, some 48, some 15, some 0, some 0, some 0, some 0, some 13, some 48, some 48, some 48, some 48, some 48, some 15, some 0, some 0, some 0, some 0, some 13, some 48, some 48, some 48, some 48, some 48, some 15, some 0, some 0, some 0, some 0, some 25, some 26, some 26, some 26, some 26, some 26, some 27, some 0, some 0, some 0, some 0, some 0, some 0, some 0, some 0, some 0, some 0, some 0, some 0, some 0, some 0, some 0, some 0, some 0, some 0, some 0, some 0, some 0, some 0, some 0, some 0, some 0, some 0]⟩
def gWFac3 : Layer :=
  ⟨11, 8, [some 1, some 2, some 2, some 2, some 2, some 2, some 3, some 0, some 0, some 0, some 0, some 13, some 40, some 40, some 40, some 40, some 40, some 15, some 0, some 0, some 0, some 0, some 13, some 48, some 48, some 48, some 48, some 48, some 15, some 0, some 0, some 0, some 0, some 13, some 48, some 48, some 48, some 48, some 48, some 15, some 0, some 0, some 0, some 0, some 13, some 48, some 48, some 48, some 48, some 48, some 15, some 0, some 0, some 0, some 0, some 25, some 26, some 26, some 26, some 26, some 26, some 27, some 0, some 0, some 0, some 0, some 0, some 0, some 0, some 0, some 0, some 0, some 0, some 0, some 0, some 0, some 0, some 0, some 0, some 0, some 0, some 0, some 0, some 0, some 0, some 0, some 0, some 0]⟩
def gWFac4 : Layer :=
  ⟨11, 8, [some 1, some 2, some 2, some 2, some 2, some 2, some 3, some 0, some 0, some 0, some 0, some 13, some 40, some 40, some 40, some 40, some 40, some 15, some 0, some 0, some 0, some 0, some 13, some 48, some 48, some 48, some 48, some 48, some 15, some 0, some 0, some 0, some 0, some 13, some 48, some 48, some 48, some 48, some 48, some 15, some 0, some 0, some 0, some 0, some 13, some 48, some 48, some 48, some 48, some 48, some 15, some 0, some 0, some 0, some 0, some 25, some 26, some 26, some 26, some 26, some 26, some 27, some 0, some 0, some 0, some 0, some 0, some 0, some 0, some 0, some 0, some 0, some 0, some 0, some 0, some 0, some 0, some 0, some 0, some 0, some 0, some 0, some 0, some 0, some 0, some 0, some 0, some 0]⟩
def gWFac5 : Layer :=
  ⟨11, 8, [some 1, some 2, some 2, some 2, some 2, some 2, some 3, some 0, some 0, some 0, some 0, some 13, some 40, some 40, some 40, some 40, some 40, some 15, some 0, some 0, some 0, some 0, some 13, some 48, some 48, some 48, some 48, some 48, some 15, some 0, some 0, some 0, some 0, some 13, some 48, some 48, some 48, some 48, some 48, some 15, some 0, some 0, some 0, some 0, some 13, some 48, some 48, some 48, some 48, some 48, some 15, some 0, some 0, some 0, some 0, some 25, some 26, some 26, some 26, some 26, some 26, some 27, some 0, some 0, some 0, some 0, some 0, some 0, some 0, some 0, some 0, some 0, some 0, some 0, some 0, some 0, some 0, some 0, some 0, some 0, some 0, some 0, some 0, some 0, some 0, some 0, some 0, some 0]⟩
def gWFin : Layer :=
  ⟨11, 8, [some 1, some 2, some 2, some 2, some 2, some 2, some 3, some 0, some 0, some 0, some 0, some 13, some 19, some 46, some 47, some 19, some 14, some 15, some 12, some 12, some 12, some 0, some 13, some 31, some 36, some 38, some 31, some 49, some 15, some 12, some 12, some 12, some 0, some 13, some 49, some 49, some 49, some 49, some 49, some 15, some 12, some 12, some 12, some 0, some 13, some 49, some 49, some 49, some 49, some 49, some 15, some 12, some 12, some 12, some 0, some 25, some 26, some 26, some 26, some 26, some 26, some 27, some 12, some 12, some 12, some 0, some 0, some 12, some 12, some 12, some 12, some 12, some 12, some 12, some 12, some 12, some 0, some 0, some 0, some 0, some 0, some 0, some 0, some 0, some 0, some 0, some 0, some 0]⟩
def resW : MapGenResult := ⟨gWFin, roomsW, [], ⟨1, 1⟩⟩
def gC2Room : Layer :=
  ⟨19, 6, [some 0, some 0, some 0, some 0, some 0, some 0, some 0, some 0, some 0, some 0, some 0, some 0, some 0, some 0, some 0, some 0, some 0, some 0, some 0, some 0, some 48, some 48, some 48, some 48, some 48, some 48, some 48, some 0, some 0, some 48, some 48, some 48, some 48, some 48, some 48, some 48, some 0, some 0, some 0, some 48, some 48, some 48, some 48, some 48, some 48, some 48, some 48, some 48, some 48, some 48, some 48, some 48, some 48, some 48, some 48, some 0, some 0, some 0, some 48, some 48, some 48, some 48, some 48, some 48, some 48, some 0, some 0, some 48, some 48, some 48, some 48, some 48, some 48, some 48, some 0, some 0, some 0, some 0, some 0, some 0, some 0, some 0, some 0, some 0, some 0, some 0, some 0, some 0, some 0, some 0, some 0, some 0, some 0, some 0, some 0, some 0, some 0, some 0, some 0, some 0, some 0, some 0, some 0, some 0, some 0, some 0, some 0, some 0, some 0, some 0, some 0, some 0, some 0, some 0]⟩
def roomsC2 : List RectN := [⟨1, 1, 7, 3⟩, ⟨10, 1, 7, 3⟩]
def sC2Room : List Nat := [0, 2, 0]
def gC2Clean : Layer :=
  ⟨19, 6, [some 0, some 0, some 0, some 0, some 0, some 0, some 0, some 0, some 0, some 0, some 0, some 0, some 0, some 0, some 0, some 0, some 0, some 0, some 0, some 0, some 48, some 48, some 48, some 48, some 48, some 48, some 48, some 0, some 0, some 48, some 48, some 48, some 48, some 48, some 48, some 48, some 0, some 0, some 0, some 48, some 48, some 48, some 48, some 48, some 48, some 48, some 48, some 48, some 48, some 48, some 48, some 48, some 48, some 48, some 48, some 0, some 0, some 0, some 48, some 48, some 48, some 48, some 48, some 48, some 48, some 0, some 0, some 48, some 48, some 48, some 48, some 48, some 48, some 48, some 0, some 0, some 0, some 0, some 0, some 0, some 0, some 0, some 0, some 0, some 0, some 0, some 0, some 0, some 0, some 0, some 0, some 0, some 0, some 0, some 0, some 0, some 0, some 0, some 0, some 0, some 0, some 0, some 0, some 0, some 0, some 0, some 0, some 0, some 0, some 0, some 0, some 0, some 0, some 0]⟩
def gC2Cor0 : Layer :=
  ⟨19, 6, [some 1, some 0, some 0, some 0, some 0, some 0, some 0, some 0, some 0, some 0, some 0, some 0, some 0, some 0, some 0, some 0, some 0, some 0, some 0, some 0, some 48, some 48, some 48, some 48, some 48, some 48, some 48, some 0, some 0, some 48, some 48, some 48, some 48, some 48, some 48, some 48, some 0, some 0, some 0, some 48, some 48, some 48, some 48, some 48, some 48, some 48, some 48, some 48, some 48, some 48, some 48, some 48, some 48, some 48, some 48, some 0, some 0, some 0, some 48, some 48, some 48, some 48, some 48, some 48, some 48, some 0, some 0, some 48, some 48, some 48, some 48, some 48, some 48, some 48, some 0, some 0, some 25, some 0, some 0, some 0, some 0, some 0, some 0, some 0, some 0, some 0, some 0, some 0, some 0, some 0, some 0, some 0, some 0, some 0, some 0, some 0, some 0, some 0, some 0, some 0, some 0, some 0, some 0, some 0, some 0, some 0, some 0, some 0, some 0, some 0, some 0, some 0, some 0, some 0]⟩
def gC2Cor1 : Layer :=
  ⟨19, 6, [some 1, some 0, some 0, some 0, some 0, some 0, some 0, some 0, some 0, some 0, some 0, some 0, some 0, some 0, some 0, some 0, some 0, some 0, some 0, some 0, some 48, some 48, some 48, some 48, some 48, some 48, some 48, some 0, some 0, some 48, some 48, some 48, some 48, some 48, some 48, some 48, some 0, some 0, some 0, some 48, some 48, some 48, some 48, some 48, some 48, some 48, some 48, some 48, some 48, some 48, some 48, some 48, some 48, some 48, some 48, some 0, some 0, some 0, some 48, some 48, some 48, some 48, some 48, some 48, some 48, some 0, some 0, some 48, some 48, some 48, some 48, some 48, some 48, some 48, some 0, some 0, some 25, some 0, some 0, some 0, some 0, some 0, some 0, some 0, some 0, some 0, some 0, some 0, some 0, some 0, some 0, some 0, some 0, some 0, some 0, some 0, some 0, some 0, some 0, some 0, some 0, some 0, some 0, some 0, some 0, some 0, some 0, some 0, some 0, some 0, some 0, some 0, some 0, some 0]⟩
def gC2Cor2 : Layer :=
  ⟨19, 6, [some 1, some 0, some 0, some 0, some 0, some 0, some 0, some 0, some 0, some 0, some 0, some 0, some 0, some 0, some 0, some 0, some 0, some 0, some 0, some 0, some 48, some 48, some 48, some 48, some 48, some 48, some 48, some 0, some 0, some 48, some 48, some 48, some 48, some 48, some 48, some 48, some 0, some 0, some 0, some 48, some 48, some 48, some 48, some 48, some 48, some 48, some 48, some 48, some 48, some 48, some 48, some 48, some 48, some 48, some 48, some 0, some 0, some 0, some 48, some 48, some 48, some 48, some 48, some 48, some 48, some 0, some 0, some 48, some 48, some 48, some 48, some 48, some 48, some 48, some 0, some 0, some 25, some 0, some 0, some 0, some 0, some 0, some 0, some 0, some 0, some 0, some 0, some 0, some 0, some 0, some 0, some 0, some 0, some 0, some 0, some 0, some 0, some 0, some 0, some 0, some 0, some 0, some 0, some 0, some 0, some 0, some 0, some 0, some 0, some 0, some 0, some 0, some 0, some 0]⟩
def gC2Cor3 : Layer :=
  ⟨19, 6, [some 1, some 0, some 0, some 0, some 0, some 0, some 0, some 0, some 3, some 0, some 0, some 0, some 0, some 0, some 0, some 0, some 0, some 0, some 0, some 0, some 48, some 48, some 48, some 48, some 48, some 48, some 48, some 16, some 0, some 48, some 48, some 48, some 48, some 48, some 48, some 48, some 0, some 0, some 0, some 48, some 48, some 48, some 48, some 48, some 48, some 48, some 48, some 48, some 48, some 48, some 48, some 48, some 48, some 48, some 48, some 0, some 0, some 0, some 48, some 48, some 48, some 48, some 48, some 48, some 48, some 4, some 0, some 48, some 48, some 48, some 48, some 48, some 48, some 48, some 0, some 0, some 25, some 0, some 0, some 0, some 0, some 0, some 0, some 0, some 27, some 0, some 0, some 0, some 0, some 0, some 0, some 0, some 0, some 0, some 0, some 0, some 0, some 0, some 0, some 0, some 0, some 0, some 0, some 0, some 0, some 0, some 0, some 0, some 0, some 0, some 0, some 0, some 0, some 0]⟩
def gC2Cor4 : Layer :=
  ⟨19, 6, [some 1, some 0, some 0, some 0, some 0, some 0, some 0, some 0, some 3, some 1, some 0, some 0, some 0, some 0, some 0, some 0, some 0, some 0, some 0, some 0, some 48, some 48, some 48, some 48, some 48, some 48, some 48, some 16, some 17, some 48, some 48, some 48, some 48, some 48, some 48, some 48, some 0, some 0, some 0, some 48, some 48, some 48, some 48, some 48, some 48, some 48, some 48, some 48, some 48, some 48, some 48, some 48, some 48, some 48, some 48, some 0, some 0, some 0, some 48, some 48, some 48, some 48, some 48, some 48, some 48, some 4, some 5, some 48, some 48, some 48, some 48, some 48, some 48, some 48, some 0, some 0, some 25, some 0, some 0, some 0, some 0, some 0, some 0, some 0, some 27, some 25, some 0, some 0, some 0, some 0, some 0, some 0, some 0, some 0, some 0, some 0, some 0, some 0, some 0, some 0, some 0, some 0, some 0, some 0, some 0, some 0, some 0, some 0, some 0, some 0, some 0, some 0, some 0, some 0]⟩
def gC2Cor5 : Layer :=
  ⟨19, 6, [some 1, some 0, some 0, some 0, some 0, some 0, some 0, some 0, some 3, some 1, some 0, some 0, some 0, some 0, some 0, some 0, some 0, some 0, some 0, some 0, some 48, some 48, some 48, some 48, some 48, some 48, some 48, some 16, some 17, some 48, some 48, some 48, some 48, some 48, some 48, some 48, some 0, some 0, some 0, some 48, some 48, some 48, some 48, some 48, some 48, some 48, some 48, some 48, some 48, some 48, some 48, some 48, some 48, some 48, some 48, some 0, some 0, some 0, some 48, some 48, some 48, some 48, some 48, some 48, some 48, some 4, some 5, some 48, some 48, some 48, some 48, some 48, some 48, some 48, some 0, some 0, some 25, some 0, some 0, some 0, some 0, some 0, some 0, some 0, some 27, some 25, some 0, some 0, some 0, some 0, some 0, some 0, some 0, some 0, some 0, some 0, some 0, some 0, some 0, some 0, some 0, some 0, some 0, some 0, some 0, some 0, some 0, some 0, some 0, some 0, some 0, some 0, some 0, some 0]⟩
def gC2Cor6 : Layer :=
  ⟨19, 6, [some 1, some 0, some 0, some 0, some 0, some 0, some 0, some 0, some 3, some 1, some 0, some 0, some 0, some 0, some 0, some 0, some 0, some 0, some 0, some 0, some 48, some 48, some 48, some 48, some 48, some 48, some 48, some 16, some 17, some 48, some 48, some 48, some 48, some 48, some 48, some 48, some 0, some 0, some 0, some 48, some 48, some 48, some 48, some 48, some 48, some 48, some 48, some 48, some 48, some 48, some 48, some 48, some 48, some 48, some 48, some 0, some 0, some 0, some 48, some 48, some 48, some 48, some 48, some 48, some 48, some 4, some 5, some 48, some 48, some 48, some 48, some 48, some 48, some 48, some 0, some 0, some 25, some 0, some 0, some 0, some 0, some 0, some 0, some 0, some 27, some 25, some 0, some 0, some 0, some 0, some 0, some 0, some 0, some 0, some 0, some 0, some 0, some 0, some 0, some 0, some 0, some 0, some 0, some 0, some 0, some 0, some 0, some 0, some 0, some 0, some 0, some 0, some 0, some 0]⟩
def gC2Cor7 : Layer :=
  ⟨19, 6, [some 1, some 0, some 0, some 0, some 0, some 0, some 0, some 0, some 3, some 1, some 0, some 0, some 0, some 0, some 0, some 0, some 0, some 0, some 0, some 0, some 48, some 48, some 48, some 48, some 48, some 48, some 48, some 16, some 17, some 48, some 48, some 48, some 48, some 48, some 48, some 48, some 0, some 0, some 0, some 48, some 48, some 48, some 48, some 48, some 48, some 48, some 48, some 48, some 48, some 48, some 48, some 48, some 48, some 48, some 48, some 0, some 0, some 0, some 48, some 48, some 48, some 48, some 48, some 48, some 48, some 4, some 5, some 48, some 48, some 48, some 48, some 48, some 48, some 48, some 0, some 0, some 25, some 0, some 0, some 0, some 0, some 0, some 0, some 0, some 27, some 25, some 0, some 0, some 0, some 0, some 0, some 0, some 0, some 0, some 0, some 0, some 0, some 0, some 0, some 0, some 0, some 0, some 0, some 0, some 0, some 0, some 0, some 0, some 0, some 0, some 0, some 0, some 0, some 0]⟩
def gC2Cor8 : Layer :=
  ⟨19, 6, [some 1, some 0, some 0, some 0, some 0, some 0, some 0, some 0, some 3, some 1, some 0, some 0, some 0, some 0, some 0, some 0, some 0, some 3, some 0, some 0, some 48, some 48, some 48, some 48, some 48, some 48, some 48, some 16, some 17, some 48, some 48, some 48, some 48, some 48, some 48, some 48, some 0, some 0, some 0, some 48, some 48, some 48, some 48, some 48, some 48, some 48, some 48, some 48, some 48, some 48, some 48, some 48, some 48, some 48, some 48, some 0, some 0, some 0, some 48, some 48, some 48, some 48, some 48, some 48, some 48, some 4, some 5, some 48, some 48, some 48, some 48, some 48, some 48, some 48, some 0, some 0, some 25, some 0, some 0, some 0, some 0, some 0, some 0, some 0, some 27, some 25, some 0, some 0, some 0, some 0, some 0, some 0, some 0, some 27, some 0, some 0, some 0, some 0, some 0, some 0, some 0, some 0, some 0, some 0, some 0, some 0, some 0, some 0, some 0, some 0, some 0, some 0, some 0, some 0]⟩
def gC2Cor9 : Layer :=
  ⟨19, 6, [some 1, some 0, some 0, some 0, some 0, some 0, some 0, some 0, some 3, some 1, some 0, some 0, some 0, some 0, some 0, some 0, some 0, some 3, some 0, some 0, some 48, some 48, some 48, some 48, some 48, some 48, some 48, some 16, some 17, some 48, some 48, some 48, some 48, some 48, some 48, some 48, some 0, some 0, some 0, some 48, some 48, some 48, some 48, some 48, some 48, some 48, some 48, some 48, some 48, some 48, some 48, some 48, some 48, some 48, some 48, some 0, some 0, some 0, some 48, some 48, some 48, some 48, some 48, some 48, some 48, some 4, some 5, some 48, some 48, some 48, some 48, some 48, some 48, some 48, some 0, some 0, some 25, some 0, some 0, some 0, some 0, some 0, some 0, some 0, some 27, some 25, some 0, some 0, some 0, some 0, some 0, some 0, some 0, some 27, some 0, some 0, some 0, some 0, some 0, some 0, some 0, some 0, some 0, some 0, some 0, some 0, some 0, some 0, some 0, some 0, some 0, some 0, some 0, some 0]⟩
def gC2Sides0 : Layer :=
  ⟨19, 6, [some 1, some 0, some 0, some 0, some 0, some 0, some 0, some 0, some 3, some 1, some 0, some 0, some 0, some 0, some 0, some 0, some 0, some 3, some 0, some 13, some 48, some 48, some 48, some 48, some 48, some 48, some 48, some 16, some 17, some 48, some 48, some 48, some 48, some 48, some 48, some 48, some 0, some 0, some 13, some 48, some 48, some 48, some 48, some 48, some 48, some 48, some 48, some 48, some 48, some 48, some 48, some 48, some 48, some 48, some 48, some 0, some 0, some 13, some 48, some 48, some 48, some 48, some 48, some 48, some 48, some 4, some 5, some 48, some 48, some 48, some 48, some 48, some 48, some 48, some 0, some 0, some 25, some 0, some 0, some 0, some 0, some 0, some 0, some 0, some 27, some 25, some 0, some 0, some 0, some 0, some 0, some 0, some 0, some 27, some 0, some 0, some 0, some 0, some 0, some 0, some 0, some 0, some 0, some 0, some 0, some 0, some 0, some 0, some 0, some 0, some 0, some 0, some 0, some 0]⟩
def gC2Sides1 : Layer :=
  ⟨19, 6, [some 1, some 0, some 0, some 0, some 0, some 0, some 0, some 0, some 3, some 1, some 0, some 0, some 0, some 0, some 0, some 0, some 0, some 3, some 0, some 13, some 48, some 48, some 48, some 48, some 48, some 48, some 48, some 16, some 17, some 48, some 48, some 48, some 48, some 48, some 48, some 48, some 0, some 0, some 13, some 48, some 48, some 48, some 48, some 48, some 48, some 48, some 48, some 48, some 48, some 48, some 48, some 48, some 48, some 48, some 48, some 0, some 0, some 13, some 48, some 48, some 48, some 48, some 48, some 48, some 48, some 4, some 5, some 48, some 48, some 48, some 48, some 48, some 48, some 48, some 0, some 0, some 25, some 0, some 0, some 0, some 0, some 0, some 0, some 0, some 27, some 25, some 0, some 0, some 0, some 0, some 0, some 0, some 0, some 27, some 0, some 0, some 0, some 0, some 0, some 0, some 0, some 0, some 0, some 0, some 0, some 0, some 0, some 0, some 0, some 0, some 0, some 0, some 0, some 0]⟩
def gC2Sides2 : Layer :=
  ⟨19, 6, [some 1, some 0, some 0, some 0, some 0, some 0, some 0, some 0, some 3, some 1, some 0, some 0, some 0, some 0, some 0, some 0, some 0, some 3, some 0, some 13, some 48, some 48, some 48, some 48, some 48, some 48, some 48, some 16, some 17, some 48, some 48, some 48, some 48, some 48, some 48, some 48, some 0, some 0, some 13, some 48, some 48, some 48, some 48, some 48, some 48, some 48, some 48, some 48, some 48, some 48, some 48, some 48, some 48, some 48, some 48, some 0, some 0, some 13, some 48, some 48, some 48, some 48, some 48, some 48, some 48, some 4, some 5, some 48, some 48, some 48, some 48, some 48, some 48, some 48, some 0, some 0, some 25, some 0, some 0, some 0, some 0, some 0, some 0, some 0, some 27, some 25, some 0, some 0, some 0, some 0, some 0, some 0, some 0, some 27, some 0, some 0, some 0, some 0, some 0, some 0, some 0, some 0, some 0, some 0, some 0, some 0, some 0, some 0, some 0, some 0, some 0, some 0, some 0, some 0]⟩
def gC2Sides3 : Layer :=
  ⟨19, 6, [some 1, some 0, some 0, some 0, some 0, some 0, some 0, some 0, some 3, some 1, some 0, some 0, some 0, some 0, some 0, some 0, some 0, some 3, some 0, some 13, some 48, some 48, some 48, some 48, some 48, some 48, some 48, some 16, some 17, some 48, some 48, some 48, some 48, some 48, some 48, some 48, some 0, some 0, some 13, some 48, some 48, some 48, some 48, some 48, some 48, some 48, some 48, some 48, some 48, some 48, some 48, some 48, some 48, some 48, some 48, some 0, some 0, some 13, some 48, some 48, some 48, some 48, some 48, some 48, some 48, some 4, some 5, some 48, some 48, some 48, some 48, some 48, some 48, some 48, some 0, some 0, some 25, some 0, some 0, some 0, some 0, some 0, some 0, some 0, some 27, some 25, some 0, some 0, some 0, some 0, some 0, some 0, some 0, some 27, some 0, some 0, some 0, some 0, some 0, some 0, some 0, some 0, some 0, some 0, some 0, some 0, some 0, some 0, some 0, some 0, some 0, some 0, some 0, some 0]⟩
def gC2Sides4 : Layer :=
  ⟨19, 6, [some 1, some 0, some 0, some 0, some 0, some 0, some 0, some 0, some 3, some 1, some 0, some 0, some 0, some 0, some 0, some 0, some 0, some 3, some 0, some 13, some 48, some 48, some 48, some 48, some 48, some 48, some 48, some 16, some 17, some 48, some 48, some 48, some 48, some 48, some 48, some 48, some 0, some 0, some 13, some 48, some 48, some 48, some 48, some 48, some 48, some 48, some 48, some 48, some 48, some 48, some 48, some 48, some 48, some 48, some 48, some 0, some 0, some 13, some 48, some 48, some 48, some 48, some 48, some 48, some 48, some 4, some 5, some 48, some 48, some 48, some 48, some 48, some 48, some 48, some 0, some 0, some 25, some 0, some 0, some 0, some 0, some 0, some 0, some 0, some 27, some 25, some 0, some 0, some 0, some 0, some 0, some 0, some 0, some 27, some 0, some 0, some 0, some 0, some 0, some 0, some 0, some 0, some 0, some 0, some 0, some 0, some 0, some 0, some 0, some 0, some 0, some 0, some 0, some 0]⟩
def gC2Sides5 : Layer :=
  ⟨19, 6, [some 1, some 0, some 0, some 0, some 0, some 0, some 0, some 0, some 3, some 1, some 0, some 0, some 0, some 0, some 0, some 0, some 0, some 3, some 0, some 13, some 48, some 48, some 48, some 48, some 48, some 48, some 48, some 16, some 17, some 48, some 48, some 48, some 48, some 48, some 48, some 48, some 0, some 0, some 13, some 48, some 48, some 48, some 48, some 48, some 48, some 48, some 48, some 48, some 48, some 48, some 48, some 48, some 48, some 48, some 48, some 0, some 0, some 13, some 48, some 48, some 48, some 48, some 48, some 48, some 48, some 4, some 5, some 48, some 48, some 48, some 48, some 48, some 48, some 48, some 0, some 0, some 25, some 0, some 0, some 0, some 0, some 0, some 0, some 0, some 27, some 25, some 0, some 0, some 0, some 0, some 0, some 0, some 0, some 27, some 0, some 0, some 0, some 0, some 0, some 0, some 0, some 0, some 0, some 0, some 0, some 0, some 0, some 0, some 0, some 0, some 0, some 0, some 0, some 0]⟩
def gC2Sides6 : Layer :=
  ⟨19, 6, [some 1, some 0, some 0, some 0, some 0, some 0, some 0, some 0, some 3, some 1, some 0, some 0, some 0, some 0, some 0, some 0, some 0, some 3, some 0, some 13, some 48, some 48, some 48, some 48, some 48, some 48, some 48, some 16, some 17, some 48, some 48, some 48, some 48, some 48, some 48, some 48, some 0, some 0, some 13, some 48, some 48, some 48, some 48, some 48, some 48, some 48, some 48, some 48, some 48, some 48, some 48, some 48, some 48, some 48, some 48, some 0, some 0, some 13, some 48, some 48, some 48, some 48, some 48, some 48, some 48, some 4, some 5, some 48, some 48, some 48, some 48, some 48, some 48, some 48, some 0, some 0, some 25, some 0, some 0, some 0, some 0, some 0, some 0, some 0, some 27, some 25, some 0, some 0, some 0, some 0, some 0, some 0, some 0, some 27, some 0, some 0, some 0, some 0, some 0, some 0, some 0, some 0, some 0, some 0, some 0, some 0, some 0, some 0, some 0, some 0, some 0, some 0, some 0, some 0]⟩
def gC2Sides7 : Layer :=
  ⟨19, 6, [some 1, some 0, some 0, some 0, some 0, some 0, some 0, some 0, some 3, some 1, some 0, some 0, some 0, some 0, some 0, some 0, some 0, some 3, some 0, some 13, some 48, some 48, some 48, some 48, some 48, some 48, some 48, some 16, some 17, some 48, some 48, some 48, some 48, some 48, some 48, some 48, some 0, some 0, some 13, some 48, some 48, some 48, some 48, some 48, some 48, some 48, some 48, some 48, some 48, some 48, some 48, some 48, some 48, some 48, some 48, some 0, some 0, some 13, some 48, some 48, some 48, some 48, some 48, some 48, some 48, some 4, some 5, some 48, some 48, some 48, some 48, some 48, some 48, some 48, some 0, some 0, some 25, some 0, some 0, some 0, some 0, some 0, some 0, some 0, some 27, some 25, some 0, some 0, some 0, some 0, some 0, some 0, some 0, some 27, some 0, some 0, some 0, some 0, some 0, some 0, some 0, some 0, some 0, some 0, some 0, some 0, some 0, some 0, some 0, some 0, some 0, some 0, some 0, some 0]⟩
def gC2Sides8 : Layer :=
  ⟨19, 6, [some 1, some 0, some 0, some 0, some 0, some 0, some 0, some 0, some 3, some 1, some 0, some 0, some 0, some 0, some 0, some 0, some 0, some 3, some 0, some 13, some 48, some 48, some 48, some 48, some 48, some 48, some 48, some 16, some 17, some 48, some 48, some 48, some 48, some 48, some 48, some 48, some 15, some 0, some 13, some 48, some 48, some 48, some 48, some 48, some 48, some 48, some 48, some 48, some 48, some 48, some 48, some 48, some 48, some 48, some 48, some 15, some 0, some 13, some 48, some 48, some 48, some 48, some 48, some 48, some 48, some 4, some 5, some 48, some 48, some 48, some 48, some 48, some 48, some 48, some 15, some 0, some 25, some 0, some 0, some 0, some 0, some 0, some 0, some 0, some 27, some 25, some 0, some 0, some 0, some 0, some 0, some 0, some 0, some 27, some 0, some 0, some 0, some 0, some 0, some 0, some 0, some 0, some 0, some 0, some 0, some 0, some 0, some 0, some 0, some 0, some 0, some 0, some 0, some 0]⟩
def gC2Sides9 : Layer :=
  ⟨19, 6, [some 1, some 0, some 0, some 0, some 0, some 0, some 0, some 0, some 3, some 1, some 0, some 0, some 0, some 0, some 0, some 0, some 0, some 3, some 0, some 13, some 48, some 48, some 48, some 48, some 48, some 48, some 48, some 16, some 17, some 48, some 48, some 48, some 48, some 48, some 48, some 48, some 15, some 0, some 13, some 48, some 48, some 48, some 48, some 48, some 48, some 48, some 48, some 48, some 48, some 48, some 48, some 48, some 48, some 48, some 48, some 15, some 0, some 13, some 48, some 48, some 48, some 48, some 48, some 48, some 48, some 4, some 5, some 48, some 48, some 48, some 48, some 48, some 48, some 48, some 15, some 0, some 25, some 0, some 0, some 0, some 0, some 0, some 0, some 0, some 27, some 25, some 0, some 0, some 0, some 0, some 0, some 0, some 0, some 27, some 0, some 0, some 0, some 0, some 0, some 0, some 0, some 0, some 0, some 0, some 0, some 0, some 0, some 0, some 0, some 0, some 0, some 0, some 0, some 0]⟩
def gC2TB0 : Layer :=
  ⟨19, 6, [some 1, some 2, some 0, some 0, some 0, some 0, some 0, some 0, some 3, some 1, some 0, some 0, some 0, some 0, some 0, some 0, some 0, some 3, some 0, some 13, some 48, some 48, some 48, some 48, some 48, some 48, some 48, some 16, some 17, some 48, some 48, some 48, some 48, some 48, some 48, some 48, some 15, some 0, some 13, some 48, some 48, some 48, some 48, some 48, some 48, some 48, some 48, some 48, some 48, some 48, some 48, some 48, some 48, some 48, some 48, some 15, some 0, some 13, some 48, some 48, some 48, some 48, some 48, some 48, some 48, some 4, some 5, some 48, some 48, some 48, some 48, some 48, some 48, some 48, some 15, some 0, some 25, some 26, some 0, some 0, some 0, some 0, some 0, some 0, some 27, some 25, some 0, some 0, some 0, some 0, some 0, some 0, some 0, some 27, some 0, some 0, some 0, some 0, some 0, some 0, some 0, some 0, some 0, some 0, some 0, some 0, some 0, some 0, some 0, some 0, some 0, some 0, some 0, some 0]⟩
def gC2TB1 : Layer :=
  ⟨19, 6, [some 1, some 2, some 2, some 2, some 0, some 0, some 0, some 0, some 3, some 1, some 0, some 0, some 0, some 0, some 0, some 0, some 0, some 3, some 0, some 13, some 48, some 48, some 48, some 48, some 48, some 48, some 48, some 16, some 17, some 48, some 48, some 48, some 48, some 48, some 48, some 48, some 15, some 0, some 13, some 48, some 48, some 48, some 48, some 48, some 48, some 48, some 48, some 48, some 48, some 48, some 48, some 48, some 48, some 48, some 48, some 15, some 0, some 13, some 48, some 48, some 48, some 48, some 48, some 48, some 48, some 4, some 5, some 48, some 48, some 48, some 48, some 48, some 48, some 48, some 15, some 0, some 25, some 26, some 26, some 26, some 0, some 0, some 0, some 0, some 27, some 25, some 0, some 0, some 0, some 0, some 0, some 0, some 0, some 27, some 0, some 0, some 0, some 0, some 0, some 0, some 0, some 0, some 0, some 0, some 0, some 0, some 0, some 0, some 0, some 0, some 0, some 0, some 0, some 0]⟩
def gC2TB2 : Layer :=
  ⟨19, 6, [some 1, some 2, some 2, some 2, some 2, some 2, some 0, some 0, some 3, some 1, some 0, some 0, some 0, some 0, some 0, some 0, some 0, some 3, some 0, some 13, some 48, some 48, some 48, some 48, some 48, some 48, some 48, some 16, some 17, some 48, some 48, some 48, some 48, some 48, some 48, some 48, some 15, some 0, some 13, some 48, some 48, some 48, some 48, some 48, some 48, some 48, some 48, some 48, some 48, some 48, some 48, some 48, some 48, some 48, some 48, some 15, some 0, some 13, some 48, some 48, some 48, some 48, some 48, some 48, some 48, some 4, some 5, some 48, some 48, some 48, some 48, some 48, some 48, some 48, some 15, some 0, some 25, some 26, some 26, some 26, some 26, some 26, some 0, some 0, some 27, some 25, some 0, some 0, some 0, some 0, some 0, some 0, some 0, some 27, some 0, some 0, some 0, some 0, some 0, some 0, some 0, some 0, some 0, some 0, some 0, some 0, some 0, some 0, some 0, some 0, some 0, some 0, some 0, some 0]⟩
def gC2TB3 : Layer :=
  ⟨19, 6, [some 1, some 2, some 2, some 2, some 2, some 2, some 2, some 2, some 3, some 1, some 0, some 0, some 0, some 0, some 0, some 0, some 0, some 3, some 0, some 13, some 48, some 48, some 48, some 48, some 48, some 48, some 48, some 16, some 17, some 48, some 48, some 48, some 48, some 48, some 48, some 48, some 15, some 0, some 13, some 48, some 48, some 48, some 48, some 48, some 48, some 48, some 48, some 48, some 48, some 48, some 48, some 48, some 48, some 48, some 48, some 15, some 0, some 13, some 48, some 48, some 48, some 48, some 48, some 48, some 48, some 4, some 5, some 48, some 48, some 48, some 48, some 48, some 48, some 48, some 15, some 0, some 25, some 26, some 26, some 26, some 26, some 26, some 26, some 26, some 27, some 25, some 0, some 0, some 0, some 0, some 0, some 0, some 0, some 27, some 0, some 0, some 0, some 0, some 0, some 0, some 0, some 0, some 0, some 0, some 0, some 0, some 0, some 0, some 0, some 0, some 0, some 0, some 0, some 0]⟩
def gC2TB4 : Layer :=
  ⟨19, 6, [some 1, some 2, some 2, some 2, some 2, some 2, some 2, some 2, some 3, some 1, some 0, some 0, some 0, some 0, some 0, some 0, some 0, some 3, some 0, some 13, some 48, some 48, some 48, some 48, some 48, some 48, some 48, some 16, some 17, some 48, some 48, some 48, some 48, some 48, some 48, some 48, some 15, some 0, some 13, some 48, some 48, some 48, some 48, some 48, some 48, some 48, some 48, some 48, some 48, some 48, some 48, some 48, some 48, some 48, some 48, some 15, some 0, some 13, some 48, some 48, some 48, some 48, some 48, some 48, some 48, some 4, some 5, some 48, some 48, some 48, some 48, some 48, some 48, some 48, some 15, some 0, some 25, some 26, some 26, some 26, some 26, some 26, some 26, some 26, some 27, some 25, some 0, some 0, some 0, some 0, some 0, some 0, some 0, some 27, some 0, some 0, some 0, some 0, some 0, some 0, some 0, some 0, some 0, some 0, some 0, some 0, some 0, some 0, some 0, some 0, some 0, some 0, some 0, some 0]⟩
def gC2TB5 : Layer :=
  ⟨19, 6, [some 1, some 2, some 2, some 2, some 2, some 2, some 2, some 2, some 3, some 1, some 2, some 2, some 0, some 0, some 0, some 0, some 0, some 3, some 0, some 13, some 48, some 48, some 48, some 48, some 48, some 48, some 48, some 16, some 17, some 48, some 48, some 48, some 48, some 48, some 48, some 48, some 15, some 0, some 13, some 48, some 48, some 48, some 48, some 48, some 48, some 48, some 48, some 48, some 48, some 48, some 48, some 48, some 48, some 48, some 48, some 15, some 0, some 13, some 48, some 48, some 48, some 48, some 48, some 48, some 48, some 4, some 5, some 48, some 48, some 48, some 48, some 48, some 48, some 48, some 15, some 0, some 25, some 26, some 26, some 26, some 26, some 26, some 26, some 26, some 27, some 25, some 26, some 26, some 0, some 0, some 0, some 0, some 0, some 27, some 0, some 0, some 0, some 0, some 0, some 0, some 0, some 0, some 0, some 0, some 0, some 0, some 0, some 0, some 0, some 0, some 0, some 0, some 0, some 0]⟩
def gC2TB6 : Layer :=
  ⟨19, 6, [some 1, some 2, some 2, some 2, some 2, some 2, some 2, some 2, some 3, some 1, some 2, some 2, some 2, some 2, some 0, some 0, some 0, some 3, some 0, some 13, some 48, some 48, some 48, some 48, some 48, some 48, some 48, some 16, some 17, some 48, some 48, some 48, some 48, some 48, some 48, some 48, some 15, some 0, some 13, some 48, some 48, some 48, some 48, some 48, some 48, some 48, some 48, some 48, some 48, some 48, some 48, some 48, some 48, some 48, some 48, some 15, some 0, some 13, some 48, some 48, some 48, some 48, some 48, some 48, some 48, some 4, some 5, some 48, some 48, some 48, some 48, some 48, some 48, some 48, some 15, some 0, some 25, some 26, some 26, some 26, some 26, some 26, some 26, some 26, some 27, some 25, some 26, some 26, some 26, some 26, some 0, some 0, some 0, some 27, some 0, some 0, some 0, some 0, some 0, some 0, some 0, some 0, some 0, some 0, some 0, some 0, some 0, some 0, some 0, some 0, some 0, some 0, some 0, some 0]⟩
def gC2TB7 : Layer :=
  ⟨19, 6, [some 1, some 2, some 2, some 2, some 2, some 2, some 2, some 2, some 3, some 1, some 2, some 2, some 2, some 2, some 2, some 2, some 0, some 3, some 0, some 13, some 48, some 48, some 48, some 48, some 48, some 48, some 48, some 16, some 17, some 48, some 48, some 48, some 48, some 48, some 48, some 48, some 15, some 0, some 13, some 48, some 48, some 48, some 48, some 48, some 48, some 48, some 48, some 48, some 48, some 48, some 48, some 48, some 48, some 48, some 48, some 15, some 0, some 13, some 48, some 48, some 48, some 48, some 48, some 48, some 48, some 4, some 5, some 48, some 48, some 48, some 48, some 48, some 48, some 48, some 15, some 0, some 25, some 26, some 26, some 26, some 26, some 26, some 26, some 26, some 27, some 25, some 26, some 26, some 26, some 26, some 26, some 26, some 0, some 27, some 0, some 0, some 0, some 0, some 0, some 0, some 0, some 0, some 0, some 0, some 0, some 0, some 0, some 0, some 0, some 0, some 0, some 0, some 0, some 0]⟩
def gC2TB8 : Layer :=
  ⟨19, 6, [some 1, some 2, some 2, some 2, some 2, some 2, some 2, some 2, some 3, some 1, some 2, some 2, some 2, some 2, some 2, some 2, some 2, some 3, some 0, some 13, some 48, some 48, some 48, some 48, some 48, some 48, some 48, some 16, some 17, some 48, some 48, some 48, some 48, some 48, some 48, some 48, some 15, some 0, some 13, some 48, some 48, some 48, some 48, some 48, some 48, some 48, some 48, some 48, some 48, some 48, some 48, some 48, some 48, some 48, some 48, some 15, some 0, some 13, some 48, some 48, some 48, some 48, some 48, some 48, some 48, some 4, some 5, some 48, some 48, some 48, some 48, some 48, some 48, some 48, some 15, some 0, some 25, some 26, some 26, some 26, some 26, some 26, some 26, some 26, some 27, some 25, some 26, some 26, some 26, some 26, some 26, some 26, some 26, some 27, some 0, some 0, some 0, some 0, some 0, some 0, some 0, some 0, some 0, some 0, some 0, some 0, some 0, some 0, some 0, some 0, some 0, some 0, some 0, some 0]⟩
def gC2TB9 : Layer :=
  ⟨19, 6, [some 1, some 2, some 2, some 2, some 2, some 2, some 2, some 2, some 3, some 1, some 2, some 2, some 2, some 2, some 2, some 2, some 2, some 3, some 0, some 13, some 48, some 48, some 48, some 48, some 48, some 48, some 48, some 16, some 17, some 48, some 48, some 48, some 48, some 48, some 48, some 48, some 15, some 0, some 13, some 48, some 48, some 48, some 48, some 48, some 48, some 48, some 48, some 48, some 48, some 48, some 48, some 48, some 48, some 48, some 48, some 15, some 0, some 13, some 48, some 48, some 48, some 48, some 48, some 48, some 48, some 4, some 5, some 48, some 48, some 48, some 48, some 48, some 48, some 48, some 15, some 0, some 25, some 26, some 26, some 26, some 26, some 26, some 26, some 26, some 27, some 25, some 26, some 26, some 26, some 26, some 26, some 26, some 26, some 27, some 0, some 0, some 0, some 0, some 0, some 0, some 0, some 0, some 0, some 0, some 0, some 0, some 0, some 0, some 0, some 0, some 0, some 0, some 0, some 0]⟩
def gC2Fac0 : Layer :=
  ⟨19, 6, [some 1, some 2, some 2, some 2, some 2, some 2, some 2, some 2, some 3, some 1, some 2, some 2, some 2, some 2, some 2, some 2, some 2, some 3, some 0, some 13, some 40, some 48, some 48, some 48, some 48, some 48, some 48, some 16, some 17, some 48, some 48, some 48, some 48, some 48, some 48, some 48, some 15, some 0, some 13, some 48, some 48, some 48, some 48, some 48, some 48, some 48, some 48, some 48, some 48, some 48, some 48, some 48, some 48, some 48, some 48, some 15, some 0, some 13, some 48, some 48, some 48, some 48, some 48, some 48, some 48, some 4, some 5, some 48, some 48, some 48, some 48, some 48, some 48, some 48, some 15, some 0, some 25, some 26, some 26, some 26, some 26, some 26, some 26, some 26, some 27, some 25, some 26, some 26, some 26, some 26, some 26, some 26, some 26, some 27, some 0, some 0, some 0, some 0, some 0, some 0, some 0, some 0, some 0, some 0, some 0, some 0, some 0, some 0, some 0, some 0, some 0, some 0, some 0, some 0]⟩
def gC2Fac1 : Layer :=
  ⟨19, 6, [some 1, some 2, some 2, some 2, some 2, some 2, some 2, some 2, some 3, some 1, some 2, some 2, some 2, some 2, some 2, some 2, some 2, some 3, some 0, some 13, some 40, some 40, some 40, some 48, some 48, some 48, some 48, some 16, some 17, some 48, some 48, some 48, some 48, some 48, some 48, some 48, some 15, some 0, some 13, some 48, some 48, some 48, some 48, some 48, some 48, some 48, some 48, some 48, some 48, some 48, some 48, some 48, some 48, some 48, some 48, some 15, some 0, some 13, some 48, some 48, some 48, some 48, some 48, some 48, some 48, some 4, some 5, some 48, some 48, some 48, some 48, some 48, some 48, some 48, some 15, some 0, some 25, some 26, some 26, some 26, some 26, some 26, some 26, some 26, some 27, some 25, some 26, some 26, some 26, some 26, some 26, some 26, some 26, some 27, some 0, some 0, some 0, some 0, some 0, some 0, some 0, some 0, some 0, some 0, some 0, some 0, some 0, some 0, some 0, some 0, some 0, some 0, some 0, some 0]⟩
def gC2Fac2 : Layer :=
  ⟨19, 6, [some 1, some 2, some 2, some 2, some 2, some 2, some 2, some 2, some 3, some 1, some 2, some 2, some 2, some 2, some 2, some 2, some 2, some 3, some 0, some 13, some 40, some 40, some 40, some 40, some 40, some 48, some 48, some 16, some 17, some 48, some 48, some 48, some 48, some 48, some 48, some 48, some 15, some 0, some 13, some 48, some 48, some 48, some 48, some 48, some 48, some 48, some 48, some 48, some 48, some 48, some 48, some 48, some 48, some 48, some 48, some 15, some 0, some 13, some 48, some 48, some 48, some 48, some 48, some 48, some 48, some 4, some 5, some 48, some 48, some 48, some 48, some 48, some 48, some 48, some 15, some 0, some 25, some 26, some 26, some 26, some 26, some 26, some 26, some 26, some 27, some 25, some 26, some 26, some 26, some 26, some 26, some 26, some 26, some 27, some 0, some 0, some 0, some 0, some 0, some 0, some 0, some 0, some 0, some 0, some 0, some 0, some 0, some 0, some 0, some 0, some 0, some 0, some 0, some 0]⟩
def gC2Fac3 : Layer :=
  ⟨19, 6, [some 1, some 2, some 2, some 2, some 2, some 2, some 2, some 2, some 3, some 1, some 2, some 2, some 2, some 2, some 2, some 2, some 2, some 3, some 0, some 13, some 40, some 40, some 40, some 40, some 40, some 40, some 40, some 16, some 17, some 48, some 48, some 48, some 48, some 48, some 48, some 48, some 15, some 0, some 13, some 48, some 48, some 48, some 48, some 48, some 48, some 48, some 48, some 48, some 48, some 48, some 48, some 48, some 48, some 48, some 48, some 15, some 0, some 13, some 48, some 48, some 48, some 48, some 48, some 48, some 48, some 4, some 5, some 48, some 48, some 48, some 48, some 48, some 48, some 48, some 15, some 0, some 25, some 26, some 26, some 26, some 26, some 26, some 26, some 26, some 27, some 25, some 26, some 26, some 26, some 26, some 26, some 26, some 26, some 27, some 0, some 0, some 0, some 0, some 0, some 0, some 0, some 0, some 0, some 0, some 0, some 0, some 0, some 0, some 0, some 0, some 0, some 0, some 0, some 0]⟩
def gC2Fac4 : Layer :=
  ⟨19, 6, [some 1, some 2, some 2, some 2, some 2, some 2, some 2, some 2, some 3, some 1, some 2, some 2, some 2, some 2, some 2, some 2, some 2, some 3, some 0, some 13, some 40, some 40, some 40, some 40, some 40, some 40, some 40, some 16, some 17, some 48, some 48, some 48, some 48, some 48, some 48, some 48, some 15, some 0, some 13, some 48, some 48, some 48, some 48, some 48, some 48, some 48, some 57, some 59, some 48, some 48, some 48, some 48, some 48, some 48, some 48, some 15, some 0, some 13, some 48, some 48, some 48, some 48, some 48, some 48, some 48, some 4, some 5, some 48, some 48, some 48, some 48, some 48, some 48, some 48, some 15, some 0, some 25, some 26, some 26, some 26, some 26, some 26, some 26, some 26, some 27, some 25, some 26, some 26, some 26, some 26, some 26, some 26, some 26, some 27, some 0, some 0, some 0, some 0, some 0, some 0, some 0, some 0, some 0, some 0, some 0, some 0, some 0, some 0, some 0, some 0, some 0, some 0, some 0, some 0]⟩
def gC2Fac5 : Layer :=
  ⟨19, 6, [some 1, some 2, some 2, some 2, some 2, some 2, some 2, some 2, some 3, some 1, some 2, some 2, some 2, some 2, some 2, some 2, some 2, some 3, some 0, some 13, some 40, some 40, some 40, some 40, some 40, some 40, some 40, some 16, some 17, some 40, some 40, some 48, some 48, some 48, some 48, some 48, some 15, some 0, some 13, some 48, some 48, some 48, some 48, some 48, some 48, some 48, some 57, some 59, some 48, some 48, some 48, some 48, some 48, some 48, some 48, some 15, some 0, some 13, some 48, some 48, some 48, some 48, some 48, some 48, some 48, some 4, some 5, some 48, some 48, some 48, some 48, some 48, some 48, some 48, some 15, some 0, some 25, some 26, some 26, some 26, some 26, some 26, some 26, some 26, some 27, some 25, some 26, some 26, some 26, some 26, some 26, some 26, some 26, some 27, some 0, some 0, some 0, some 0, some 0, some 0, some 0, some 0, some 0, some 0, some 0, some 0, some 0, some 0, some 0, some 0, some 0, some 0, some 0, some 0]⟩
def gC2Fac6 : Layer :=
  ⟨19, 6, [some 1, some 2, some 2, some 2, some 2, some 2, some 2, some 2, some 3, some 1, some 2, some 2, some 2, some 2, some 2, some 2, some 2, some 3, some 0, some 13, some 40, some 40, some 40, some 40, some 40, some 40, some 40, some 16, some 17, some 40, some 40, some 40, some 40, some 48, some 48, some 48, some 15, some 0, some 13, some 48, some 48, some 48, some 48, some 48, some 48, some 48, some 57, some 59, some 48, some 48, some 48, some 48, some 48, some 48, some 48, some 15, some 0, some 13, some 48, some 48, some 48, some 48, some 48, some 48, some 48, some 4, some 5, some 48, some 48, some 48, some 48, some 48, some 48, some 48, some 15, some 0, some 25, some 26, some 26, some 26, some 26, some 26, some 26, some 26, some 27, some 25, some 26, some 26, some 26, some 26, some 26, some 26, some 26, some 27, some 0, some 0, some 0, some 0, some 0, some 0, some 0, some 0, some 0, some 0, some 0, some 0, some 0, some 0, some 0, some 0, some 0, some 0, some 0, some 0]⟩
def gC2Fac7 : Layer :=
  ⟨19, 6, [some 1, some 2, some 2, some 2, some 2, some 2, some 2, some 2, some 3, some 1, some 2, some 2, some 2, some 2, some 2, some 2, some 2, some 3, some 0, some 13, some 40, some 40, some 40, some 40, some 40, some 40, some 40, some 16, some 17, some 40, some 40, some 40, some 40, some 40, some 40, some 48, some 15, some 0, some 13, some 48, some 48, some 48, some 48, some 48, some 48, some 48, some 57, some 59, some 48, some 48, some 48, some 48, some 48, some 48, some 48, some 15, some 0, some 13, some 48, some 48, some 48, some 48, some 48, some 48, some 48, some 4, some 5, some 48, some 48, some 48, some 48, some 48, some 48, some 48, some 15, some 0, some 25, some 26, some 26, some 26, some 26, some 26, some 26, some 26, some 27, some 25, some 26, some 26, some 26, some 26, some 26, some 26, some 26, some 27, some 0, some 0, some 0, some 0, some 0, some 0, some 0, some 0, some 0, some 0, some 0, some 0, some 0, some 0, some 0, some 0, some 0, some 0, some 0, some 0]⟩
def gC2Fac8 : Layer :=
  ⟨19, 6, [some 1, some 2, some 2, some 2, some 2, some 2, some 2, some 2, some 3, some 1, some 2, some 2, some 2, some 2, some 2, some 2, some 2, some 3, some 0, some 13, some 40, some 40, some 40, some 40, some 40, some 40, some 40, some 16, some 17, some 40, some 40, some 40, some 40, some 40, some 40, some 40, some 15, some 0, some 13, some 48, some 48, some 48, some 48, some 48, some 48, some 48, some 57, some 59, some 48, some 48, some 48, some 48, some 48, some 48, some 48, some 15, some 0, some 13, some 48, some 48, some 48, some 48, some 48, some 48, some 48, some 4, some 5, some 48, some 48, some 48, some 48, some 48, some 48, some 48, some 15, some 0, some 25, some 26, some 26, some 26, some 26, some 26, some 26, some 26, some 27, some 25, some 26, some 26, some 26, some 26, some 26, some 26, some 26, some 27, some 0, some 0, some 0, some 0, some 0, some 0, some 0, some 0, some 0, some 0, some 0, some 0, some 0, some 0, some 0, some 0, some 0, some 0, some 0, some 0]⟩
def gC2Fac9 : Layer :=
  ⟨19, 6, [some 1, some 2, some 2, some 2, some 2, some 2, some 2, some 2, some 3, some 1, some 2, some 2, some 2, some 2, some 2, some 2, some 2, some 3, some 0, some 13, some 40, some 40, some 40, some 40, some 40, some 40, some 40, some 16, some 17, some 40, some 40, some 40, some 40, some 40, some 40, some 40, some 15, some 0, some 13, some 48, some 48, some 48, some 48, some 48, some 48, some 48, some 57, some 59, some 48, some 48, some 48, some 48, some 48, some 48, some 48, some 15, some 0, some 13, some 48, some 48, some 48, some 48, some 48, some 48, some 48, some 4, some 5, some 48, some 48, some 48, some 48, some 48, some 48, some 48, some 15, some 0, some 25, some 26, some 26, some 26, some 26, some 26, some 26, some 26, some 27, some 25, some 26, some 26, some 26, some 26, some 26, some 26, some 26, some 27, some 0, some 0, some 0, some 0, some 0, some 0, some 0, some 0, some 0, some 0, some 0, some 0, some 0, some 0, some 0, some 0, some 0, some 0, some 0, some 0]⟩
def gC2Fin : Layer :=
  ⟨19, 6, [some 1, some 2, some 2, some 2, some 2, some 2, some 2, some 2, some 3, some 1, some 2, some 2, some 2, some 2, some 2, some 2, some 2, some 3, some 0, some 13, some 19, some 46, some 47, some 19, some 10, some 11, some 14, some 16, some 17, some 14, some 14, some 14, some 14, some 14, some 14, some 14, some 15, some 0, some 13, some 31, some 36, some 38, some 31, some 49, some 49, some 49, some 57, some 59, some 49, some 49, some 49, some 49, some 49, some 49, some 49, some 15, some 0, some 13, some 49, some 49, some 49, some 49, some 49, some 49, some 49, some 4, some 5, some 49, some 49, some 49, some 49, some 49, some 49, some 49, some 15, some 0, some 25, some 26, some 26, some 26, some 26, some 26, some 26, some 26, some 27, some 25, some 26, some 26, some 26, some 26, some 26, some 26, some 26, some 27, some 0, some 0, some 0, some 0, some 0, some 0, some 0, some 0, some 0, some 0, some 0, some 0, some 0, some 0, some 0, some 0, some 0, some 0, some 0, some 0]⟩
def resC2 : MapGenResult := ⟨gC2Fin, roomsC2, [⟨4, 1⟩], ⟨1, 1⟩⟩
def gFRoom : Layer :=
  ⟨8, 8, [some 0, some 0, some 0, some 0, some 0, some 0, some 0, some 0, some 0, some 48, some 48, some 0, some 0, some 0, some 0, some 0, some 0, some 48, some 48, some 0, some 0, some 0, some 0, some 0, some 0, some 0, some 0, some 0, some 0, some 0, some 0, some 0, some 0, some 0, some 0, some 0, some 0, some 0, some 0, some 0, some 0, some 0, some 0, some 0, some 0, some 0, some 0, some 0, some 0, some 0, some 0, some 0, some 0, some 0, some 0, some 0, some 0, some 0, some 0, some 0, some 0, some 0, some 0, some 0]⟩
def roomsF : List RectN := [⟨1, 1, 2, 2⟩]
def sFRoom : List Nat := []
def gFClean : Layer :=
  ⟨8, 8, [some 0, some 0, some 0, some 0, some 0, some 0, some 0, some 0, some 0, some 48, some 48, some 0, some 0, some 0, some 0, some 0, some 0, some 48, some 48, some 0, some 0, some 0, some 0, some 0, some 0, some 0, some 0, some 0, some 0, some 0, some 0, some 0, some 0, some 0, some 0, some 0, some 0, some 0, some 0, some 0, some 0, some 0, some 0, some 0, some 0, some 0, some 0, some 0, some 0, some 0, some 0, some 0, some 0, some 0, some 0, some 0, some 0, some 0, some 0, some 0, some 0, some 0, some 0, some 0]⟩
def gFCor0 : Layer :=
  ⟨8, 8, [some 1, some 0, some 0, some 0, some 0, some 0, some 0, some 0, some 0, some 48, some 48, some 0, some 0, some 0, some 0, some 0, some 0, some 48, some 48, some 0, some 0, some 0, some 0, some 0, some 25, some 0, some 0, some 0, some 0, some 0, some 0, some 0, some 0, some 0, some 0, some 0, some 0, some 0, some 0, some 0, some 0, some 0, some 0, some 0, some 0, some 0, some 0, some 0, some 0, some 0, some 0, some 0, some 0, some 0, some 0, some 0, some 0, some 0, some 0, some 0, some 0, some 0, some 0, some 0]⟩
def gFCor1 : Layer :=
  ⟨8, 8, [some 1, some 0, some 0, some 3, some 0, some 0, some 0, some 0, some 0, some 48, some 48, some 0, some 0, some 0, some 0, some 0, some 0, some 48, some 48, some 0, some 0, some 0, some 0, some 0, some 25, some 0, some 0, some 27, some 0, some 0, some 0, some 0, some 0, some 0, some 0, some 0, some 0, some 0, some 0, some 0, some 0, some 0, some 0, some 0, some 0, some 0, some 0, some 0, some 0, some 0, some 0, some 0, some 0, some 0, some 0, some 0, some 0, some 0, some 0, some 0, some 0, some 0, some 0, some 0]⟩
def gFCor2 : Layer :=
  ⟨8, 8, [some 1, some 0, some 0, some 3, some 0, some 0, some 0, some 0, some 0, some 48, some 48, some 0, some 0, some 0, some 0, some 0, some 0, some 48, some 48, some 0, some 0, some 0, some 0, some 0, some 25, some 0, some 0, some 27, some 0, some 0, some 0, some 0, some 0, some 0, some 0, some 0, some 0, some 0, some 0, some 0, some 0, some 0, some 0, some 0, some 0, some 0, some 0, some 0, some 0, some 0, some 0, some 0, some 0, some 0, some 0, some 0, some 0, some 0, some 0, some 0, some 0, some 0, some 0, some 0]⟩
def gFCor3 : Layer :=
  ⟨8, 8, [some 1, some 0, some 0, some 3, some 0, some 0, some 0, some 0, some 0, some 48, some 48, some 0, some 0, some 0, some 0, some 0, some 0, some 48, some 48, some 0, some 0, some 0, some 0, some 0, some 25, some 0, some 0, some 27, some 0, some 0, some 0, some 0, some 0, some 0, some 0, some 0, some 0, some 0, some 0, some 0, some 0, some 0, some 0, some 0, some 0, some 0, some 0, some 0, some 0, some 0, some 0, some 0, some 0, some 0, some 0, some 0, some 0, some 0, some 0, some 0, some 0, some 0, some 0, some 0]⟩
def gFSides0 : Layer :=
  ⟨8, 8, [some 1, some 0, some 0, some 3, some 0, some 0, some 0, some 0, some 13, some 48, some 48, some 0, some 0, some 0, some 0, some 0, some 13, some 48, some 48, some 0, some 0, some 0, some 0, some 0, some 25, some 0, some 0, some 27, some 0, some 0, some 0, some 0, some 0, some 0, some 0, some 0, some 0, some 0, some 0, some 0, some 0, some 0, some 0, some 0, some 0, some 0, some 0, some 0, some 0, some 0, some 0, some 0, some 0, some 0, some 0, some 0, some 0, some 0, some 0, some 0, some 0, some 0, some 0, some 0]⟩
def gFSides1 : Layer :=
  ⟨8, 8, [some 1, some 0, some 0, some 3, some 0, some 0, some 0, some 0, some 13, some 48, some 48, some 15, some 0, some 0, some 0, some 0, some 13, some 48, some 48, some 15, some 0, some 0, some 0, some 0, some 25, some 0, some 0, some 27, some 0, some 0, some 0, some 0, some 0, some 0, some 0, some 0, some 0, some 0, some 0, some 0, some 0, some 0, some 0, some 0, some 0, some 0, some 0, some 0, some 0, some 0, some 0, some 0, some 0, some 0, some 0, some 0, some 0, some 0, some 0, some 0, some 0, some 0, some 0, some 0]⟩
def gFSides2 : Layer :=
  ⟨8, 8, [some 1, some 0, some 0, some 3, some 0, some 0, some 0, some 0, some 13, some 48, some 48, some 15, some 0, some 0, some 0, some 0, some 13, some 48, some 48, some 15, some 0, some 0, some 0, some 0, some 25, some 0, some 0, some 27, some 0, some 0, some 0, some 0, some 0, some 0, some 0, some 0, some 0, some 0, some 0, some 0, some 0, some 0, some 0, some 0, some 0, some 0, some 0, some 0, some 0, some 0, some 0, some 0, some 0, some 0, some 0, some 0, some 0, some 0, some 0, some 0, some 0, some 0, some 0, some 0]⟩
def gFSides3 : Layer :=
  ⟨8, 8, [some 1, some 0, some 0, some 3, some 0, some 0, some 0, some 0, some 13, some 48, some 48, some 15, some 0, some 0, some 0, some 0, some 13, some 48, some 48, some 15, some 0, some 0, some 0, some 0, some 25, some 0, some 0, some 27, some 0, some 0, some 0, some 0, some 0, some 0, some 0, some 0, some 0, some 0, some 0, some 0, some 0, some 0, some 0, some 0, some 0, some 0, some 0, some 0, some 0, some 0, some 0, some 0, some 0, some 0, some 0, some 0, some 0, some 0, some 0, some 0, some 0, some 0, some 0, some 0]⟩
def gFTB0 : Layer :=
  ⟨8, 8, [some 1, some 2, some 0, some 3, some 0, some 0, some 0, some 0, some 13, some 48, some 48, some 15, some 0, some 0, some 0, some 0, some 13, some 48, some 48, some 15, some 0, some 0, some 0, some 0, some 25, some 26, some 0, some 27, some 0, some 0, some 0, some 0, some 0, some 0, some 0, some 0, some 0, some 0, some 0, some 0, some 0, some 0, some 0, some 0, some 0, some 0, some 0, some 0, some 0, some 0, some 0, some 0, some 0, some 0, some 0, some 0, some 0, some 0, some 0, some 0, some 0, some 0, some 0, some 0]⟩
def gFTB1 : Layer :=
  ⟨8, 8, [some 1, some 2, some 2, some 3, some 0, some 0, some 0, some 0, some 13, some 48, some 48, some 15, some 0, some 0, some 0, some 0, some 13, some 48, some 48, some 15, some 0, some 0, some 0, some 0, some 25, some 26, some 26, some 27, some 0, some 0, some 0, some 0, some 0, some 0, some 0, some 0, some 0, some 0, some 0, some 0, some 0, some 0, some 0, some 0, some 0, some 0, some 0, some 0, some 0, some 0, some 0, some 0, some 0, some 0, some 0, some 0, some 0, some 0, some 0, some 0, some 0, some 0, some 0, some 0]⟩
def gFTB2 : Layer :=
  ⟨8, 8, [some 1, some 2, some 2, some 3, some 0, some 0, some 0, some 0, some 13, some 48, some 48, some 15, some 0, some 0, some 0, some 0, some 13, some 48, some 48, some 15, some 0, some 0, some 0, some 0, some 25, some 26, some 26, some 27, some 0, some 0, some 0, some 0, some 0, some 0, some 0, some 0, some 0, some 0, some 0, some 0, some 0, some 0, some 0, some 0, some 0, some 0, some 0, some 0, some 0, some 0, some 0, some 0, some 0, some 0, some 0, some 0, some 0, some 0, some 0, some 0, some 0, some 0, some 0, some 0]⟩
def gFTB3 : Layer :=
  ⟨8, 8, [some 1, some 2, some 2, some 3, some 0, some 0, some 0, some 0, some 13, some 48, some 48, some 15, some 0, some 0, some 0, some 0, some 13, some 48, some 48, some 15, some 0, some 0, some 0, some 0, some 25, some 26, some 26, some 27, some 0, some 0, some 0, some 0, some 0, some 0, some 0, some 0, some 0, some 0, some 0, some 0, some 0, some 0, some 0, some 0, some 0, some 0, some 0, some 0, some 0, some 0, some 0, some 0, some 0, some 0, some 0, some 0, some 0, some 0, some 0, some 0, some 0, some 0, some 0, some 0]⟩
def gFFac0 : Layer :=
  ⟨8, 8, [some 1, some 2, some 2, some 3, some 0, some 0, some 0, some 0, some 13, some 40, some 48, some 15, some 0, some 0, some 0, some 0, some 13, some 48, some 48, some 15, some 0, some 0, some 0, some 0, some 25, some 26, some 26, some 27, some 0, some 0, some 0, some 0, some 0, some 0, some 0, some 0, some 0, some 0, some 0, some 0, some 0, some 0, some 0, some 0, some 0, some 0, some 0, some 0, some 0, some 0, some 0, some 0, some 0, some 0, some 0, some 0, some 0, some 0, some 0, some 0, some 0, some 0, some 0, some 0]⟩
def gFFac1 : Layer :=
  ⟨8, 8, [some 1, some 2, some 2, some 3, some 0, some 0, some 0, some 0, some 13, some 40, some 40, some 15, some 0, some 0, some 0, some 0, some 13, some 48, some 48, some 15, some 0, some 0, some 0, some 0, some 25, some 26, some 26, some 27, some 0, some 0, some 0, some 0, some 0, some 0, some 0, some 0, some 0, some 0, some 0, some 0, some 0, some 0, some 0, some 0, some 0, some 0, some 0, some 0, some 0, some 0, some 0, some 0, some 0, some 0, some 0, some 0, some 0, some 0, some 0, some 0, some 0, some 0, some 0, some 0]⟩
def gFFac2 : Layer :=
  ⟨8, 8, [some 1, some 2, some 2, some 3, some 0, some 0, some 0, some 0, some 13, some 40, some 40, some 15, some 0, some 0, some 0, some 0, some 13, some 48, some 48, some 15, some 0, some 0, some 0, some 0, some 25, some 26, some 26, some 27, some 0, some 0, some 0, some 0, some 0, some 0, some 0, some 0, some 0, some 0, some 0, some 0, some 0, some 0, some 0, some 0, some 0, some 0, some 0, some 0, some 0, some 0, some 0, some 0, some 0, some 0, some 0, some 0, some 0, some 0, some 0, some 0, some 0, some 0, some 0, some 0]⟩
def gFFac3 : Layer :=
  ⟨8, 8, [some 1, some 2, some 2, some 3, some 0, some 0, some 0, some 0, some 13, some 40, some 40, some 15, some 0, some 0, some 0, some 0, some 13, some 48, some 48, some 15, some 0, some 0, some 0, some 0, some 25, some 26, some 26, some 27, some 0, some 0, some 0, some 0, some 0, some 0, some 0, some 0, some 0, some 0, some 0, some 0, some 0, some 0, some 0, some 0, some 0, some 0, some 0, some 0, some 0, some 0, some 0, some 0, some 0, some 0, some 0, some 0, some 0, some 0, some 0, some 0, some 0, some 0, some 0, some 0]⟩

/-! ## Basic lemmas about cells and writes -/

theorem writeCell_width (g : Layer) (i t : Nat) : (writeCell g i t).width = g.width := rfl

theorem writeCell_height (g : Layer) (i t : Nat) : (writeCell g i t).height = g.height := rfl

theorem writeCell_length (g : Layer) (i t : Nat) :
    (writeCell g i t).data.length = g.data.length := by
  simp [writeCell]

theorem readCell_writeCell_self (g : Layer) (i t : Nat) (h : i < g.data.length) :
    readCell (writeCell g i t) i = some t := by
  simp [readCell, writeCell, List.getD_eq_getElem?_getD, List.getElem?_set_self', h]

theorem readCell_writeCell_ne (g : Layer) (i j t : Nat) (h : i ≠ j) :
    readCell (writeCell g i t) j = readCell g j := by
  simp [readCell, writeCell, List.getD_eq_getElem?_getD, List.getElem?_set_ne h]

theorem xytoi_writeCell (x y : Nat) (g : Layer) (i t : Nat) :
    xytoi x y (writeCell g i t) = xytoi x y g := rfl

theorem writeCell_oob (g : Layer) (i t : Nat) (h : g.data.length ≤ i) :
    writeCell g i t = g := by
  unfold writeCell
  rw [List.set_eq_of_length_le h]

/-- Flat row-major indices are injective on in-range columns. -/
theorem xytoi_inj {w x1 y1 x2 y2 : Nat} (h1 : x1 < w) (h2 : x2 < w)
    (h : y1 * w + x1 = y2 * w + x2) : x1 = x2 ∧ y1 = y2 := by
  have hx : x1 = x2 := by
    have e1 : (y1 * w + x1) % w = x1 := by
      rw [Nat.add_comm, Nat.add_mul_mod_self_right, Nat.mod_eq_of_lt h1]
    have e2 : (y2 * w + x2) % w = x2 := by
      rw [Nat.add_comm, Nat.add_mul_mod_self_right, Nat.mod_eq_of_lt h2]
    rw [← e1, ← e2, h]
  refine ⟨hx, ?_⟩
  subst hx
  have hw : 0 < w := Nat.lt_of_le_of_lt (Nat.zero_le x1) h1
  have hmul : y1 * w = y2 * w := by omega
  exact Nat.eq_of_mul_eq_mul_right hw hmul

/-! ## Claim C9: rules rewrite unconditionally on empty cells -/

theorem edgeRule_none (g : Layer) (i0 i1 p0 p1 iw wid : Nat)
    (h : readCell g i0 = none ∨ readCell g i1 = none) :
    edgeRule g i0 i1 p0 p1 iw wid = (true, writeCell g iw wid) := by
  rcases h with h | h
  · cases h2 : readCell g i1 <;> simp [edgeRule, h, h2]
  · cases h2 : readCell g i0 <;> simp [edgeRule, h, h2]

theorem cornerRule_none (g : Layer) (x y : Nat) (p00 p01 p10 p11 : CornerPat)
    (iw wid : Nat)
    (h : readCell g (xytoi x y g) = none ∨ readCell g (xytoi (x + 1) y g) = none ∨
         readCell g (xytoi x (y + 1) g) = none ∨ readCell g (xytoi (x + 1) (y + 1) g) = none) :
    cornerRule g x y p00 p01 p10 p11 iw wid = (true, writeCell g iw wid) := by
  cases h00 : readCell g (xytoi x y g) <;>
  cases h01 : readCell g (xytoi (x + 1) y g) <;>
  cases h10 : readCell g (xytoi x (y + 1) g) <;>
  cases h11 : readCell g (xytoi (x + 1) (y + 1) g) <;>
    simp_all [cornerRule]

theorem thin_horizontal_none (g : Layer) (x y : Nat)
    (hb : ¬ (x ≥ g.width ∨ y ≥ g.height - 2))
    (h : readCell g (xytoi x y g) = none ∨ readCell g (xytoi x (y + 1) g) = none ∨
         readCell g (xytoi x (y + 2) g) = none) :
    try_rewrite_thin_horizontal_wall g x y =
      (true, writeCell g (xytoi x y g) WALL_01_TILE_ID) := by
  cases h0 : readCell g (xytoi x y g) <;>
  cases h1 : readCell g (xytoi x (y + 1) g) <;>
  cases h2 : readCell g (xytoi x (y + 2) g) <;>
    simp_all [try_rewrite_thin_horizontal_wall, hb]

theorem thin_vertical_none (g : Layer) (x y : Nat)
    (hb : ¬ (x ≥ g.width - 2 ∨ y ≥ g.height))
    (h : readCell g (xytoi x y g) = none ∨ readCell g (xytoi (x + 1) y g) = none ∨
         readCell g (xytoi (x + 2) y g) = none) :
    try_rewrite_thin_vertical_wall g x y =
      (true, writeCell g (xytoi x y g) WALL_01_TILE_ID) := by
  cases h0 : readCell g (xytoi x y g) <;>
  cases h1 : readCell g (xytoi (x + 1) y g) <;>
  cases h2 : readCell g (xytoi (x + 2) y g) <;>
    simp_all [try_rewrite_thin_vertical_wall, hb]

theorem double_corner_horizontal_none (g : Layer) (x y : Nat)
    (hb : ¬ (x ≥ g.width - 2 ∨ y ≥ g.height - 1))
    (h : readCell g (xytoi x y g) = none ∨ readCell g (xytoi (x + 1) y g) = none ∨
         readCell g (xytoi (x + 2) y g) = none ∨ readCell g (xytoi x (y + 1) g) = none ∨
         readCell g (xytoi (x + 1) (y + 1) g) = none ∨
         readCell g (xytoi (x + 2) (y + 1) g) = none) :
    try_rewrite_double_corner_horizontal g x y =
      (true, writeDoubleCorner g (xytoi x y g) (xytoi (x + 1) y g) (xytoi (x + 2) y g)
        (xytoi x (y + 1) g) (xytoi (x + 1) (y + 1) g) (xytoi (x + 2) (y + 1) g)) := by
  cases h00 : readCell g (xytoi x y g) <;>
  cases h10 : readCell g (xytoi (x + 1) y g) <;>
  cases h20 : readCell g (xytoi (x + 2) y g) <;>
  cases h01 : readCell g (xytoi x (y + 1) g) <;>
  cases h11 : readCell g (xytoi (x + 1) (y + 1) g) <;>
  cases h21 : readCell g (xytoi (x + 2) (y + 1) g) <;>
    simp_all [try_rewrite_double_corner_horizontal, hb]

theorem double_corner_vertical_none (g : Layer) (x y : Nat)
    (hb : ¬ (x ≥ g.width - 1 ∨ y ≥ g.height - 2))
    (h : readCell g (xytoi x y g) = none ∨ readCell g (xytoi x (y + 1) g) = none ∨
         readCell g (xytoi x (y + 2) g) = none ∨ readCell g (xytoi (x + 1) y g) = none ∨
         readCell g (xytoi (x + 1) (y + 1) g) = none ∨
         readCell g (xytoi (x + 1) (y + 2) g) = none) :
    try_rewrite_double_corner_vertical g x y =
      (true, writeDoubleCorner g (xytoi x y g) (xytoi x (y + 1) g) (xytoi x (y + 2) g)
        (xytoi (x + 1) y g) (xytoi (x + 1) (y + 1) g) (xytoi (x + 1) (y + 2) g)) := by
  cases h00 : readCell g (xytoi x y g) <;>
  cases h10 : readCell g (xytoi x (y + 1) g) <;>
  cases h20 : readCell g (xytoi x (y + 2) g) <;>
  cases h01 : readCell g (xytoi (x + 1) y g) <;>
  cases h11 : readCell g (xytoi (x + 1) (y + 1) g) <;>
  cases h21 : readCell g (xytoi (x + 1) (y + 2) g) <;>
    simp_all [try_rewrite_double_corner_vertical, hb]

/-- **C9**: in every `try_rewrite_*` rule of the wall-detailing engine the
neighbourhood pattern guard is only consulted when every inspected cell is
populated: whenever the rule's bounds guard passes and at least one
inspected cell is empty (`none`), the rule performs its rewrite
unconditionally and returns `true`, regardless of the other cells. -/
theorem c9_rules_fire_on_empty (g : Layer) (x y : Nat) :
    ((¬ (x ≥ g.width ∨ y ≥ g.height - 2)) →
      (readCell g (xytoi x y g) = none ∨ readCell g (xytoi x (y + 1) g) = none ∨
       readCell g (xytoi x (y + 2) g) = none) →
      try_rewrite_thin_horizontal_wall g x y =
        (true, writeCell g (xytoi x y g) WALL_01_TILE_ID)) ∧
    ((¬ (x ≥ g.width - 2 ∨ y ≥ g.height)) →
      (readCell g (xytoi x y g) = none ∨ readCell g (xytoi (x + 1) y g) = none ∨
       readCell g (xytoi (x + 2) y g) = none) →
      try_rewrite_thin_vertical_wall g x y =
        (true, writeCell g (xytoi x y g) WALL_01_TILE_ID)) ∧
    ((¬ (x ≥ g.width - 2 ∨ y ≥ g.height - 1)) →
      (readCell g (xytoi x y g) = none ∨ readCell g (xytoi (x + 1) y g) = none ∨
       readCell g (xytoi (x + 2) y g) = none ∨ readCell g (xytoi x (y + 1) g) = none ∨
       readCell g (xytoi (x + 1) (y + 1) g) = none ∨
       readCell g (xytoi (x + 2) (y + 1) g) = none) →
      try_rewrite_double_corner_horizontal g x y =
        (true, writeDoubleCorner g (xytoi x y g) (xytoi (x + 1) y g) (xytoi (x + 2) y g)
          (xytoi x (y + 1) g) (xytoi (x + 1) (y + 1) g) (xytoi (x + 2) (y + 1) g))) ∧
    ((¬ (x ≥ g.width - 1 ∨ y ≥ g.height - 2)) →
      (readCell g (xytoi x y g) = none ∨ readCell g (xytoi x (y + 1) g) = none ∨
       readCell g (xytoi x (y + 2) g) = none ∨ readCell g (xytoi (x + 1) y g) = none ∨
       readCell g (xytoi (x + 1) (y + 1) g) = none ∨
       readCell g (xytoi (x + 1) (y + 2) g) = none) →
      try_rewrite_double_corner_vertical g x y =
        (true, writeDoubleCorner g (xytoi x y g) (xytoi x (y + 1) g) (xytoi x (y + 2) g)
          (xytoi (x + 1) y g) (xytoi (x + 1) (y + 1) g) (xytoi (x + 1) (y + 2) g))) ∧
    ((¬ (x ≥ g.width - 1 ∨ y ≥ g.height - 1)) →
      (readCell g (xytoi x y g) = none ∨ readCell g (xytoi (x + 1) y g) = none ∨
       readCell g (xytoi x (y + 1) g) = none ∨ readCell g (xytoi (x + 1) (y + 1) g) = none) →
      try_rewrite_inner_ul_wall g x y = (true, writeCell g (xytoi x y g) WALL_INNER_UL_ID) ∧
      try_rewrite_inner_ur_wall g x y = (true, writeCell g (xytoi (x + 1) y g) WALL_INNER_UR_ID) ∧
      try_rewrite_inner_dl_wall g x y = (true, writeCell g (xytoi x (y + 1) g) WALL_INNER_DL_ID) ∧
      try_rewrite_inner_dr_wall g x y =
        (true, writeCell g (xytoi (x + 1) (y + 1) g) WALL_INNER_DR_ID) ∧
      try_rewrite_outer_ul_wall g x y =
        (true, writeCell g (xytoi (x + 1) (y + 1) g) WALL_OUTER_UL_ID) ∧
      try_rewrite_outer_ur_wall g x y = (true, writeCell g (xytoi x (y + 1) g) WALL_OUTER_UR_ID) ∧
      try_rewrite_outer_dl_wall g x y = (true, writeCell g (xytoi (x + 1) y g) WALL_OUTER_DL_ID) ∧
      try_rewrite_outer_dr_wall g x y = (true, writeCell g (xytoi x y g) WALL_OUTER_DR_ID)) ∧
    ((¬ (x ≥ g.width - 1 ∨ y ≥ g.height)) →
      (readCell g (xytoi x y g) = none ∨ readCell g (xytoi (x + 1) y g) = none) →
      try_rewrite_left_wall g x y = (true, writeCell g (xytoi x y g) WALL_LEFT_TILE_ID) ∧
      try_rewrite_right_wall g x y = (true, writeCell g (xytoi (x + 1) y g) WALL_RIGHT_TILE_ID)) ∧
    ((¬ (x ≥ g.width ∨ y ≥ g.height - 1)) →
      (readCell g (xytoi x y g) = none ∨ readCell g (xytoi x (y + 1) g) = none) →
      try_rewrite_top_wall g x y = (true, writeCell g (xytoi x y g) WALL_UP_TILE_ID) ∧
      try_rewrite_bottom_wall g x y = (true, writeCell g (xytoi x (y + 1) g) WALL_DOWN_TILE_ID) ∧
      try_rewrite_center_facades g x y =
        (true, writeCell g (xytoi x (y + 1) g) FACADE_CENTER_TILE_ID) ∧
      try_rewrite_left_facades g x y =
        (true, writeCell g (xytoi x (y + 1) g) FACADE_LEFT_TILE_ID) ∧
      try_rewrite_right_facades g x y =
        (true, writeCell g (xytoi x (y + 1) g) FACADE_RIGHT_TILE_ID)) := by
  refine ⟨thin_horizontal_none g x y, thin_vertical_none g x y,
    double_corner_horizontal_none g x y, double_corner_vertical_none g x y, ?_, ?_, ?_⟩
  · intro hb h
    refine ⟨?_, ?_, ?_, ?_, ?_, ?_, ?_, ?_⟩ <;>
      · simp only [try_rewrite_inner_ul_wall, try_rewrite_inner_ur_wall,
          try_rewrite_inner_dl_wall, try_rewrite_inner_dr_wall,
          try_rewrite_outer_ul_wall, try_rewrite_outer_ur_wall,
          try_rewrite_outer_dl_wall, try_rewrite_outer_dr_wall, if_neg hb]
        exact cornerRule_none g x y _ _ _ _ _ _ h
  · intro hb h
    constructor
    · simp only [try_rewrite_left_wall, if_neg hb]
      exact edgeRule_none g _ _ _ _ _ _ h
    · simp only [try_rewrite_right_wall, if_neg hb]
      exact edgeRule_none g _ _ _ _ _ _ h
  · intro hb h
    refine ⟨?_, ?_, ?_, ?_, ?_⟩ <;>
      · simp only [try_rewrite_top_wall, try_rewrite_bottom_wall,
          try_rewrite_center_facades, try_rewrite_left_facades,
          try_rewrite_right_facades, if_neg hb]
        exact edgeRule_none g _ _ _ _ _ _ h

/-- Witness for C9 at a concrete empty grid and position. -/
theorem c9_rules_fire_on_empty_witness :
    try_rewrite_thin_horizontal_wall gNone 1 1 =
      (true, writeCell gNone (xytoi 1 1 gNone) WALL_01_TILE_ID) ∧
    try_rewrite_double_corner_horizontal gNone 1 1 =
      (true, writeDoubleCorner gNone (xytoi 1 1 gNone) (xytoi 2 1 gNone) (xytoi 3 1 gNone)
        (xytoi 1 2 gNone) (xytoi 2 2 gNone) (xytoi 3 2 gNone)) ∧
    try_rewrite_inner_ul_wall gNone 1 1 =
      (true, writeCell gNone (xytoi 1 1 gNone) WALL_INNER_UL_ID) ∧
    try_rewrite_top_wall gNone 1 1 = (true, writeCell gNone (xytoi 1 1 gNone) WALL_UP_TILE_ID) :=
  ⟨(c9_rules_fire_on_empty gNone 1 1).1 (by decide) (by decide),
   (c9_rules_fire_on_empty gNone 1 1).2.2.1 (by decide) (by decide),
   ((c9_rules_fire_on_empty gNone 1 1).2.2.2.2.1 (by decide) (by decide)).1,
   ((c9_rules_fire_on_empty gNone 1 1).2.2.2.2.2.2 (by decide) (by decide)).1⟩

/-! ## Claim C6: characterisation of `check_door_candidate` -/

/-- **C6 (amended)**: `check_door_candidate` returns `true` exactly when
the 4×clearance region is in-bounds, none of the 4 facade-row cells holds
a tile other than the facade-centre id (an empty cell passes), and none of
the clearance cells in rows `y+1` through `y+clearance-1` holds a tile
other than ground (an empty cell passes). -/
theorem c6_check_door_candidate_iff (self : MapGenerator) (g : Layer) (x y : Nat) :
    check_door_candidate self g x y = true ↔ codeCandidate self g x y := by
  unfold check_door_candidate codeCandidate
  by_cases hbad : x + 4 > g.width ∨ y + self.door_clearance > g.height
  · rw [if_pos hbad]
    constructor
    · intro h; cases h
    · rintro ⟨h1, h2, -⟩
      exact ((by omega : False)).elim
  · rw [if_neg hbad]
    rw [List.all_eq_true]
    constructor
    · intro hall
      refine ⟨by omega, by omega, fun xx hx1 hx2 => ?_⟩
      have hmem : xx ∈ List.range' x 4 := by rw [List.mem_range'_1]; omega
      have h := hall xx hmem
      rw [Bool.and_eq_true, List.all_eq_true] at h
      refine ⟨fun t ht => ?_, fun yy hy1 hy2 t ht => ?_⟩
      · have h1 := h.1
        rw [show cellAt g xx y = readCell g (xytoi xx y g) from rfl] at ht
        rw [ht] at h1
        simpa using h1
      · have hmem2 : yy ∈ List.range' (y + 1) (y + self.door_clearance - (y + 1)) := by
          rw [List.mem_range'_1]; omega
        have h2 := h.2 yy hmem2
        rw [show cellAt g xx yy = readCell g (xytoi xx yy g) from rfl] at ht
        rw [ht] at h2
        simpa using h2
    · rintro ⟨-, -, hq⟩
      intro xx hmem
      rw [List.mem_range'_1] at hmem
      obtain ⟨hf, hg⟩ := hq xx hmem.1 (by omega)
      rw [Bool.and_eq_true, List.all_eq_true]
      constructor
      · cases hc : readCell g (xytoi xx y g)
        · simp
        · simpa using hf _ hc
      · intro yy hm2
        rw [List.mem_range'_1] at hm2
        cases hc : readCell g (xytoi xx yy g)
        · simp
        · simpa using hg yy (by omega) (by omega) _ hc

/-- Counterexample to C6 as stated: on `gC6` the code accepts position
(1,1) although one of the four facade cells is empty, so the cells do not
all "hold the facade-center tile id". -/
theorem c6_counterexample :
    check_door_candidate cfgC6 gC6 1 1 = true ∧ ¬ c6ClaimedCandidate cfgC6 gC6 1 1 := by
  constructor
  · rfl
  · intro h
    have := h.2.2.1 3 (by omega)
    simp [cellAt, readCell, xytoi, gC6] at this

/-! ## Claim C10: corridor-carve safety -/

theorem corridorH_safe_iff (w h sx dx y p : Nat) :
    corridorHSafe w h sx dx y p ↔
      (p ≤ y ∧ p ≤ min sx dx ∧ max sx dx + p < w ∧ y + p < h) := by
  unfold corridorHSafe corridorHUnderflowFree corridorHWritesInBounds corridorHTargets
  simp only [List.mem_flatMap, List.mem_map, List.mem_range'_1]
  constructor
  · rintro ⟨⟨h1, h2⟩, hb⟩
    refine ⟨h1, h2, ?_, ?_⟩
    · exact (hb (max sx dx + p, y) ⟨y, by omega, ⟨max sx dx + p, by omega, rfl⟩⟩).1
    · exact (hb (min sx dx - p, y + p) ⟨y + p, by omega, ⟨min sx dx - p, by omega, rfl⟩⟩).2
  · rintro ⟨h1, h2, h3, h4⟩
    refine ⟨⟨h1, h2⟩, ?_⟩
    rintro ⟨a, b⟩ ⟨yy, hyy, xx, hxx, heq⟩
    cases heq
    constructor <;> [skip; skip] <;> simp only [] <;> omega

theorem corridorV_safe_iff (w h x sy dy p : Nat) :
    corridorVSafe w h x sy dy p ↔
      (p ≤ x ∧ p ≤ min sy dy ∧ max sy dy + p < h ∧ x + p < w) := by
  unfold corridorVSafe corridorVUnderflowFree corridorVWritesInBounds corridorVTargets
  simp only [List.mem_flatMap, List.mem_map, List.mem_range'_1]
  constructor
  · rintro ⟨⟨h1, h2⟩, hb⟩
    refine ⟨h1, h2, ?_, ?_⟩
    · exact (hb (x, max sy dy + p) ⟨x, by omega, ⟨max sy dy + p, by omega, rfl⟩⟩).2
    · exact (hb (x + p, min sy dy - p) ⟨x + p, by omega, ⟨min sy dy - p, by omega, rfl⟩⟩).1
  · rintro ⟨h1, h2, h3, h4⟩
    refine ⟨⟨h1, h2⟩, ?_⟩
    rintro ⟨a, b⟩ ⟨xx, hxx, yy, hyy, heq⟩
    cases heq
    constructor <;> [skip; skip] <;> simp only [] <;> omega

/-- **C10 (amended)**: each corridor carve is free of `u32` underflow and
writes only in-bounds cells **iff** the claimed precondition holds *and,
additionally, the carve's row (resp. column) coordinate plus the padding
is below the other grid dimension* — the conjunct the claim omits. -/
theorem c10_corridor_carve_safety (w h sx dx y x sy dy p : Nat) :
    (corridorHSafe w h sx dx y p ↔ c10ClaimedPreH w h sx dx y p ∧ y + p < h) ∧
    (corridorVSafe w h x sy dy p ↔ c10ClaimedPreV w h x sy dy p ∧ x + p < w) := by
  constructor
  · rw [corridorH_safe_iff]
    unfold c10ClaimedPreH
    constructor
    · rintro ⟨h1, h2, h3, h4⟩; exact ⟨⟨h1, h2, h3⟩, h4⟩
    · rintro ⟨⟨h1, h2, h3⟩, h4⟩; exact ⟨h1, h2, h3, h4⟩
  · rw [corridorV_safe_iff]
    unfold c10ClaimedPreV
    constructor
    · rintro ⟨h1, h2, h3, h4⟩; exact ⟨⟨h1, h2, h3⟩, h4⟩
    · rintro ⟨⟨h1, h2, h3⟩, h4⟩; exact ⟨h1, h2, h3, h4⟩

/-- Counterexample to C10 as stated: on a 3×3 grid, padding 0, carve row
`y = 3` and span `1..1`, the claimed precondition holds but the horizontal
carve targets the out-of-bounds cell (1,3). -/
theorem c10_counterexample :
    c10ClaimedPreH 3 3 1 1 3 0 ∧ ¬ corridorHSafe 3 3 1 1 3 0 := by
  constructor
  · exact ⟨by omega, by omega, by omega⟩
  · rintro ⟨-, hb⟩
    have := hb (1, 3) (by decide)
    omega

/-! ## Claim C8: filler at probability 0 and 1 -/

theorem sampleGe_zero (v : Nat) : sampleGe v ⟨0, 1⟩ = true := by
  simp [sampleGe]

theorem sampleGe_one (v : Nat) : sampleGe v ⟨1, 1⟩ = false := by
  simp [sampleGe]

theorem fillerCellStep_zero_grid (src dst : Nat) (st : Nat × Layer × List Nat)
    (xy : Nat × Nat) : (fillerCellStep src dst ⟨0, 1⟩ st xy).2.1 = st.2.1 := by
  obtain ⟨c, g, s⟩ := st
  simp only [fillerCellStep, sampleGe_zero]
  split <;> simp

theorem filler_zero_fold (src dst : Nat) :
    ∀ (cells : List (Nat × Nat)) (st : Nat × Layer × List Nat),
      ((cells.foldl (fillerCellStep src dst ⟨0, 1⟩) st)).2.1 = st.2.1 := by
  intro cells
  induction cells with
  | nil => intro st; rfl
  | cons c rest ih =>
    intro st
    rw [List.foldl_cons, ih, fillerCellStep_zero_grid]

/-- A filler step only ever writes `dst`, and only at its own cell, so a
cell already holding `dst` keeps it. -/
theorem filler_keeps_dst (src dst : Nat) (prob : Frac) :
    ∀ (cells : List (Nat × Nat)) (st : Nat × Layer × List Nat) (x y : Nat),
      cellAt st.2.1 x y = some dst →
      cellAt ((cells.foldl (fillerCellStep src dst prob) st)).2.1 x y = some dst := by
  intro cells
  induction cells with
  | nil => intro st x y h; exact h
  | cons c rest ih =>
    intro st x y h
    rw [List.foldl_cons]
    refine ih _ x y ?_
    obtain ⟨cnt, g, s⟩ := st
    simp only [fillerCellStep]
    split
    · exact h
    · split
      · exact h
      · show cellAt (writeCell g (xytoi c.1 c.2 g) dst) x y = some dst
        unfold cellAt
        rw [xytoi_writeCell]
        by_cases he : xytoi c.1 c.2 g = xytoi x y g
        · by_cases hl : xytoi c.1 c.2 g < g.data.length
          · rw [← he, readCell_writeCell_self g _ dst hl]
          · rw [writeCell_oob g _ dst (by omega)]
            exact h
        · rw [readCell_writeCell_ne g _ _ dst he]
          exact h

/-- With probability 1 the fold rewrites every visited cell that holds
`src`. -/
theorem filler_one_fold (src dst : Nat) :
    ∀ (cells : List (Nat × Nat)) (st : Nat × Layer × List Nat) (x y : Nat),
      (∀ p ∈ cells, p.1 < st.2.1.width) →
      x < st.2.1.width → y < st.2.1.height →
      st.2.1.data.length = st.2.1.width * st.2.1.height →
      (x, y) ∈ cells →
      cellAt st.2.1 x y = some src →
      cellAt ((cells.foldl (fillerCellStep src dst ⟨1, 1⟩) st)).2.1 x y = some dst := by
  intro cells
  induction cells with
  | nil => intro st x y _ _ _ _ hmem; cases hmem
  | cons c rest ih =>
    intro st x y hcols hx hy hlen hmem hsrc
    rw [List.foldl_cons]
    by_cases hc : c = (x, y)
    · subst hc
      obtain ⟨cnt, g, s⟩ := st
      simp only at hcols hx hy hlen hsrc
      have hflat : xytoi x y g < g.data.length := by
        unfold xytoi
        rw [hlen]
        have h1 : y * g.width + x < (y + 1) * g.width := by
          rw [Nat.succ_mul]; omega
        have h2 : (y + 1) * g.width ≤ g.height * g.width :=
          Nat.mul_le_mul_right _ (by omega)
        have h3 : g.height * g.width = g.width * g.height := Nat.mul_comm _ _
        omega
      have hstep : (fillerCellStep src dst ⟨1, 1⟩ (cnt, g, s) (x, y)).2.1 =
          writeCell g (xytoi x y g) dst := by
        unfold cellAt at hsrc
        simp [fillerCellStep, hsrc, sampleGe_one]
      refine filler_keeps_dst src dst ⟨1, 1⟩ rest _ x y ?_
      rw [hstep]
      unfold cellAt
      rw [xytoi_writeCell]
      exact readCell_writeCell_self g _ dst hflat
    · have hmem' : (x, y) ∈ rest := by
        rcases List.mem_cons.mp hmem with h | h
        · exact absurd h.symm hc
        · exact h
      obtain ⟨cnt, g, s⟩ := st
      simp only at hcols hx hy hlen hsrc
      have hpres : ∀ st' : Nat × Layer × List Nat,
          (fillerCellStep src dst ⟨1, 1⟩ (cnt, g, s) c) = st' →
          st'.2.1.width = g.width ∧ st'.2.1.height = g.height ∧
          st'.2.1.data.length = g.data.length ∧ cellAt st'.2.1 x y = some src := by
        rintro st' rfl
        simp only [fillerCellStep]
        split
        · exact ⟨rfl, rfl, rfl, hsrc⟩
        · split
          · exact ⟨rfl, rfl, rfl, hsrc⟩
          · refine ⟨rfl, rfl, by simp [writeCell], ?_⟩
            show cellAt (writeCell g (xytoi c.1 c.2 g) dst) x y = some src
            have hne : xytoi c.1 c.2 g ≠ xytoi x y g := by
              intro he
              have hc1 : c.1 < g.width := hcols c (List.mem_cons_self _ _)
              have := @xytoi_inj g.width _ _ _ _ hc1 hx he
              exact hc (by cases c; simp_all)
            unfold cellAt
            rw [xytoi_writeCell]
            rw [readCell_writeCell_ne g _ _ dst hne]
            exact hsrc
      obtain ⟨hw', hh', hl', hc'⟩ := hpres _ rfl
      refine ih _ x y ?_ ?_ ?_ ?_ hmem' hc'
      · intro p hp; rw [hw']; exact hcols p (List.mem_cons_of_mem _ hp)
      · rw [hw']; exact hx
      · rw [hh']; exact hy
      · rw [hl', hw', hh']; exact hlen

theorem fillerCells_col_lt (w h : Nat) : ∀ p ∈ fillerCells w h, p.1 < w := by
  intro p hp
  unfold fillerCells at hp
  simp only [List.mem_flatMap, List.mem_map, List.mem_range'_1] at hp
  obtain ⟨a, ha, b, hb, rfl⟩ := hp
  simp only
  omega

theorem mem_fillerCells (w h x y : Nat) (hx1 : 1 ≤ x) (hx2 : x + 2 ≤ w)
    (hy1 : 1 ≤ y) (hy2 : y + 2 ≤ h) : (x, y) ∈ fillerCells w h := by
  unfold fillerCells
  simp only [List.mem_flatMap, List.mem_map, List.mem_range'_1]
  exact ⟨x, by omega, y, by omega, rfl⟩

/-- **C8**: `rewrite_random_filler` with probability 0 leaves the grid
unchanged; with probability 1 it rewrites every non-border interior cell
currently holding the source tile to the destination tile. -/
theorem c8_filler_prob_zero_one (src dst : Nat) (g : Layer) (s : List Nat)
    (hlen : g.data.length = g.width * g.height) :
    (rewrite_random_filler src dst ⟨0, 1⟩ g s).2.1 = g ∧
    (∀ x y, 1 ≤ x → x + 2 ≤ g.width → 1 ≤ y → y + 2 ≤ g.height →
      cellAt g x y = some src →
      cellAt (rewrite_random_filler src dst ⟨1, 1⟩ g s).2.1 x y = some dst) := by
  constructor
  · exact filler_zero_fold src dst _ _
  · intro x y hx1 hx2 hy1 hy2 hsrc
    exact filler_one_fold src dst (fillerCells g.width g.height) (0, g, s) x y
      (fillerCells_col_lt _ _) (show x < g.width by omega) (show y < g.height by omega)
      hlen (mem_fillerCells _ _ _ _ hx1 hx2 hy1 hy2) hsrc

/-- Witness for C8 on a concrete 3×3 grid with the source tile at its
centre. -/
theorem c8_filler_prob_zero_one_witness :
    (rewrite_random_filler 5 7 ⟨0, 1⟩ ⟨3, 3, List.replicate 9 (some 5)⟩ []).2.1 =
      ⟨3, 3, List.replicate 9 (some 5)⟩ ∧
    cellAt (rewrite_random_filler 5 7 ⟨1, 1⟩ ⟨3, 3, List.replicate 9 (some 5)⟩ []).2.1 1 1 =
      some 7 :=
  ⟨(c8_filler_prob_zero_one 5 7 ⟨3, 3, List.replicate 9 (some 5)⟩ [] (by decide)).1,
   (c8_filler_prob_zero_one 5 7 ⟨3, 3, List.replicate 9 (some 5)⟩ [] (by decide)).2
     1 1 (by decide) (by decide) (by decide) (by decide) (by decide)⟩

/-! ## Claim C4: accepted rooms never overlap -/

theorem rectOverlaps_iff (a b : RectN) :
    rectOverlaps a b = true ↔
      a.x ≤ b.x + b.w ∧ b.x ≤ a.x + a.w ∧ a.y ≤ b.y + b.h ∧ b.y ≤ a.y + a.h := by
  simp [rectOverlaps, and_assoc]

theorem rectOverlaps_false_comm (a b : RectN) (h : rectOverlaps a b = false) :
    rectOverlaps b a = false := by
  rw [Bool.eq_false_iff] at h ⊢
  intro hba
  apply h
  rw [rectOverlaps_iff] at hba ⊢
  omega

theorem roomStep_rooms_pairwise (self : MapGenerator) (st : RoomState)
    (h : st.rooms.Pairwise fun a b => rectOverlaps a b = false) :
    (roomStep self st).rooms.Pairwise fun a b => rectOverlaps a b = false := by
  unfold roomStep
  rcases hr : roomDraw self st.g st.s with ⟨room, s4⟩
  show (if (st.rooms.any fun prior => rectOverlaps room prior) = true then
      { st with s := s4 }
    else
      ({ g := carveRoom self st.g st.rooms.getLast? room,
         rooms := st.rooms ++ [room], s := s4 } : RoomState)).rooms.Pairwise
    fun a b => rectOverlaps a b = false
  split
  · exact h
  next hov =>
    show (st.rooms ++ [room]).Pairwise fun a b => rectOverlaps a b = false
    rw [List.pairwise_append]
    refine ⟨h, List.pairwise_singleton _ _, ?_⟩
    intro a ha b hb
    rw [List.mem_singleton] at hb
    have hq : (st.rooms.any fun prior => rectOverlaps room prior) = false :=
      Bool.eq_false_iff.mpr hov
    have hra := List.any_eq_false.mp hq a ha
    rw [hb]
    exact rectOverlaps_false_comm _ _ (Bool.eq_false_iff.mpr hra)

theorem foldl_preserves {α β : Type} (P : α → Prop) (f : α → β → α)
    (hf : ∀ a b, P a → P (f a b)) : ∀ (l : List β) (a : α), P a → P (l.foldl f a) := by
  intro l
  induction l with
  | nil => intro a ha; exact ha
  | cons b rest ih => intro a ha; exact ih _ (hf a b ha)

theorem roomPhase_rooms_pairwise (self : MapGenerator) (s : List Nat) :
    ((roomPhase self s).rooms).Pairwise fun a b => rectOverlaps a b = false := by
  unfold roomPhase
  exact foldl_preserves (fun st => st.rooms.Pairwise fun a b => rectOverlaps a b = false)
    (fun st _ => roomStep self st) (fun st _ h => roomStep_rooms_pairwise self st h)
    (List.range self.max_room_count) ⟨initialLayer self, [], s⟩ (List.Pairwise.nil)

theorem doorStage_some_parts (self : MapGenerator) (rooms : List RectN) (g : Layer)
    (s : List Nat) (res : MapGenResult) (h : doorStage self rooms g s = some res) :
    res.rooms = rooms ∧
    ∃ k, res.guard_doors = ((doorAttempts self 10 rooms.length g s).1).eraseIdx k ∧
      res.exit_door = ((doorAttempts self 10 rooms.length g s).1).getD k ⟨0, 0⟩ ∧
      k < ((doorAttempts self 10 rooms.length g s).1).length ∧
      rooms.length = ((doorAttempts self 10 rooms.length g s).1).length := by
  simp only [doorStage] at h
  split at h
  next hlen =>
    split at h
    next hk =>
      rw [Option.some.injEq] at h
      subst h
      exact ⟨rfl, _, rfl, rfl, hk, hlen⟩
    next => exact Option.noConfusion h
  next => exact Option.noConfusion h

/-- **C4**: for every configuration and random stream, the rooms returned
by `generate_layer` are pairwise non-overlapping (in the sense of the
source's closed `Rect::overlaps` test). -/
theorem c4_rooms_never_overlap (self : MapGenerator) (s : List Nat)
    (res : MapGenResult) (h : generate_layer self s = some res) :
    res.rooms.Pairwise fun a b => rectOverlaps a b = false := by
  unfold generate_layer at h
  have hr := (doorStage_some_parts _ _ _ _ _ h).1
  rw [hr]
  exact roomPhase_rooms_pairwise self s


/-! ## Claim C7: determinism in the injected random stream -/

/-- **C7**: `generate_layer` has no effect other than consuming the
injected random stream, so two runs with the same configuration and
identical streams return identical results — the same grid, the same room
list in the same order, the same guard-door list and the same exit door.
(In this embedding the global RNG is the only impure input of the source,
made explicit as the stream argument, so determinism is structural.) -/
theorem c7_generate_layer_deterministic (self : MapGenerator)
    (s1 s2 : List Nat) (h : s1 = s2) :
    generate_layer self s1 = generate_layer self s2 := by
  rw [h]

/-- Witness for C7 at a concrete configuration and stream. -/
theorem c7_generate_layer_deterministic_witness :
    generate_layer (MapGenerator.new ⟨40, 40⟩) [3, 1, 4, 1, 5] =
      generate_layer (MapGenerator.new ⟨40, 40⟩) [3, 1, 4, 1, 5] :=
  c7_generate_layer_deterministic (MapGenerator.new ⟨40, 40⟩) [3, 1, 4, 1, 5]
    [3, 1, 4, 1, 5] (by rfl)


/-! ## The pipeline grid invariant: basics -/

theorem xytoi_lt_length (g : Layer) (x y : Nat) (hx : x < g.width)
    (hy : y < g.height) (hlen : g.data.length = g.width * g.height) :
    xytoi x y g < g.data.length := by
  unfold xytoi
  rw [hlen]
  have h1 : y * g.width + x < (y + 1) * g.width := by
    rw [Nat.succ_mul]; omega
  have h2 : (y + 1) * g.width ≤ g.height * g.width :=
    Nat.mul_le_mul_right _ (by omega)
  have h3 : g.height * g.width = g.width * g.height := Nat.mul_comm _ _
  omega

theorem LayerInv.shape (h : LayerInv g) : g.data.length = g.width * g.height := h.1

theorem LayerInv.cell_some (h : LayerInv g) (hx : x < g.width) (hy : y < g.height) :
    ∃ t, cellAt g x y = some t := by
  have hi : xytoi x y g < g.data.length := xytoi_lt_length g x y hx hy h.1
  unfold cellAt readCell
  rw [List.getD_eq_getElem?_getD, List.getElem?_eq_getElem hi]
  rcases he : g.data[xytoi x y g] with _ | t
  · exact absurd he (by
      have := h.2.1 _ (List.getElem_mem hi)
      simp_all)
  · exact ⟨t, rfl⟩

/-- A populated cell holding a non-wall tile is strictly interior. -/
theorem LayerInv.interior_of_not_wall (h : LayerInv g) (hx : x < g.width)
    (hy : y < g.height) (ht : cellAt g x y = some t) (hne : t ∉ WALL_TILE_IDS) :
    1 ≤ x ∧ x + 2 ≤ g.width ∧ 1 ≤ y ∧ y + 2 ≤ g.height := by
  by_contra hcon
  have hb : x = 0 ∨ x = g.width - 1 ∨ y = 0 ∨ y = g.height - 1 := by omega
  obtain ⟨t', ht', hw⟩ := h.2.2 x y hx hy hb
  rw [ht] at ht'
  cases ht'
  exact hne hw

/-- Writing a wall-class tile anywhere preserves the invariant. -/
theorem inv_write_wall (g : Layer) (i t : Nat) (hw : t ∈ WALL_TILE_IDS)
    (h : LayerInv g) : LayerInv (writeCell g i t) := by
  by_cases hlt : i < g.data.length
  · refine ⟨by simpa [writeCell] using h.1, ?_, ?_⟩
    · intro c hc
      rcases List.mem_or_eq_of_mem_set hc with hc | hc
      · exact h.2.1 c hc
      · simp [hc]
    · intro x y hx hy hb
      show ∃ t', readCell (writeCell g i t) (xytoi x y (writeCell g i t)) = some t' ∧
        t' ∈ WALL_TILE_IDS
      rw [xytoi_writeCell]
      by_cases he : i = xytoi x y g
      · subst he
        exact ⟨t, readCell_writeCell_self g _ t hlt, hw⟩
      · rw [readCell_writeCell_ne g _ _ t he]
        exact h.2.2 x y hx hy hb
  · rw [writeCell_oob g i t (by omega)]
    exact h

/-- Writing any tile at a strictly interior cell preserves the
invariant. -/
theorem inv_write_interior (g : Layer) (x y t : Nat) (hx1 : 1 ≤ x)
    (hx2 : x + 2 ≤ g.width) (hy1 : 1 ≤ y) (hy2 : y + 2 ≤ g.height)
    (h : LayerInv g) : LayerInv (writeCell g (xytoi x y g) t) := by
  have hlt : xytoi x y g < g.data.length :=
    xytoi_lt_length g x y (by omega) (by omega) h.1
  refine ⟨by simpa [writeCell] using h.1, ?_, ?_⟩
  · intro c hc
    rcases List.mem_or_eq_of_mem_set hc with hc | hc
    · exact h.2.1 c hc
    · simp [hc]
  · intro x' y' hx' hy' hb
    simp only [writeCell_width, writeCell_height] at hx' hy' hb
    show ∃ t', readCell (writeCell g (xytoi x y g) t) (xytoi x' y' (writeCell g (xytoi x y g) t)) =
      some t' ∧ t' ∈ WALL_TILE_IDS
    rw [xytoi_writeCell]
    have hne : xytoi x y g ≠ xytoi x' y' g := by
      intro he
      have := @xytoi_inj g.width x y x' y' (by omega) hx' he
      omega
    rw [readCell_writeCell_ne g _ _ t hne]
    exact h.2.2 x' y' hx' hy' hb

theorem inv_writeDoubleCorner (g : Layer) (i00 i10 i20 i01 i11 i21 : Nat)
    (h : LayerInv g) : LayerInv (writeDoubleCorner g i00 i10 i20 i01 i11 i21) := by
  unfold writeDoubleCorner
  have hw : WALL_01_TILE_ID ∈ WALL_TILE_IDS := by decide
  exact inv_write_wall _ _ _ hw (inv_write_wall _ _ _ hw (inv_write_wall _ _ _ hw
    (inv_write_wall _ _ _ hw (inv_write_wall _ _ _ hw (inv_write_wall _ _ _ hw h)))))


/-! ## Grid-invariant preservation by every rewrite rule -/

theorem inv_thin_horizontal_wall (g : Layer) (x y : Nat) (h : LayerInv g) :
    LayerInv (try_rewrite_thin_horizontal_wall g x y).2 := by
  cases h0 : readCell g (xytoi x y g) <;>
  cases h1 : readCell g (xytoi x (y + 1) g) <;>
  cases h2 : readCell g (xytoi x (y + 2) g) <;>
    simp only [try_rewrite_thin_horizontal_wall, h0, h1, h2] <;>
    split <;>
    first
      | exact h
      | exact inv_write_wall _ _ _ (by decide) h
      | (split
         · exact h
         · exact inv_write_wall _ _ _ (by decide) h)
      | (split
         · exact inv_write_wall _ _ _ (by decide) h
         · exact h)
theorem inv_thin_vertical_wall (g : Layer) (x y : Nat) (h : LayerInv g) :
    LayerInv (try_rewrite_thin_vertical_wall g x y).2 := by
  cases h0 : readCell g (xytoi x y g) <;>
  cases h1 : readCell g (xytoi (x + 1) y g) <;>
  cases h2 : readCell g (xytoi (x + 2) y g) <;>
    simp only [try_rewrite_thin_vertical_wall, h0, h1, h2] <;>
    split <;>
    first
      | exact h
      | exact inv_write_wall _ _ _ (by decide) h
      | (split
         · exact h
         · exact inv_write_wall _ _ _ (by decide) h)
      | (split
         · exact inv_write_wall _ _ _ (by decide) h
         · exact h)
set_option maxHeartbeats 1600000 in
theorem inv_double_corner_horizontal (g : Layer) (x y : Nat) (h : LayerInv g) :
    LayerInv (try_rewrite_double_corner_horizontal g x y).2 := by
  cases h0 : readCell g (xytoi x y g) <;>
  cases h1 : readCell g (xytoi (x + 1) y g) <;>
  cases h2 : readCell g (xytoi (x + 2) y g) <;>
  cases h3 : readCell g (xytoi x (y + 1) g) <;>
  cases h4 : readCell g (xytoi (x + 1) (y + 1) g) <;>
  cases h5 : readCell g (xytoi (x + 2) (y + 1) g) <;>
    simp only [try_rewrite_double_corner_horizontal, h0, h1, h2, h3, h4, h5] <;>
    split <;>
    first
      | exact h
      | exact inv_writeDoubleCorner _ _ _ _ _ _ _ h
      | (split
         · exact h
         · exact inv_writeDoubleCorner _ _ _ _ _ _ _ h)
      | (split
         · exact inv_writeDoubleCorner _ _ _ _ _ _ _ h
         · exact h)
set_option maxHeartbeats 1600000 in
theorem inv_double_corner_vertical (g : Layer) (x y : Nat) (h : LayerInv g) :
    LayerInv (try_rewrite_double_corner_vertical g x y).2 := by
  cases h0 : readCell g (xytoi x y g) <;>
  cases h1 : readCell g (xytoi x (y + 1) g) <;>
  cases h2 : readCell g (xytoi x (y + 2) g) <;>
  cases h3 : readCell g (xytoi (x + 1) y g) <;>
  cases h4 : readCell g (xytoi (x + 1) (y + 1) g) <;>
  cases h5 : readCell g (xytoi (x + 1) (y + 2) g) <;>
    simp only [try_rewrite_double_corner_vertical, h0, h1, h2, h3, h4, h5] <;>
    split <;>
    first
      | exact h
      | exact inv_writeDoubleCorner _ _ _ _ _ _ _ h
      | (split
         · exact h
         · exact inv_writeDoubleCorner _ _ _ _ _ _ _ h)
      | (split
         · exact inv_writeDoubleCorner _ _ _ _ _ _ _ h
         · exact h)
theorem inv_edgeRule (g : Layer) (i0 i1 p0 p1 iw wid : Nat)
    (hw : wid ∈ WALL_TILE_IDS) (h : LayerInv g) :
    LayerInv (edgeRule g i0 i1 p0 p1 iw wid).2 := by
  cases h0 : readCell g i0 <;>
  cases h1 : readCell g i1 <;>
    simp only [edgeRule, h0, h1] <;>
    first
      | exact inv_write_wall _ _ _ hw h
      | (split
         · exact h
         · exact inv_write_wall _ _ _ hw h)
theorem inv_cornerRule (g : Layer) (x y : Nat) (p00 p01 p10 p11 : CornerPat)
    (iw wid : Nat) (hw : wid ∈ WALL_TILE_IDS) (h : LayerInv g) :
    LayerInv (cornerRule g x y p00 p01 p10 p11 iw wid).2 := by
  cases h00 : readCell g (xytoi x y g) <;>
  cases h01 : readCell g (xytoi (x + 1) y g) <;>
  cases h10 : readCell g (xytoi x (y + 1) g) <;>
  cases h11 : readCell g (xytoi (x + 1) (y + 1) g) <;>
    simp only [cornerRule, h00, h01, h10, h11] <;>
    first
      | exact inv_write_wall _ _ _ hw h
      | (split
         · exact h
         · exact inv_write_wall _ _ _ hw h)
theorem inv_top_wall (g : Layer) (x y : Nat) (h : LayerInv g) :
    LayerInv (try_rewrite_top_wall g x y).2 := by
  unfold try_rewrite_top_wall
  split
  · exact h
  · exact inv_edgeRule _ _ _ _ _ _ _ (by decide) h

theorem inv_bottom_wall (g : Layer) (x y : Nat) (h : LayerInv g) :
    LayerInv (try_rewrite_bottom_wall g x y).2 := by
  unfold try_rewrite_bottom_wall
  split
  · exact h
  · exact inv_edgeRule _ _ _ _ _ _ _ (by decide) h

theorem inv_left_wall (g : Layer) (x y : Nat) (h : LayerInv g) :
    LayerInv (try_rewrite_left_wall g x y).2 := by
  unfold try_rewrite_left_wall
  split
  · exact h
  · exact inv_edgeRule _ _ _ _ _ _ _ (by decide) h

theorem inv_right_wall (g : Layer) (x y : Nat) (h : LayerInv g) :
    LayerInv (try_rewrite_right_wall g x y).2 := by
  unfold try_rewrite_right_wall
  split
  · exact h
  · exact inv_edgeRule _ _ _ _ _ _ _ (by decide) h

theorem inv_inner_ul_wall (g : Layer) (x y : Nat) (h : LayerInv g) :
    LayerInv (try_rewrite_inner_ul_wall g x y).2 := by
  unfold try_rewrite_inner_ul_wall
  split
  · exact h
  · exact inv_cornerRule _ _ _ _ _ _ _ _ _ (by decide) h

theorem inv_inner_ur_wall (g : Layer) (x y : Nat) (h : LayerInv g) :
    LayerInv (try_rewrite_inner_ur_wall g x y).2 := by
  unfold try_rewrite_inner_ur_wall
  split
  · exact h
  · exact inv_cornerRule _ _ _ _ _ _ _ _ _ (by decide) h

theorem inv_inner_dl_wall (g : Layer) (x y : Nat) (h : LayerInv g) :
    LayerInv (try_rewrite_inner_dl_wall g x y).2 := by
  unfold try_rewrite_inner_dl_wall
  split
  · exact h
  · exact inv_cornerRule _ _ _ _ _ _ _ _ _ (by decide) h

theorem inv_inner_dr_wall (g : Layer) (x y : Nat) (h : LayerInv g) :
    LayerInv (try_rewrite_inner_dr_wall g x y).2 := by
  unfold try_rewrite_inner_dr_wall
  split
  · exact h
  · exact inv_cornerRule _ _ _ _ _ _ _ _ _ (by decide) h

theorem inv_outer_ul_wall (g : Layer) (x y : Nat) (h : LayerInv g) :
    LayerInv (try_rewrite_outer_ul_wall g x y).2 := by
  unfold try_rewrite_outer_ul_wall
  split
  · exact h
  · exact inv_cornerRule _ _ _ _ _ _ _ _ _ (by decide) h

theorem inv_outer_ur_wall (g : Layer) (x y : Nat) (h : LayerInv g) :
    LayerInv (try_rewrite_outer_ur_wall g x y).2 := by
  unfold try_rewrite_outer_ur_wall
  split
  · exact h
  · exact inv_cornerRule _ _ _ _ _ _ _ _ _ (by decide) h

theorem inv_outer_dl_wall (g : Layer) (x y : Nat) (h : LayerInv g) :
    LayerInv (try_rewrite_outer_dl_wall g x y).2 := by
  unfold try_rewrite_outer_dl_wall
  split
  · exact h
  · exact inv_cornerRule _ _ _ _ _ _ _ _ _ (by decide) h

theorem inv_outer_dr_wall (g : Layer) (x y : Nat) (h : LayerInv g) :
    LayerInv (try_rewrite_outer_dr_wall g x y).2 := by
  unfold try_rewrite_outer_dr_wall
  split
  · exact h
  · exact inv_cornerRule _ _ _ _ _ _ _ _ _ (by decide) h

/-- The facade edge rules write a non-wall tile, but only one row above a
ground cell, which the invariant forces to be strictly interior. -/
theorem inv_facadeEdge (g : Layer) (x y : Nat) (pat0 fid : Nat) (h : LayerInv g)
    (hx : x < g.width) (hy1 : y + 1 < g.height) :
    LayerInv (edgeRule g (xytoi x y g) (xytoi x (y + 1) g) pat0 GROUND_01_TILE_ID
      (xytoi x (y + 1) g) fid).2 := by
  obtain ⟨t0, ht0⟩ := h.cell_some hx (Nat.lt_of_succ_lt hy1)
  obtain ⟨t1, ht1⟩ := h.cell_some hx hy1
  have hr0 : readCell g (xytoi x y g) = some t0 := ht0
  have hr1 : readCell g (xytoi x (y + 1) g) = some t1 := ht1
  unfold edgeRule
  rw [hr0, hr1]
  show LayerInv
    ((if t0 ≠ pat0 ∨ t1 ≠ GROUND_01_TILE_ID then (false, g)
      else (true, writeCell g (xytoi x (y + 1) g) fid)).2)
  split
  · exact h
  · rename_i hcond
    have ht1g : t1 = GROUND_01_TILE_ID := by
      by_contra hne
      exact hcond (Or.inr hne)
    subst ht1g
    have hint := h.interior_of_not_wall hx hy1 ht1 (by decide)
    exact inv_write_interior _ _ _ _ hint.1 hint.2.1 hint.2.2.1 hint.2.2.2 h

theorem inv_center_facades (g : Layer) (x y : Nat) (h : LayerInv g) :
    LayerInv (try_rewrite_center_facades g x y).2 := by
  unfold try_rewrite_center_facades
  split
  · exact h
  · rename_i hb
    exact inv_facadeEdge g x y _ _ h (by omega) (by omega)

theorem inv_left_facades (g : Layer) (x y : Nat) (h : LayerInv g) :
    LayerInv (try_rewrite_left_facades g x y).2 := by
  unfold try_rewrite_left_facades
  split
  · exact h
  · rename_i hb
    exact inv_facadeEdge g x y _ _ h (by omega) (by omega)

theorem inv_right_facades (g : Layer) (x y : Nat) (h : LayerInv g) :
    LayerInv (try_rewrite_right_facades g x y).2 := by
  unfold try_rewrite_right_facades
  split
  · exact h
  · rename_i hb
    exact inv_facadeEdge g x y _ _ h (by omega) (by omega)

/-! ## Grid-invariant preservation through `rewrite_wall_details` -/

theorem inv_cleanupCell (g : Layer) (xy : Nat × Nat) (h : LayerInv g) :
    LayerInv (cleanupCell g xy).2 := by
  show LayerInv (try_rewrite_double_corner_vertical
    (try_rewrite_double_corner_horizontal
      (try_rewrite_thin_vertical_wall
        (try_rewrite_thin_horizontal_wall g xy.1 xy.2).2 xy.1 xy.2).2 xy.1 xy.2).2
      xy.1 xy.2).2
  exact inv_double_corner_vertical _ _ _ (inv_double_corner_horizontal _ _ _
    (inv_thin_vertical_wall _ _ _ (inv_thin_horizontal_wall _ _ _ h)))

theorem inv_cleanupScan (g : Layer) (h : LayerInv g) : LayerInv (cleanupScan g).2 := by
  unfold cleanupScan
  exact foldl_preserves (fun st : Bool × Layer => LayerInv st.2) _
    (fun st xy hst => inv_cleanupCell st.2 xy hst) _ _ h

theorem inv_cleanupLoop (fuel : Nat) : ∀ g, LayerInv g → LayerInv (cleanupLoop fuel g) := by
  induction fuel with
  | zero => intro g h; exact h
  | succ n ih =>
    intro g h
    show LayerInv (if (cleanupScan g).1 then cleanupLoop n (cleanupScan g).2
      else (cleanupScan g).2)
    split
    · exact ih _ (inv_cleanupScan g h)
    · exact inv_cleanupScan g h

theorem inv_detailPass (cell : Layer → Nat × Nat → Layer)
    (hcell : ∀ g xy, LayerInv g → LayerInv (cell g xy)) (g : Layer)
    (h : LayerInv g) : LayerInv (detailPass cell g) := by
  unfold detailPass
  exact foldl_preserves LayerInv cell (fun a b ha => hcell a b ha) _ _ h

theorem inv_detailCornersCell (g : Layer) (xy : Nat × Nat) (h : LayerInv g) :
    LayerInv (detailCornersCell g xy) := by
  unfold detailCornersCell
  exact inv_outer_dr_wall _ _ _ (inv_outer_dl_wall _ _ _ (inv_outer_ur_wall _ _ _
    (inv_outer_ul_wall _ _ _ (inv_inner_dr_wall _ _ _ (inv_inner_dl_wall _ _ _
      (inv_inner_ur_wall _ _ _ (inv_inner_ul_wall _ _ _ h)))))))

theorem inv_detailSidesCell (g : Layer) (xy : Nat × Nat) (h : LayerInv g) :
    LayerInv (detailSidesCell g xy) := by
  unfold detailSidesCell
  exact inv_right_wall _ _ _ (inv_left_wall _ _ _ h)

theorem inv_detailTopBottomCell (g : Layer) (xy : Nat × Nat) (h : LayerInv g) :
    LayerInv (detailTopBottomCell g xy) := by
  unfold detailTopBottomCell
  exact inv_top_wall _ _ _ (inv_bottom_wall _ _ _ h)

theorem inv_detailFacadesCell (g : Layer) (xy : Nat × Nat) (h : LayerInv g) :
    LayerInv (detailFacadesCell g xy) := by
  unfold detailFacadesCell
  exact inv_right_facades _ _ _ (inv_left_facades _ _ _ (inv_center_facades _ _ _ h))

theorem inv_rewrite_wall_details (g : Layer) (h : LayerInv g) :
    LayerInv (rewrite_wall_details g) := by
  unfold rewrite_wall_details
  exact inv_detailPass _ inv_detailFacadesCell _
    (inv_detailPass _ inv_detailTopBottomCell _
      (inv_detailPass _ inv_detailSidesCell _
        (inv_detailPass _ inv_detailCornersCell _
          (inv_cleanupLoop _ _ h))))


/-! ## Grid-invariant preservation through the room phase -/

theorem foldl_preserves_mem {α β : Type} (P : α → Prop) :
    ∀ (l : List β) (f : α → β → α),
      (∀ a b, b ∈ l → P a → P (f a b)) → ∀ a, P a → P (l.foldl f a) := by
  intro l
  induction l with
  | nil => intro f _ a ha; exact ha
  | cons b rest ih =>
    intro f hf a ha
    exact ih f (fun a' b' hb' ha' => hf a' b' (List.mem_cons_of_mem b hb') ha') _
      (hf a b (List.mem_cons_self b rest) ha)

theorem gen_range_bounds (lo hi v : Nat) (h : lo < hi) :
    lo ≤ gen_range lo hi v ∧ gen_range lo hi v < hi := by
  unfold gen_range
  rw [if_pos h]
  have := Nat.mod_lt v (show 0 < hi - lo by omega)
  omega

theorem mem_of_getLast?' {α : Type} (l : List α) (a : α) (h : l.getLast? = some a) :
    a ∈ l := by
  induction l with
  | nil => simp [List.getLast?] at h
  | cons x t ih =>
    cases t with
    | nil =>
      simp [List.getLast?] at h
      simp [h]
    | cons y t2 =>
      rw [List.getLast?_cons_cons] at h
      exact List.mem_cons_of_mem x (ih h)

theorem inv_initialLayer (self : MapGenerator)
    (hwall : self.wall_tile_id ∈ WALL_TILE_IDS) : LayerInv (initialLayer self) := by
  refine ⟨by simp [initialLayer], ?_, ?_⟩
  · intro c hc
    rw [show (initialLayer self).data =
      List.replicate (self.size.x * self.size.y) (some self.wall_tile_id) from rfl,
      List.mem_replicate] at hc
    simp [hc.2]
  · intro x y hx hy _
    have hlen : (initialLayer self).data.length =
        (initialLayer self).width * (initialLayer self).height := by
      simp [initialLayer]
    have hi := xytoi_lt_length (initialLayer self) x y hx hy hlen
    refine ⟨self.wall_tile_id, ?_, hwall⟩
    show readCell (initialLayer self) (xytoi x y (initialLayer self)) =
      some self.wall_tile_id
    unfold readCell
    rw [List.getD_eq_getElem?_getD,
      show (initialLayer self).data =
        List.replicate (self.size.x * self.size.y) (some self.wall_tile_id) from rfl,
      List.getElem?_replicate]
    rw [show (initialLayer self).data =
      List.replicate (self.size.x * self.size.y) (some self.wall_tile_id) from rfl,
      List.length_replicate] at hi
    rw [if_pos hi]
    rfl

theorem generate_room_dims (self : MapGenerator) (g : Layer) (dest size : UVec2) :
    (generate_room self g dest size).width = g.width ∧
    (generate_room self g dest size).height = g.height := by
  unfold generate_room
  refine foldl_preserves (fun g' : Layer => g'.width = g.width ∧ g'.height = g.height)
    (fun g' x => (List.range' dest.y size.y).foldl
      (fun g'' y => writeCell g'' (xytoi x y g'') self.ground_tile_id) g')
    ?_ _ _ ⟨rfl, rfl⟩
  intro a b hab
  exact foldl_preserves (fun g' : Layer => g'.width = g.width ∧ g'.height = g.height)
    (fun g'' y => writeCell g'' (xytoi b y g'') self.ground_tile_id)
    (fun a2 b2 hab2 => ⟨hab2.1, hab2.2⟩) _ _ hab

theorem corridor_fold_dims (self : MapGenerator) (g : Layer) (l : List (Nat × Nat)) :
    (l.foldl (fun g t => writeCell g (xytoi t.1 t.2 g) self.ground_tile_id) g).width =
      g.width ∧
    (l.foldl (fun g t => writeCell g (xytoi t.1 t.2 g) self.ground_tile_id) g).height =
      g.height :=
  foldl_preserves (fun g' : Layer => g'.width = g.width ∧ g'.height = g.height)
    (fun g t => writeCell g (xytoi t.1 t.2 g) self.ground_tile_id)
    (fun a b hab => ⟨hab.1, hab.2⟩) l g ⟨rfl, rfl⟩

theorem generate_corridor_horizontal_dims (self : MapGenerator) (g : Layer)
    (sx dx y : Nat) (padding : Option Nat) :
    (generate_corridor_horizontal self g sx dx y padding).width = g.width ∧
    (generate_corridor_horizontal self g sx dx y padding).height = g.height := by
  unfold generate_corridor_horizontal
  exact corridor_fold_dims self g _

theorem generate_corridor_vertical_dims (self : MapGenerator) (g : Layer)
    (x sy dy : Nat) (padding : Option Nat) :
    (generate_corridor_vertical self g x sy dy padding).width = g.width ∧
    (generate_corridor_vertical self g x sy dy padding).height = g.height := by
  unfold generate_corridor_vertical
  exact corridor_fold_dims self g _

theorem carveRoom_dims (self : MapGenerator) (g : Layer) (prior : Option RectN)
    (room : RectN) :
    (carveRoom self g prior room).width = g.width ∧
    (carveRoom self g prior room).height = g.height := by
  unfold carveRoom
  cases prior with
  | none => exact generate_room_dims self g _ _
  | some last =>
    have h1 := generate_room_dims self g (⟨room.x, room.y⟩ : UVec2)
      (⟨room.w, room.h⟩ : UVec2)
    have h2 := generate_corridor_horizontal_dims self
      (generate_room self g ⟨room.x, room.y⟩ ⟨room.w, room.h⟩)
      (rectCenterX last) (rectCenterX room) (rectCenterY last) self.corridor_padding
    have h3 := generate_corridor_vertical_dims self
      (generate_corridor_horizontal self
        (generate_room self g ⟨room.x, room.y⟩ ⟨room.w, room.h⟩)
        (rectCenterX last) (rectCenterX room) (rectCenterY last)
        self.corridor_padding)
      (rectCenterX room) (rectCenterY last) (rectCenterY room) self.corridor_padding
    constructor
    · rw [h3.1, h2.1, h1.1]
    · rw [h3.2, h2.2, h1.2]
theorem roomDraw_eq (self : MapGenerator) (g : Layer) (s : List Nat) :
    roomDraw self g s =
      (⟨gen_range 1
          (g.width - min (gen_range self.min_room_size.x (self.max_room_size.x + 1)
            (s.headD 0)) (g.width - 1) - 1) (s.tail.tail.headD 0),
        gen_range 1
          (g.height - min (gen_range self.min_room_size.y (self.max_room_size.y + 1)
            (s.tail.headD 0)) (g.height - 1) - 1) (s.tail.tail.tail.headD 0),
        min (gen_range self.min_room_size.x (self.max_room_size.x + 1) (s.headD 0))
          (g.width - 1),
        min (gen_range self.min_room_size.y (self.max_room_size.y + 1) (s.tail.headD 0))
          (g.height - 1)⟩,
       s.tail.tail.tail.tail) := rfl

theorem roomDraw_ok (self : MapGenerator) (g : Layer) (s : List Nat)
    (hwf : WellFormed self) (hw : g.width = self.size.x) (hh : g.height = self.size.y) :
    RoomOK self (roomDraw self g s).1 := by
  have hwf' := hwf
  simp only [WellFormed] at hwf'
  obtain ⟨h1, h2, h3, h4, h5, h6, -, -, -, -⟩ := hwf'
  rw [roomDraw_eq]
  unfold RoomOK
  dsimp only
  rw [hw, hh]
  have hbx := gen_range_bounds self.min_room_size.x (self.max_room_size.x + 1)
    (s.headD 0) (by omega)
  have hby := gen_range_bounds self.min_room_size.y (self.max_room_size.y + 1)
    (s.tail.headD 0) (by omega)
  have hgx := gen_range_bounds 1
    (self.size.x - min (gen_range self.min_room_size.x (self.max_room_size.x + 1)
      (s.headD 0)) (self.size.x - 1) - 1)
    (s.tail.tail.headD 0) (by omega)
  have hgy := gen_range_bounds 1
    (self.size.y - min (gen_range self.min_room_size.y (self.max_room_size.y + 1)
      (s.tail.headD 0)) (self.size.y - 1) - 1)
    (s.tail.tail.tail.headD 0) (by omega)
  refine ⟨hgx.1, by omega, hgy.1, by omega, by omega, by omega⟩

theorem inv_generate_room (self : MapGenerator) (g : Layer) (dest size : UVec2)
    (hx1 : 1 ≤ dest.x) (hx2 : dest.x + size.x + 1 ≤ g.width)
    (hy1 : 1 ≤ dest.y) (hy2 : dest.y + size.y + 1 ≤ g.height)
    (h : LayerInv g) : LayerInv (generate_room self g dest size) := by
  unfold generate_room
  refine (foldl_preserves_mem
    (fun g' : Layer => LayerInv g' ∧ g'.width = g.width ∧ g'.height = g.height)
    (List.range' dest.x size.x) _ ?_ g ⟨h, rfl, rfl⟩).1
  intro a x hxmem ha
  rw [List.mem_range'_1] at hxmem
  refine foldl_preserves_mem
    (fun g' : Layer => LayerInv g' ∧ g'.width = g.width ∧ g'.height = g.height)
    (List.range' dest.y size.y) _ ?_ a ha
  intro a2 y hymem ha2
  rw [List.mem_range'_1] at hymem
  obtain ⟨ha2i, ha2w, ha2h⟩ := ha2
  exact ⟨inv_write_interior a2 x y _ (by omega) (by omega) (by omega) (by omega) ha2i,
    ha2w, ha2h⟩

theorem corridorHTargets_mem (sx dx y p : Nat) :
    ∀ t ∈ corridorHTargets sx dx y p,
      min sx dx - p ≤ t.1 ∧ t.1 ≤ max sx dx + p ∧ y - p ≤ t.2 ∧ t.2 ≤ y + p := by
  intro t ht
  unfold corridorHTargets at ht
  simp only [List.mem_flatMap, List.mem_map, List.mem_range'_1] at ht
  obtain ⟨yy, hyy, xx, hxx, rfl⟩ := ht
  omega

theorem corridorVTargets_mem (x sy dy p : Nat) :
    ∀ t ∈ corridorVTargets x sy dy p,
      x - p ≤ t.1 ∧ t.1 ≤ x + p ∧ min sy dy - p ≤ t.2 ∧ t.2 ≤ max sy dy + p := by
  intro t ht
  unfold corridorVTargets at ht
  simp only [List.mem_flatMap, List.mem_map, List.mem_range'_1] at ht
  obtain ⟨xx, hxx, yy, hyy, rfl⟩ := ht
  omega

theorem inv_corridor_fold (self : MapGenerator) (g : Layer) (l : List (Nat × Nat))
    (hl : ∀ t ∈ l, 1 ≤ t.1 ∧ t.1 + 2 ≤ g.width ∧ 1 ≤ t.2 ∧ t.2 + 2 ≤ g.height)
    (h : LayerInv g) :
    LayerInv (l.foldl (fun g t => writeCell g (xytoi t.1 t.2 g) self.ground_tile_id) g) := by
  refine (foldl_preserves_mem
    (fun g' : Layer => LayerInv g' ∧ g'.width = g.width ∧ g'.height = g.height)
    l _ ?_ g ⟨h, rfl, rfl⟩).1
  intro a t ht ha
  obtain ⟨hai, haw, hah⟩ := ha
  have hb := hl t ht
  exact ⟨inv_write_interior a t.1 t.2 _ hb.1 (by omega) hb.2.2.1 (by omega) hai,
    haw, hah⟩

theorem inv_generate_corridor_horizontal (self : MapGenerator) (g : Layer)
    (sx dx y : Nat) (padding : Option Nat) (h : LayerInv g)
    (hsx1 : 1 + padding.getD 0 ≤ sx) (hsx2 : sx + padding.getD 0 + 2 ≤ g.width)
    (hdx1 : 1 + padding.getD 0 ≤ dx) (hdx2 : dx + padding.getD 0 + 2 ≤ g.width)
    (hy1 : 1 + padding.getD 0 ≤ y) (hy2 : y + padding.getD 0 + 2 ≤ g.height) :
    LayerInv (generate_corridor_horizontal self g sx dx y padding) := by
  unfold generate_corridor_horizontal
  refine inv_corridor_fold self g _ ?_ h
  intro t ht
  have hm := corridorHTargets_mem sx dx y (padding.getD 0) t ht
  omega

theorem inv_generate_corridor_vertical (self : MapGenerator) (g : Layer)
    (x sy dy : Nat) (padding : Option Nat) (h : LayerInv g)
    (hx1 : 1 + padding.getD 1 ≤ x) (hx2 : x + padding.getD 1 + 2 ≤ g.width)
    (hsy1 : 1 + padding.getD 1 ≤ sy) (hsy2 : sy + padding.getD 1 + 2 ≤ g.height)
    (hdy1 : 1 + padding.getD 1 ≤ dy) (hdy2 : dy + padding.getD 1 + 2 ≤ g.height) :
    LayerInv (generate_corridor_vertical self g x sy dy padding) := by
  unfold generate_corridor_vertical
  refine inv_corridor_fold self g _ ?_ h
  intro t ht
  have hm := corridorVTargets_mem x sy dy (padding.getD 1) t ht
  omega

theorem center_bounds (self : MapGenerator) (r : RectN) (hwf : WellFormed self)
    (hr : RoomOK self r) :
    1 + max (self.corridor_padding.getD 0) (self.corridor_padding.getD 1) ≤
      rectCenterX r ∧
    rectCenterX r + max (self.corridor_padding.getD 0) (self.corridor_padding.getD 1) +
      2 ≤ self.size.x ∧
    1 + max (self.corridor_padding.getD 0) (self.corridor_padding.getD 1) ≤
      rectCenterY r ∧
    rectCenterY r + max (self.corridor_padding.getD 0) (self.corridor_padding.getD 1) +
      2 ≤ self.size.y := by
  have hwf' := hwf
  simp only [WellFormed] at hwf'
  obtain ⟨h1, h2, h3, h4, h5, h6, h7, h8, -, -⟩ := hwf'
  obtain ⟨r1, r2, r3, r4, r5, r6⟩ := hr
  unfold rectCenterX rectCenterY
  omega

theorem inv_carveRoom (self : MapGenerator) (g : Layer) (prior : Option RectN)
    (room : RectN) (hwf : WellFormed self)
    (hw : g.width = self.size.x) (hh : g.height = self.size.y)
    (hprior : ∀ r, prior = some r → RoomOK self r) (hroom : RoomOK self room)
    (h : LayerInv g) : LayerInv (carveRoom self g prior room) := by
  obtain ⟨hr1, hr2, hr3, hr4, hr5, hr6⟩ := hroom
  have hg1 : LayerInv (generate_room self g ⟨room.x, room.y⟩ ⟨room.w, room.h⟩) :=
    inv_generate_room self g ⟨room.x, room.y⟩ ⟨room.w, room.h⟩ hr1
      (by show room.x + room.w + 1 ≤ g.width; omega) hr3
      (by show room.y + room.h + 1 ≤ g.height; omega) h
  have hd1 := generate_room_dims self g (⟨room.x, room.y⟩ : UVec2)
    (⟨room.w, room.h⟩ : UVec2)
  unfold carveRoom
  cases prior with
  | none => exact hg1
  | some last =>
    have hlast := hprior last rfl
    have hc1 := center_bounds self last hwf hlast
    have hc2 := center_bounds self room hwf ⟨hr1, hr2, hr3, hr4, hr5, hr6⟩
    have hga : LayerInv (generate_corridor_horizontal self
        (generate_room self g ⟨room.x, room.y⟩ ⟨room.w, room.h⟩)
        (rectCenterX last) (rectCenterX room) (rectCenterY last)
        self.corridor_padding) := by
      refine inv_generate_corridor_horizontal self _ _ _ _ _ hg1 (by omega)
        (by rw [hd1.1]; omega) (by omega) (by rw [hd1.1]; omega) (by omega)
        (by rw [hd1.2]; omega)
    have hda := generate_corridor_horizontal_dims self
      (generate_room self g ⟨room.x, room.y⟩ ⟨room.w, room.h⟩)
      (rectCenterX last) (rectCenterX room) (rectCenterY last) self.corridor_padding
    refine inv_generate_corridor_vertical self _ _ _ _ _ hga (by omega) ?_ (by omega)
      ?_ (by omega) ?_
    · show rectCenterX room + self.corridor_padding.getD 1 + 2 ≤
        (generate_corridor_horizontal self
          (generate_room self g ⟨room.x, room.y⟩ ⟨room.w, room.h⟩)
          (rectCenterX last) (rectCenterX room) (rectCenterY last)
          self.corridor_padding).width
      rw [hda.1, hd1.1]
      omega
    · show rectCenterY last + self.corridor_padding.getD 1 + 2 ≤
        (generate_corridor_horizontal self
          (generate_room self g ⟨room.x, room.y⟩ ⟨room.w, room.h⟩)
          (rectCenterX last) (rectCenterX room) (rectCenterY last)
          self.corridor_padding).height
      rw [hda.2, hd1.2]
      omega
    · show rectCenterY room + self.corridor_padding.getD 1 + 2 ≤
        (generate_corridor_horizontal self
          (generate_room self g ⟨room.x, room.y⟩ ⟨room.w, room.h⟩)
          (rectCenterX last) (rectCenterX room) (rectCenterY last)
          self.corridor_padding).height
      rw [hda.2, hd1.2]
      omega

theorem roomStep_inv (self : MapGenerator) (hwf : WellFormed self) (st : RoomState)
    (h : RoomPhaseInv self st) : RoomPhaseInv self (roomStep self st) := by
  obtain ⟨hw, hh, hinv, hrooms⟩ := h
  unfold roomStep
  rcases hr : roomDraw self st.g st.s with ⟨room, s4⟩
  have hro : RoomOK self room := by
    have := roomDraw_ok self st.g st.s hwf hw hh
    rw [hr] at this
    exact this
  show RoomPhaseInv self (if (st.rooms.any fun prior => rectOverlaps room prior) = true
    then { st with s := s4 }
    else ({ g := carveRoom self st.g st.rooms.getLast? room,
            rooms := st.rooms ++ [room], s := s4 } : RoomState))
  split
  · exact ⟨hw, hh, hinv, hrooms⟩
  · have hdims := carveRoom_dims self st.g st.rooms.getLast? room
    refine ⟨by rw [hdims.1]; exact hw, by rw [hdims.2]; exact hh, ?_, ?_⟩
    · exact inv_carveRoom self st.g st.rooms.getLast? room hwf hw hh
        (fun r hrr => hrooms r (mem_of_getLast?' st.rooms r hrr)) hro hinv
    · intro r hrr
      rcases List.mem_append.mp hrr with hmem | hmem
      · exact hrooms r hmem
      · rw [List.mem_singleton] at hmem
        rw [hmem]
        exact hro

theorem roomPhase_inv (self : MapGenerator) (s : List Nat) (hwf : WellFormed self) :
    RoomPhaseInv self (roomPhase self s) := by
  unfold roomPhase
  refine foldl_preserves (RoomPhaseInv self) (fun st _ => roomStep self st)
    (fun st _ h => roomStep_inv self hwf st h) _ _ ?_
  have hwall : self.wall_tile_id ∈ WALL_TILE_IDS := by
    have hwf' := hwf
    simp only [WellFormed] at hwf'
    exact hwf'.2.2.2.2.2.2.2.2.2
  exact ⟨rfl, rfl, inv_initialLayer self hwall, by intro r hr; cases hr⟩


/-! ## Door placement: separation and grid invariant -/

theorem cellAt_writeCell_ne (g : Layer) (x y i t : Nat) (h : i ≠ xytoi x y g) :
    cellAt (writeCell g i t) x y = cellAt g x y := by
  show readCell (writeCell g i t) (xytoi x y (writeCell g i t)) =
    readCell g (xytoi x y g)
  rw [xytoi_writeCell]
  exact readCell_writeCell_ne g i _ t h

theorem cellAt_writeCell_self (g : Layer) (x y t : Nat)
    (h : xytoi x y g < g.data.length) :
    cellAt (writeCell g (xytoi x y g) t) x y = some t := by
  show readCell (writeCell g (xytoi x y g) t) (xytoi x y (writeCell g (xytoi x y g) t)) =
    some t
  rw [xytoi_writeCell]
  exact readCell_writeCell_self g _ t h

theorem cellAt_two_writes_ne (g : Layer) (x y i1 i2 t1 t2 : Nat)
    (h1 : i1 ≠ xytoi x y g) (h2 : i2 ≠ xytoi x y g) :
    cellAt (writeCell (writeCell g i1 t1) i2 t2) x y = cellAt g x y := by
  have e2 := cellAt_writeCell_ne (writeCell g i1 t1) x y i2 t2 h2
  rw [e2]
  exact cellAt_writeCell_ne g x y i1 t1 h1

theorem xytoi_ne (g : Layer) (x1 y1 x2 y2 : Nat) (h1 : x1 < g.width)
    (h2 : x2 < g.width) (h : x1 ≠ x2 ∨ y1 ≠ y2) :
    xytoi x1 y1 g ≠ xytoi x2 y2 g := by
  intro he
  have := @xytoi_inj g.width x1 y1 x2 y2 h1 h2 he
  rcases h with h | h
  · exact h this.1
  · exact h this.2

theorem doorSep_symm (a b : UVec2) (h : doorSep a b) : doorSep b a := by
  intro hy
  have := h hy.symm
  omega

/-- What a true `check_door_candidate` means on an invariant-satisfying
grid: the candidate's whole 4-cell row is facade (hence strictly interior,
giving the geometric bounds of `doorPlaced`). -/
theorem check_placement_facts (self : MapGenerator) (g : Layer) (x y : Nat)
    (hcl : 2 ≤ self.door_clearance) (hInv : LayerInv g)
    (hck : check_door_candidate self g x y = true) :
    (1 ≤ x ∧ x + 5 ≤ g.width ∧ 1 ≤ y ∧ y + 3 ≤ g.height) ∧
    (∀ xx, x ≤ xx → xx < x + 4 → cellAt g xx y = some FACADE_CENTER_TILE_ID) := by
  unfold check_door_candidate at hck
  split at hck
  · exact absurd hck (by simp)
  · rename_i hb
    rw [List.all_eq_true] at hck
    have hfac : ∀ xx, x ≤ xx → xx < x + 4 →
        cellAt g xx y = some FACADE_CENTER_TILE_ID := by
      intro xx h1 h2
      have hmem : xx ∈ List.range' x 4 := by rw [List.mem_range'_1]; omega
      have hxx := hck xx hmem
      rw [Bool.and_eq_true] at hxx
      obtain ⟨t, ht⟩ := hInv.cell_some (show xx < g.width by omega)
        (show y < g.height by omega)
      have hr : readCell g (xytoi xx y g) = some t := ht
      have h1' := hxx.1
      rw [hr] at h1'
      simp only [beq_iff_eq] at h1'
      rw [ht, h1']
    refine ⟨?_, hfac⟩
    have hfx0 := hInv.interior_of_not_wall (show x < g.width by omega)
      (show y < g.height by omega) (hfac x (Nat.le_refl x) (by omega)) (by decide)
    have hfx3 := hInv.interior_of_not_wall (show x + 3 < g.width by omega)
      (show y < g.height by omega) (hfac (x + 3) (by omega) (by omega)) (by decide)
    obtain ⟨t1, ht1⟩ := hInv.cell_some (show x < g.width by omega)
      (show y + 1 < g.height by omega)
    have hmem0 : x ∈ List.range' x 4 := by rw [List.mem_range'_1]; omega
    have hx0 := hck x hmem0
    rw [Bool.and_eq_true] at hx0
    have hinner := hx0.2
    rw [List.all_eq_true] at hinner
    have hymem : y + 1 ∈ List.range' (y + 1) (y + self.door_clearance - (y + 1)) := by
      rw [List.mem_range'_1]; omega
    have hg1 := hinner (y + 1) hymem
    have hr1 : readCell g (xytoi x (y + 1) g) = some t1 := ht1
    rw [hr1] at hg1
    simp only [beq_iff_eq] at hg1
    subst hg1
    have hint1 := hInv.interior_of_not_wall (show x < g.width by omega)
      (show y + 1 < g.height by omega) ht1 (by decide)
    exact ⟨hfx0.1, by omega, hfx0.2.2.1, by omega⟩

/-- A door already placed cannot share its row within 2 columns of a cell
whose whole candidate row is facade: its door tiles would be in that row. -/
theorem doorSep_of_facades (g : Layer) (d pos : UVec2) (hd : doorPlaced g d)
    (hfac : ∀ xx, pos.x ≤ xx → xx < pos.x + 4 →
      cellAt g xx pos.y = some FACADE_CENTER_TILE_ID) :
    doorSep d pos := by
  intro hy
  by_contra hcon
  push_neg at hcon
  obtain ⟨hc1, hc2⟩ := hcon
  rcases Nat.lt_or_ge d.x pos.x with hlt | hge
  · have hcell := hfac (d.x + 2) (by omega) (by omega)
    rw [← hy] at hcell
    rw [hd.2.2.2.2.2] at hcell
    exact absurd (Option.some.inj hcell) (by decide)
  · have hcell := hfac (d.x + 1) (by omega) (by omega)
    rw [← hy] at hcell
    rw [hd.2.2.2.2.1] at hcell
    exact absurd (Option.some.inj hcell) (by decide)

/-- One successful placement: writing the two door tiles preserves the
grid invariant and extends the doors invariant. -/
theorem doors_write_step (self : MapGenerator) (g : Layer) (pos : UVec2)
    (doors : List UVec2) (hcl : 2 ≤ self.door_clearance) (hInv : LayerInv g)
    (hD : DoorsInv g doors)
    (hck : check_door_candidate self g pos.x pos.y = true) :
    LayerInv (writeCell
      (writeCell g (xytoi (pos.x + 1) pos.y g) DOOR_LEFT_OPEN_TILE_ID)
      (xytoi (pos.x + 2) pos.y
        (writeCell g (xytoi (pos.x + 1) pos.y g) DOOR_LEFT_OPEN_TILE_ID))
      DOOR_RIGHT_OPEN_TILE_ID) ∧
    DoorsInv (writeCell
      (writeCell g (xytoi (pos.x + 1) pos.y g) DOOR_LEFT_OPEN_TILE_ID)
      (xytoi (pos.x + 2) pos.y
        (writeCell g (xytoi (pos.x + 1) pos.y g) DOOR_LEFT_OPEN_TILE_ID))
      DOOR_RIGHT_OPEN_TILE_ID) (doors ++ [pos]) := by
  rw [xytoi_writeCell]
  obtain ⟨⟨hb1, hb2, hb3, hb4⟩, hfac⟩ :=
    check_placement_facts self g pos.x pos.y hcl hInv hck
  have hlen := hInv.1
  have hi1 : xytoi (pos.x + 1) pos.y g < g.data.length :=
    xytoi_lt_length g _ _ (by omega) (by omega) hlen
  have hi2 : xytoi (pos.x + 2) pos.y g < g.data.length :=
    xytoi_lt_length g _ _ (by omega) (by omega) hlen
  have hc1 : cellAt g (pos.x + 1) pos.y = some FACADE_CENTER_TILE_ID :=
    hfac _ (by omega) (by omega)
  have hc2 : cellAt g (pos.x + 2) pos.y = some FACADE_CENTER_TILE_ID :=
    hfac _ (by omega) (by omega)
  have hint1 := hInv.interior_of_not_wall (show pos.x + 1 < g.width by omega)
    (show pos.y < g.height by omega) hc1 (by decide)
  have hInv1 : LayerInv
      (writeCell g (xytoi (pos.x + 1) pos.y g) DOOR_LEFT_OPEN_TILE_ID) :=
    inv_write_interior g _ _ _ hint1.1 hint1.2.1 hint1.2.2.1 hint1.2.2.2 hInv
  have hInv2 : LayerInv (writeCell
      (writeCell g (xytoi (pos.x + 1) pos.y g) DOOR_LEFT_OPEN_TILE_ID)
      (xytoi (pos.x + 2) pos.y g) DOOR_RIGHT_OPEN_TILE_ID) := by
    have := inv_write_interior
      (writeCell g (xytoi (pos.x + 1) pos.y g) DOOR_LEFT_OPEN_TILE_ID)
      (pos.x + 2) pos.y DOOR_RIGHT_OPEN_TILE_ID
      (by omega) (show pos.x + 2 + 2 ≤ g.width by omega) hb3
      (show pos.y + 2 ≤ g.height by omega) hInv1
    exact this
  refine ⟨hInv2, ?_, ?_⟩
  · intro d hd2
    rcases List.mem_append.mp hd2 with hmem | hmem
    · have hpd := hD.1 d hmem
      have hsep : doorSep d pos := doorSep_of_facades g d pos hpd hfac
      have hne1 : xytoi (pos.x + 1) pos.y g ≠ xytoi (d.x + 1) d.y g := by
        refine xytoi_ne g _ _ _ _ (by omega) (by have := hpd.2.1; omega) ?_
        by_cases hy : d.y = pos.y
        · left; have := hsep hy; omega
        · right; omega
      have hne2 : xytoi (pos.x + 2) pos.y g ≠ xytoi (d.x + 1) d.y g := by
        refine xytoi_ne g _ _ _ _ (by omega) (by have := hpd.2.1; omega) ?_
        by_cases hy : d.y = pos.y
        · left; have := hsep hy; omega
        · right; omega
      have hne3 : xytoi (pos.x + 1) pos.y g ≠ xytoi (d.x + 2) d.y g := by
        refine xytoi_ne g _ _ _ _ (by omega) (by have := hpd.2.1; omega) ?_
        by_cases hy : d.y = pos.y
        · left; have := hsep hy; omega
        · right; omega
      have hne4 : xytoi (pos.x + 2) pos.y g ≠ xytoi (d.x + 2) d.y g := by
        refine xytoi_ne g _ _ _ _ (by omega) (by have := hpd.2.1; omega) ?_
        by_cases hy : d.y = pos.y
        · left; have := hsep hy; omega
        · right; omega
      refine ⟨hpd.1, hpd.2.1, hpd.2.2.1, hpd.2.2.2.1, ?_, ?_⟩
      · rw [cellAt_two_writes_ne g (d.x + 1) d.y _ _ _ _ hne1 hne2]
        exact hpd.2.2.2.2.1
      · rw [cellAt_two_writes_ne g (d.x + 2) d.y _ _ _ _ hne3 hne4]
        exact hpd.2.2.2.2.2
    · rw [List.mem_singleton] at hmem
      rw [hmem]
      refine ⟨hb1, hb2, hb3, hb4, ?_, ?_⟩
      · have e := cellAt_writeCell_ne
          (writeCell g (xytoi (pos.x + 1) pos.y g) DOOR_LEFT_OPEN_TILE_ID)
          (pos.x + 1) pos.y (xytoi (pos.x + 2) pos.y g) DOOR_RIGHT_OPEN_TILE_ID
          (xytoi_ne g (pos.x + 2) pos.y (pos.x + 1) pos.y (by omega) (by omega)
            (Or.inl (by omega)))
        rw [e]
        exact cellAt_writeCell_self g (pos.x + 1) pos.y DOOR_LEFT_OPEN_TILE_ID hi1
      · have hi2' : xytoi (pos.x + 2) pos.y
            (writeCell g (xytoi (pos.x + 1) pos.y g) DOOR_LEFT_OPEN_TILE_ID) <
            (writeCell g (xytoi (pos.x + 1) pos.y g) DOOR_LEFT_OPEN_TILE_ID).data.length := by
          show xytoi (pos.x + 2) pos.y g <
            (writeCell g (xytoi (pos.x + 1) pos.y g) DOOR_LEFT_OPEN_TILE_ID).data.length
          rw [writeCell_length]
          exact hi2
        exact cellAt_writeCell_self
          (writeCell g (xytoi (pos.x + 1) pos.y g) DOOR_LEFT_OPEN_TILE_ID)
          (pos.x + 2) pos.y DOOR_RIGHT_OPEN_TILE_ID hi2'
  · rw [List.pairwise_append]
    refine ⟨hD.2, List.pairwise_singleton _ _, ?_⟩
    intro a ha b hb
    rw [List.mem_singleton] at hb
    rw [hb]
    exact doorSep_of_facades g a pos (hD.1 a ha) hfac

theorem placeDoors_succ (self : MapGenerator) (max_doors n : Nat)
    (cands doors : List UVec2) (g : Layer) (s : List Nat) :
    placeDoors self max_doors (n + 1) cands doors g s =
      if doors.length < max_doors ∧ 0 < cands.length then
        if check_door_candidate self g
            (cands.getD (gen_range 0 cands.length (drawNat s).1) ⟨0, 0⟩).x
            (cands.getD (gen_range 0 cands.length (drawNat s).1) ⟨0, 0⟩).y then
          placeDoors self max_doors n
            (cands.eraseIdx (gen_range 0 cands.length (drawNat s).1))
            (doors ++ [cands.getD (gen_range 0 cands.length (drawNat s).1) ⟨0, 0⟩])
            (writeCell
              (writeCell g
                (xytoi ((cands.getD (gen_range 0 cands.length (drawNat s).1) ⟨0, 0⟩).x + 1)
                  (cands.getD (gen_range 0 cands.length (drawNat s).1) ⟨0, 0⟩).y g)
                DOOR_LEFT_OPEN_TILE_ID)
              (xytoi ((cands.getD (gen_range 0 cands.length (drawNat s).1) ⟨0, 0⟩).x + 2)
                (cands.getD (gen_range 0 cands.length (drawNat s).1) ⟨0, 0⟩).y
                (writeCell g
                  (xytoi ((cands.getD (gen_range 0 cands.length (drawNat s).1) ⟨0, 0⟩).x + 1)
                    (cands.getD (gen_range 0 cands.length (drawNat s).1) ⟨0, 0⟩).y g)
                  DOOR_LEFT_OPEN_TILE_ID))
              DOOR_RIGHT_OPEN_TILE_ID)
            (drawNat s).2
        else
          placeDoors self max_doors n
            (cands.eraseIdx (gen_range 0 cands.length (drawNat s).1)) doors g
            (drawNat s).2
      else (doors, g, s) := rfl

theorem placeDoors_inv (self : MapGenerator) (hcl : 2 ≤ self.door_clearance)
    (max_doors : Nat) :
    ∀ (fuel : Nat) (cands doors : List UVec2) (g : Layer) (s : List Nat),
      LayerInv g → DoorsInv g doors →
      LayerInv (placeDoors self max_doors fuel cands doors g s).2.1 ∧
      DoorsInv (placeDoors self max_doors fuel cands doors g s).2.1
        (placeDoors self max_doors fuel cands doors g s).1 := by
  intro fuel
  induction fuel with
  | zero => intro cands doors g s hInv hD; exact ⟨hInv, hD⟩
  | succ n ih =>
    intro cands doors g s hInv hD
    rw [placeDoors_succ]
    split
    · generalize cands.getD (gen_range 0 cands.length (drawNat s).1) ⟨0, 0⟩ = pos
      split
      · rename_i hck
        have hstep := doors_write_step self g pos doors hcl hInv hD hck
        exact ih _ _ _ _ hstep.1 hstep.2
      · exact ih _ _ _ _ hInv hD
    · exact ⟨hInv, hD⟩

theorem generate_guard_doors_inv (self : MapGenerator)
    (hcl : 2 ≤ self.door_clearance) (max_doors : Nat) (g : Layer) (s : List Nat)
    (hInv : LayerInv g) :
    LayerInv (generate_guard_doors self max_doors g s).2.1 ∧
    DoorsInv (generate_guard_doors self max_doors g s).2.1
      (generate_guard_doors self max_doors g s).1 := by
  unfold generate_guard_doors
  exact placeDoors_inv self hcl max_doors _ _ _ _ _ hInv
    ⟨fun d hd => absurd hd (List.not_mem_nil d), List.Pairwise.nil⟩

theorem doorAttempts_succ (self : MapGenerator) (n num : Nat) (g : Layer)
    (s : List Nat) :
    doorAttempts self (n + 1) num g s =
      if (generate_guard_doors self num g s).1.length = num ∨ n = 0 then
        ((generate_guard_doors self num g s).1,
         (generate_guard_doors self num g s).2.1,
         (generate_guard_doors self num g s).2.2)
      else
        doorAttempts self n num (generate_guard_doors self num g s).2.1
          (generate_guard_doors self num g s).2.2 := rfl

theorem doorAttempts_inv (self : MapGenerator) (hcl : 2 ≤ self.door_clearance) :
    ∀ (fuel num : Nat) (g : Layer) (s : List Nat), LayerInv g →
      LayerInv (doorAttempts self fuel num g s).2.1 ∧
      DoorsInv (doorAttempts self fuel num g s).2.1
        (doorAttempts self fuel num g s).1 := by
  intro fuel
  induction fuel with
  | zero =>
    intro num g s hInv
    exact ⟨hInv, fun d hd => absurd hd (List.not_mem_nil d), List.Pairwise.nil⟩
  | succ n ih =>
    intro num g s hInv
    rw [doorAttempts_succ]
    split
    · exact generate_guard_doors_inv self hcl num g s hInv
    · exact ih num _ _ (generate_guard_doors_inv self hcl num g s hInv).1

/-! ## Exit-door rewrite and fillers preserve the invariant -/

theorem inv_rewrite_exit_door (g : Layer) (pos : UVec2)
    (hb1 : 1 ≤ pos.x) (hb2 : pos.x + 5 ≤ g.width) (hb3 : 1 ≤ pos.y)
    (hb4 : pos.y + 3 ≤ g.height) (h : LayerInv g) :
    LayerInv (rewrite_exit_door pos g) := by
  unfold rewrite_exit_door
  exact inv_write_interior _ _ _ _
    (by omega) (by (try simp only [writeCell_width]); omega)
    (by omega) (by (try simp only [writeCell_height]); omega)
    (inv_write_interior _ _ _ _
      (by omega) (by (try simp only [writeCell_width]); omega)
      (by omega) (by (try simp only [writeCell_height]); omega)
      (inv_write_interior _ _ _ _
        (by omega) (by (try simp only [writeCell_width]); omega)
        (by omega) (by (try simp only [writeCell_height]); omega)
        (inv_write_interior _ _ _ _
          (by omega) (by (try simp only [writeCell_width]); omega)
          (by omega) (by (try simp only [writeCell_height]); omega)
          (inv_write_interior _ _ _ _
            (by omega) (by (try simp only [writeCell_width]); omega)
            (by omega) (by (try simp only [writeCell_height]); omega)
            (inv_write_interior _ _ _ _
              (by omega) (by (try simp only [writeCell_width]); omega)
              (by omega) (by (try simp only [writeCell_height]); omega)
              (inv_write_interior _ _ _ _
                (by omega) (by (try simp only [writeCell_width]); omega)
                (by omega) (by (try simp only [writeCell_height]); omega)
                (inv_write_interior _ _ _ _
                  (by omega) (by (try simp only [writeCell_width]); omega)
                  (by omega) (by (try simp only [writeCell_height]); omega)
                  h)))))))

theorem fillerCells_bounds (w h : Nat) : ∀ p ∈ fillerCells w h,
    1 ≤ p.1 ∧ p.1 + 2 ≤ w ∧ 1 ≤ p.2 ∧ p.2 + 2 ≤ h := by
  intro p hp
  unfold fillerCells at hp
  simp only [List.mem_flatMap, List.mem_map, List.mem_range'_1] at hp
  obtain ⟨x, hx, y, hy, rfl⟩ := hp
  omega

theorem inv_fillerCellStep (src dst : Nat) (prob : Frac)
    (st : Nat × Layer × List Nat) (xy : Nat × Nat) (hx1 : 1 ≤ xy.1)
    (hx2 : xy.1 + 2 ≤ st.2.1.width) (hy1 : 1 ≤ xy.2)
    (hy2 : xy.2 + 2 ≤ st.2.1.height) (h : LayerInv st.2.1) :
    LayerInv (fillerCellStep src dst prob st xy).2.1 ∧
    (fillerCellStep src dst prob st xy).2.1.width = st.2.1.width ∧
    (fillerCellStep src dst prob st xy).2.1.height = st.2.1.height := by
  obtain ⟨cnt, g, s⟩ := st
  simp only [fillerCellStep]
  split
  · exact ⟨h, rfl, rfl⟩
  · split
    · exact ⟨h, rfl, rfl⟩
    · exact ⟨inv_write_interior g xy.1 xy.2 dst hx1 hx2 hy1 hy2 h, rfl, rfl⟩

theorem inv_rewrite_random_filler (src dst : Nat) (prob : Frac) (g : Layer)
    (s : List Nat) (h : LayerInv g) :
    LayerInv (rewrite_random_filler src dst prob g s).2.1 := by
  unfold rewrite_random_filler
  refine (foldl_preserves_mem
    (fun st : Nat × Layer × List Nat =>
      LayerInv st.2.1 ∧ st.2.1.width = g.width ∧ st.2.1.height = g.height)
    (fillerCells g.width g.height) (fillerCellStep src dst prob) ?_ (0, g, s)
    ⟨h, rfl, rfl⟩).1
  intro st xy hmem hst
  obtain ⟨hsti, hstw, hsth⟩ := hst
  have hb := fillerCells_bounds g.width g.height xy hmem
  have hstep := inv_fillerCellStep src dst prob st xy hb.1 (by omega) hb.2.2.1
    (by omega) hsti
  exact ⟨hstep.1, by rw [hstep.2.1, hstw], by rw [hstep.2.2, hsth]⟩

theorem inv_fillerApply (src dst : Nat) (prob : Frac) (p : Layer × List Nat)
    (h : LayerInv p.1) : LayerInv (fillerApply src dst prob p).1 := by
  unfold fillerApply
  exact inv_rewrite_random_filler src dst prob p.1 p.2 h

theorem inv_fillersStage (g : Layer) (s : List Nat) (h : LayerInv g) :
    LayerInv (fillersStage g s) := by
  unfold fillersStage
  exact inv_fillerApply _ _ _ _ (inv_fillerApply _ _ _ _ (inv_fillerApply _ _ _ _
    (inv_fillerApply _ _ _ _ (inv_fillerApply _ _ _ _ h))))

/-! ## The door stage: invariant, door counts and separation -/

theorem perm_getD_cons_eraseIdx {α : Type} (d : α) :
    ∀ (l : List α) (k : Nat), k < l.length →
      List.Perm (l.getD k d :: l.eraseIdx k) l := by
  intro l
  induction l with
  | nil => intro k hk; exact absurd hk (Nat.not_lt_zero k)
  | cons a t ih =>
    intro k hk
    cases k with
    | zero => exact List.Perm.refl _
    | succ k2 =>
      have hk2 : k2 < t.length := Nat.lt_of_succ_lt_succ hk
      show List.Perm (t.getD k2 d :: a :: t.eraseIdx k2) (a :: t)
      exact (List.Perm.swap a (t.getD k2 d) (t.eraseIdx k2)).trans
        (List.Perm.cons a (ih k2 hk2))

theorem doorStage_inv (self : MapGenerator) (rooms : List RectN) (g : Layer)
    (s : List Nat) (res : MapGenResult) (hcl : 2 ≤ self.door_clearance)
    (hInv : LayerInv g) (h : doorStage self rooms g s = some res) :
    LayerInv res.layer ∧ res.guard_doors.length + 1 = res.rooms.length ∧
    (res.exit_door :: res.guard_doors).Pairwise doorSep := by
  have hda := doorAttempts_inv self hcl 10 rooms.length g s hInv
  simp only [doorStage] at h
  split at h
  next hlen =>
    split at h
    next hk =>
      rw [Option.some.injEq] at h
      subst h
      dsimp only
      have hmem : (doorAttempts self 10 rooms.length g s).1.getD
          (gen_range 0 rooms.length
            (drawNat (doorAttempts self 10 rooms.length g s).2.2).1) ⟨0, 0⟩ ∈
          (doorAttempts self 10 rooms.length g s).1 := by
        rw [List.getD_eq_getElem?_getD, List.getElem?_eq_getElem hk]
        exact List.getElem_mem hk
      have hpl := hda.2.1 _ hmem
      refine ⟨?_, ?_, ?_⟩
      · exact inv_fillersStage _ _ (inv_rewrite_exit_door _ _ hpl.1 hpl.2.1
          hpl.2.2.1 hpl.2.2.2.1 hda.1)
      · rw [List.length_eraseIdx]
        rw [if_pos hk]
        omega
      · have hperm := perm_getD_cons_eraseIdx (⟨0, 0⟩ : UVec2)
          (doorAttempts self 10 rooms.length g s).1
          (gen_range 0 rooms.length
            (drawNat (doorAttempts self 10 rooms.length g s).2.2).1) hk
        exact (List.Perm.pairwise_iff (fun hab => doorSep_symm _ _ hab)
          hperm).mpr hda.2.2
    next => exact Option.noConfusion h
  next => exact Option.noConfusion h
/-! ## Claim C5: full population and wall borders of returned grids -/

/-- C5: for every `WellFormed` configuration, whenever `generate_layer`
returns a result, every in-bounds cell of the returned grid holds a tile
and every border cell holds a wall-class tile id. -/
theorem c5_grid_populated_border_walls (self : MapGenerator) (s : List Nat)
    (res : MapGenResult) (hwf : WellFormed self)
    (h : generate_layer self s = some res) :
    allCellsSome res.layer ∧ borderWallClass res.layer := by
  have hroom := roomPhase_inv self s hwf
  have hdet : LayerInv (rewrite_wall_details (roomPhase self s).g) :=
    inv_rewrite_wall_details _ hroom.2.2.1
  have hcl : 2 ≤ self.door_clearance := by
    have hwf' := hwf
    simp only [WellFormed] at hwf'
    exact hwf'.2.2.2.2.2.2.2.2.1
  unfold generate_layer at h
  have hds := doorStage_inv self (roomPhase self s).rooms _ (roomPhase self s).s
    res hcl hdet h
  exact ⟨hds.1.2.1, hds.1.2.2⟩

/-! ## Claim C2: door counts and door separation -/

/-- C2 (amended): for every `WellFormed` configuration, whenever
`generate_layer` returns, the guard-door count is one less than the room
count (with the one removed door returned as the exit door), and all
returned doors — exit and guards — that share a row sit at least 3 columns
apart (the placement loop's re-check protects only the two door-tile
cells `x+1, x+2`, so 4-cell footprints may still overlap by one cell). -/
theorem c2_door_count_and_separation (self : MapGenerator) (s : List Nat)
    (res : MapGenResult) (hwf : WellFormed self)
    (h : generate_layer self s = some res) :
    res.guard_doors.length + 1 = res.rooms.length ∧
    (res.exit_door :: res.guard_doors).Pairwise doorSep := by
  have hroom := roomPhase_inv self s hwf
  have hdet : LayerInv (rewrite_wall_details (roomPhase self s).g) :=
    inv_rewrite_wall_details _ hroom.2.2.1
  have hcl : 2 ≤ self.door_clearance := by
    have hwf' := hwf
    simp only [WellFormed] at hwf'
    exact hwf'.2.2.2.2.2.2.2.2.1
  unfold generate_layer at h
  have hds := doorStage_inv self (roomPhase self s).rooms _ (roomPhase self s).s
    res hcl hdet h
  exact ⟨hds.2.1, hds.2.2⟩


/-! ## Concrete pipeline runs (stage-by-stage evaluations) -/

theorem hWRoom : roomPhase cfgW [] = ⟨gWRoom, roomsW, sWRoom⟩ := by rfl
theorem hWClean : cleanupLoop (gWRoom.width * gWRoom.height + 1) gWRoom = gWClean := by rfl
theorem hWCor :
    detailPass detailCornersCell gWClean = gWCor5 := by
  show (cellsColMajor gWClean.width gWClean.height).foldl detailCornersCell gWClean = gWCor5
  have e : cellsColMajor gWClean.width gWClean.height =
      [(0, 0), (0, 1), (0, 2), (0, 3), (0, 4), (0, 5), (0, 6), (0, 7), (1, 0), (1, 1), (1, 2), (1, 3), (1, 4), (1, 5), (1, 6), (1, 7)] ++ ([(2, 0), (2, 1), (2, 2), (2, 3), (2, 4), (2, 5), (2, 6), (2, 7), (3, 0), (3, 1), (3, 2), (3, 3), (3, 4), (3, 5), (3, 6), (3, 7)] ++ ([(4, 0), (4, 1), (4, 2), (4, 3), (4, 4), (4, 5), (4, 6), (4, 7), (5, 0), (5, 1), (5, 2), (5, 3), (5, 4), (5, 5), (5, 6), (5, 7)] ++ ([(6, 0), (6, 1), (6, 2), (6, 3), (6, 4), (6, 5), (6, 6), (6, 7), (7, 0), (7, 1), (7, 2), (7, 3), (7, 4), (7, 5), (7, 6), (7, 7)] ++ ([(8, 0), (8, 1), (8, 2), (8, 3), (8, 4), (8, 5), (8, 6), (8, 7), (9, 0), (9, 1), (9, 2), (9, 3), (9, 4), (9, 5), (9, 6), (9, 7)] ++ ([(10, 0), (10, 1), (10, 2), (10, 3), (10, 4), (10, 5), (10, 6), (10, 7)]))))) := by rfl
  rw [e]
  rw [List.foldl_append]
  rw [show List.foldl detailCornersCell gWClean [(0, 0), (0, 1), (0, 2), (0, 3), (0, 4), (0, 5), (0, 6), (0, 7), (1, 0), (1, 1), (1, 2), (1, 3), (1, 4), (1, 5), (1, 6), (1, 7)] = gWCor0 from by rfl]
  rw [List.foldl_append]
  rw [show List.foldl detailCornersCell gWCor0 [(2, 0), (2, 1), (2, 2), (2, 3), (2, 4), (2, 5), (2, 6), (2, 7), (3, 0), (3, 1), (3, 2), (3, 3), (3, 4), (3, 5), (3, 6), (3, 7)] = gWCor1 from by rfl]
  rw [List.foldl_append]
  rw [show List.foldl detailCornersCell gWCor1 [(4, 0), (4, 1), (4, 2), (4, 3), (4, 4), (4, 5), (4, 6), (4, 7), (5, 0), (5, 1), (5, 2), (5, 3), (5, 4), (5, 5), (5, 6), (5, 7)] = gWCor2 from by rfl]
  rw [List.foldl_append]
  rw [show List.foldl detailCornersCell gWCor2 [(6, 0), (6, 1), (6, 2), (6, 3), (6, 4), (6, 5), (6, 6), (6, 7), (7, 0), (7, 1), (7, 2), (7, 3), (7, 4), (7, 5), (7, 6), (7, 7)] = gWCor3 from by rfl]
  rw [List.foldl_append]
  rw [show List.foldl detailCornersCell gWCor3 [(8, 0), (8, 1), (8, 2), (8, 3), (8, 4), (8, 5), (8, 6), (8, 7), (9, 0), (9, 1), (9, 2), (9, 3), (9, 4), (9, 5), (9, 6), (9, 7)] = gWCor4 from by rfl]
  rw [show List.foldl detailCornersCell gWCor4 [(10, 0), (10, 1), (10, 2), (10, 3), (10, 4), (10, 5), (10, 6), (10, 7)] = gWCor5 from by rfl]
theorem hWSides :
    detailPass detailSidesCell gWCor5 = gWSides5 := by
  show (cellsColMajor gWCor5.width gWCor5.height).foldl detailSidesCell gWCor5 = gWSides5
  have e : cellsColMajor gWCor5.width gWCor5.height =
      [(0, 0), (0, 1), (0, 2), (0, 3), (0, 4), (0, 5), (0, 6), (0, 7), (1, 0), (1, 1), (1, 2), (1, 3), (1, 4), (1, 5), (1, 6), (1, 7)] ++ ([(2, 0), (2, 1), (2, 2), (2, 3), (2, 4), (2, 5), (2, 6), (2, 7), (3, 0), (3, 1), (3, 2), (3, 3), (3, 4), (3, 5), (3, 6), (3, 7)] ++ ([(4, 0), (4, 1), (4, 2), (4, 3), (4, 4), (4, 5), (4, 6), (4, 7), (5, 0), (5, 1), (5, 2), (5, 3), (5, 4), (5, 5), (5, 6), (5, 7)] ++ ([(6, 0), (6, 1), (6, 2), (6, 3), (6, 4), (6, 5), (6, 6), (6, 7), (7, 0), (7, 1), (7, 2), (7, 3), (7, 4), (7, 5), (7, 6), (7, 7)] ++ ([(8, 0), (8, 1), (8, 2), (8, 3), (8, 4), (8, 5), (8, 6), (8, 7), (9, 0), (9, 1), (9, 2), (9, 3), (9, 4), (9, 5), (9, 6), (9, 7)] ++ ([(10, 0), (10, 1), (10, 2), (10, 3), (10, 4), (10, 5), (10, 6), (10, 7)]))))) := by rfl
  rw [e]
  rw [List.foldl_append]
  rw [show List.foldl detailSidesCell gWCor5 [(0, 0), (0, 1), (0, 2), (0, 3), (0, 4), (0, 5), (0, 6), (0, 7), (1, 0), (1, 1), (1, 2), (1, 3), (1, 4), (1, 5), (1, 6), (1, 7)] = gWSides0 from by rfl]
  rw [List.foldl_append]
  rw [show List.foldl detailSidesCell gWSides0 [(2, 0), (2, 1), (2, 2), (2, 3), (2, 4), (2, 5), (2, 6), (2, 7), (3, 0), (3, 1), (3, 2), (3, 3), (3, 4), (3, 5), (3, 6), (3, 7)] = gWSides1 from by rfl]
  rw [List.foldl_append]
  rw [show List.foldl detailSidesCell gWSides1 [(4, 0), (4, 1), (4, 2), (4, 3), (4, 4), (4, 5), (4, 6), (4, 7), (5, 0), (5, 1), (5, 2), (5, 3), (5, 4), (5, 5), (5, 6), (5, 7)] = gWSides2 from by rfl]
  rw [List.foldl_append]
  rw [show List.foldl detailSidesCell gWSides2 [(6, 0), (6, 1), (6, 2), (6, 3), (6, 4), (6, 5), (6, 6), (6, 7), (7, 0), (7, 1), (7, 2), (7, 3), (7, 4), (7, 5), (7, 6), (7, 7)] = gWSides3 from by rfl]
  rw [List.foldl_append]
  rw [show List.foldl detailSidesCell gWSides3 [(8, 0), (8, 1), (8, 2), (8, 3), (8, 4), (8, 5), (8, 6), (8, 7), (9, 0), (9, 1), (9, 2), (9, 3), (9, 4), (9, 5), (9, 6), (9, 7)] = gWSides4 from by rfl]
  rw [show List.foldl detailSidesCell gWSides4 [(10, 0), (10, 1), (10, 2), (10, 3), (10, 4), (10, 5), (10, 6), (10, 7)] = gWSides5 from by rfl]
theorem hWTB :
    detailPass detailTopBottomCell gWSides5 = gWTB5 := by
  show (cellsColMajor gWSides5.width gWSides5.height).foldl detailTopBottomCell gWSides5 = gWTB5
  have e : cellsColMajor gWSides5.width gWSides5.height =
      [(0, 0), (0, 1), (0, 2), (0, 3), (0, 4), (0, 5), (0, 6), (0, 7), (1, 0), (1, 1), (1, 2), (1, 3), (1, 4), (1, 5), (1, 6), (1, 7)] ++ ([(2, 0), (2, 1), (2, 2), (2, 3), (2, 4), (2, 5), (2, 6), (2, 7), (3, 0), (3, 1), (3, 2), (3, 3), (3, 4), (3, 5), (3, 6), (3, 7)] ++ ([(4, 0), (4, 1), (4, 2), (4, 3), (4, 4), (4, 5), (4, 6), (4, 7), (5, 0), (5, 1), (5, 2), (5, 3), (5, 4), (5, 5), (5, 6), (5, 7)] ++ ([(6, 0), (6, 1), (6, 2), (6, 3), (6, 4), (6, 5), (6, 6), (6, 7), (7, 0), (7, 1), (7, 2), (7, 3), (7, 4), (7, 5), (7, 6), (7, 7)] ++ ([(8, 0), (8, 1), (8, 2), (8, 3), (8, 4), (8, 5), (8, 6), (8, 7), (9, 0), (9, 1), (9, 2), (9, 3), (9, 4), (9, 5), (9, 6), (9, 7)] ++ ([(10, 0), (10, 1), (10, 2), (10, 3), (10, 4), (10, 5), (10, 6), (10, 7)]))))) := by rfl
  rw [e]
  rw [List.foldl_append]
  rw [show List.foldl detailTopBottomCell gWSides5 [(0, 0), (0, 1), (0, 2), (0, 3), (0, 4), (0, 5), (0, 6), (0, 7), (1, 0), (1, 1), (1, 2), (1, 3), (1, 4), (1, 5), (1, 6), (1, 7)] = gWTB0 from by rfl]
  rw [List.foldl_append]
  rw [show List.foldl detailTopBottomCell gWTB0 [(2, 0), (2, 1), (2, 2), (2, 3), (2, 4), (2, 5), (2, 6), (2, 7), (3, 0), (3, 1), (3, 2), (3, 3), (3, 4), (3, 5), (3, 6), (3, 7)] = gWTB1 from by rfl]
  rw [List.foldl_append]
  rw [show List.foldl detailTopBottomCell gWTB1 [(4, 0), (4, 1), (4, 2), (4, 3), (4, 4), (4, 5), (4, 6), (4, 7), (5, 0), (5, 1), (5, 2), (5, 3), (5, 4), (5, 5), (5, 6), (5, 7)] = gWTB2 from by rfl]
  rw [List.foldl_append]
  rw [show List.foldl detailTopBottomCell gWTB2 [(6, 0), (6, 1), (6, 2), (6, 3), (6, 4), (6, 5), (6, 6), (6, 7), (7, 0), (7, 1), (7, 2), (7, 3), (7, 4), (7, 5), (7, 6), (7, 7)] = gWTB3 from by rfl]
  rw [List.foldl_append]
  rw [show List.foldl detailTopBottomCell gWTB3 [(8, 0), (8, 1), (8, 2), (8, 3), (8, 4), (8, 5), (8, 6), (8, 7), (9, 0), (9, 1), (9, 2), (9, 3), (9, 4), (9, 5), (9, 6), (9, 7)] = gWTB4 from by rfl]
  rw [show List.foldl detailTopBottomCell gWTB4 [(10, 0), (10, 1), (10, 2), (10, 3), (10, 4), (10, 5), (10, 6), (10, 7)] = gWTB5 from by rfl]
theorem hWFac :
    detailPass detailFacadesCell gWTB5 = gWFac5 := by
  show (cellsColMajor gWTB5.width gWTB5.height).foldl detailFacadesCell gWTB5 = gWFac5
  have e : cellsColMajor gWTB5.width gWTB5.height =
      [(0, 0), (0, 1), (0, 2), (0, 3), (0, 4), (0, 5), (0, 6), (0, 7), (1, 0), (1, 1), (1, 2), (1, 3), (1, 4), (1, 5), (1, 6), (1, 7)] ++ ([(2, 0), (2, 1), (2, 2), (2, 3), (2, 4), (2, 5), (2, 6), (2, 7), (3, 0), (3, 1), (3, 2), (3, 3), (3, 4), (3, 5), (3, 6), (3, 7)] ++ ([(4, 0), (4, 1), (4, 2), (4, 3), (4, 4), (4, 5), (4, 6), (4, 7), (5, 0), (5, 1), (5, 2), (5, 3), (5, 4), (5, 5), (5, 6), (5, 7)] ++ ([(6, 0), (6, 1), (6, 2), (6, 3), (6, 4), (6, 5), (6, 6), (6, 7), (7, 0), (7, 1), (7, 2), (7, 3), (7, 4), (7, 5), (7, 6), (7, 7)] ++ ([(8, 0), (8, 1), (8, 2), (8, 3), (8, 4), (8, 5), (8, 6), (8, 7), (9, 0), (9, 1), (9, 2), (9, 3), (9, 4), (9, 5), (9, 6), (9, 7)] ++ ([(10, 0), (10, 1), (10, 2), (10, 3), (10, 4), (10, 5), (10, 6), (10, 7)]))))) := by rfl
  rw [e]
  rw [List.foldl_append]
  rw [show List.foldl detailFacadesCell gWTB5 [(0, 0), (0, 1), (0, 2), (0, 3), (0, 4), (0, 5), (0, 6), (0, 7), (1, 0), (1, 1), (1, 2), (1, 3), (1, 4), (1, 5), (1, 6), (1, 7)] = gWFac0 from by rfl]
  rw [List.foldl_append]
  rw [show List.foldl detailFacadesCell gWFac0 [(2, 0), (2, 1), (2, 2), (2, 3), (2, 4), (2, 5), (2, 6), (2, 7), (3, 0), (3, 1), (3, 2), (3, 3), (3, 4), (3, 5), (3, 6), (3, 7)] = gWFac1 from by rfl]
  rw [List.foldl_append]
  rw [show List.foldl detailFacadesCell gWFac1 [(4, 0), (4, 1), (4, 2), (4, 3), (4, 4), (4, 5), (4, 6), (4, 7), (5, 0), (5, 1), (5, 2), (5, 3), (5, 4), (5, 5), (5, 6), (5, 7)] = gWFac2 from by rfl]
  rw [List.foldl_append]
  rw [show List.foldl detailFacadesCell gWFac2 [(6, 0), (6, 1), (6, 2), (6, 3), (6, 4), (6, 5), (6, 6), (6, 7), (7, 0), (7, 1), (7, 2), (7, 3), (7, 4), (7, 5), (7, 6), (7, 7)] = gWFac3 from by rfl]
  rw [List.foldl_append]
  rw [show List.foldl detailFacadesCell gWFac3 [(8, 0), (8, 1), (8, 2), (8, 3), (8, 4), (8, 5), (8, 6), (8, 7), (9, 0), (9, 1), (9, 2), (9, 3), (9, 4), (9, 5), (9, 6), (9, 7)] = gWFac4 from by rfl]
  rw [show List.foldl detailFacadesCell gWFac4 [(10, 0), (10, 1), (10, 2), (10, 3), (10, 4), (10, 5), (10, 6), (10, 7)] = gWFac5 from by rfl]
theorem hWDet : rewrite_wall_details gWRoom = gWFac5 := by
  show detailPass detailFacadesCell (detailPass detailTopBottomCell (detailPass detailSidesCell
      (detailPass detailCornersCell (cleanupLoop (gWRoom.width * gWRoom.height + 1) gWRoom)))) = gWFac5
  rw [hWClean, hWCor, hWSides, hWTB, hWFac]
theorem hWTail : doorStage cfgW roomsW gWFac5 sWRoom = some resW := by rfl
theorem hWGen : generate_layer cfgW [] = some resW := by
  show doorStage cfgW (roomPhase cfgW []).rooms
      (rewrite_wall_details (roomPhase cfgW []).g) (roomPhase cfgW []).s = some resW
  rw [hWRoom]
  show doorStage cfgW roomsW (rewrite_wall_details gWRoom) sWRoom = some resW
  rw [hWDet]
  exact hWTail
theorem hC2Room : roomPhase cfgC2 [0, 0, 0, 0, 0, 0, 9, 0, 0, 2, 0] = ⟨gC2Room, roomsC2, sC2Room⟩ := by rfl
theorem hC2Clean : cleanupLoop (gC2Room.width * gC2Room.height + 1) gC2Room = gC2Clean := by rfl
theorem hC2Cor :
    detailPass detailCornersCell gC2Clean = gC2Cor9 := by
  show (cellsColMajor gC2Clean.width gC2Clean.height).foldl detailCornersCell gC2Clean = gC2Cor9
  have e : cellsColMajor gC2Clean.width gC2Clean.height =
      [(0, 0), (0, 1), (0, 2), (0, 3), (0, 4), (0, 5), (1, 0), (1, 1), (1, 2), (1, 3), (1, 4), (1, 5)] ++ ([(2, 0), (2, 1), (2, 2), (2, 3), (2, 4), (2, 5), (3, 0), (3, 1), (3, 2), (3, 3), (3, 4), (3, 5)] ++ ([(4, 0), (4, 1), (4, 2), (4, 3), (4, 4), (4, 5), (5, 0), (5, 1), (5, 2), (5, 3), (5, 4), (5, 5)] ++ ([(6, 0), (6, 1), (6, 2), (6, 3), (6, 4), (6, 5), (7, 0), (7, 1), (7, 2), (7, 3), (7, 4), (7, 5)] ++ ([(8, 0), (8, 1), (8, 2), (8, 3), (8, 4), (8, 5), (9, 0), (9, 1), (9, 2), (9, 3), (9, 4), (9, 5)] ++ ([(10, 0), (10, 1), (10, 2), (10, 3), (10, 4), (10, 5), (11, 0), (11, 1), (11, 2), (11, 3), (11, 4), (11, 5)] ++ ([(12, 0), (12, 1), (12, 2), (12, 3), (12, 4), (12, 5), (13, 0), (13, 1), (13, 2), (13, 3), (13, 4), (13, 5)] ++ ([(14, 0), (14, 1), (14, 2), (14, 3), (14, 4), (14, 5), (15, 0), (15, 1), (15, 2), (15, 3), (15, 4), (15, 5)] ++ ([(16, 0), (16, 1), (16, 2), (16, 3), (16, 4), (16, 5), (17, 0), (17, 1), (17, 2), (17, 3), (17, 4), (17, 5)] ++ ([(18, 0), (18, 1), (18, 2), (18, 3), (18, 4), (18, 5)]))))))))) := by rfl
  rw [e]
  rw [List.foldl_append]
  rw [show List.foldl detailCornersCell gC2Clean [(0, 0), (0, 1), (0, 2), (0, 3), (0, 4), (0, 5), (1, 0), (1, 1), (1, 2), (1, 3), (1, 4), (1, 5)] = gC2Cor0 from by rfl]
  rw [List.foldl_append]
  rw [show List.foldl detailCornersCell gC2Cor0 [(2, 0), (2, 1), (2, 2), (2, 3), (2, 4), (2, 5), (3, 0), (3, 1), (3, 2), (3, 3), (3, 4), (3, 5)] = gC2Cor1 from by rfl]
  rw [List.foldl_append]
  rw [show List.foldl detailCornersCell gC2Cor1 [(4, 0), (4, 1), (4, 2), (4, 3), (4, 4), (4, 5), (5, 0), (5, 1), (5, 2), (5, 3), (5, 4), (5, 5)] = gC2Cor2 from by rfl]
  rw [List.foldl_append]
  rw [show List.foldl detailCornersCell gC2Cor2 [(6, 0), (6, 1), (6, 2), (6, 3), (6, 4), (6, 5), (7, 0), (7, 1), (7, 2), (7, 3), (7, 4), (7, 5)] = gC2Cor3 from by rfl]
  rw [List.foldl_append]
  rw [show List.foldl detailCornersCell gC2Cor3 [(8, 0), (8, 1), (8, 2), (8, 3), (8, 4), (8, 5), (9, 0), (9, 1), (9, 2), (9, 3), (9, 4), (9, 5)] = gC2Cor4 from by rfl]
  rw [List.foldl_append]
  rw [show List.foldl detailCornersCell gC2Cor4 [(10, 0), (10, 1), (10, 2), (10, 3), (10, 4), (10, 5), (11, 0), (11, 1), (11, 2), (11, 3), (11, 4), (11, 5)] = gC2Cor5 from by rfl]
  rw [List.foldl_append]
  rw [show List.foldl detailCornersCell gC2Cor5 [(12, 0), (12, 1), (12, 2), (12, 3), (12, 4), (12, 5), (13, 0), (13, 1), (13, 2), (13, 3), (13, 4), (13, 5)] = gC2Cor6 from by rfl]
  rw [List.foldl_append]
  rw [show List.foldl detailCornersCell gC2Cor6 [(14, 0), (14, 1), (14, 2), (14, 3), (14, 4), (14, 5), (15, 0), (15, 1), (15, 2), (15, 3), (15, 4), (15, 5)] = gC2Cor7 from by rfl]
  rw [List.foldl_append]
  rw [show List.foldl detailCornersCell gC2Cor7 [(16, 0), (16, 1), (16, 2), (16, 3), (16, 4), (16, 5), (17, 0), (17, 1), (17, 2), (17, 3), (17, 4), (17, 5)] = gC2Cor8 from by rfl]
  rw [show List.foldl detailCornersCell gC2Cor8 [(18, 0), (18, 1), (18, 2), (18, 3), (18, 4), (18, 5)] = gC2Cor9 from by rfl]
theorem hC2Sides :
    detailPass detailSidesCell gC2Cor9 = gC2Sides9 := by
  show (cellsColMajor gC2Cor9.width gC2Cor9.height).foldl detailSidesCell gC2Cor9 = gC2Sides9
  have e : cellsColMajor gC2Cor9.width gC2Cor9.height =
      [(0, 0), (0, 1), (0, 2), (0, 3), (0, 4), (0, 5), (1, 0), (1, 1), (1, 2), (1, 3), (1, 4), (1, 5)] ++ ([(2, 0), (2, 1), (2, 2), (2, 3), (2, 4), (2, 5), (3, 0), (3, 1), (3, 2), (3, 3), (3, 4), (3, 5)] ++ ([(4, 0), (4, 1), (4, 2), (4, 3), (4, 4), (4, 5), (5, 0), (5, 1), (5, 2), (5, 3), (5, 4), (5, 5)] ++ ([(6, 0), (6, 1), (6, 2), (6, 3), (6, 4), (6, 5), (7, 0), (7, 1), (7, 2), (7, 3), (7, 4), (7, 5)] ++ ([(8, 0), (8, 1), (8, 2), (8, 3), (8, 4), (8, 5), (9, 0), (9, 1), (9, 2), (9, 3), (9, 4), (9, 5)] ++ ([(10, 0), (10, 1), (10, 2), (10, 3), (10, 4), (10, 5), (11, 0), (11, 1), (11, 2), (11, 3), (11, 4), (11, 5)] ++ ([(12, 0), (12, 1), (12, 2), (12, 3), (12, 4), (12, 5), (13, 0), (13, 1), (13, 2), (13, 3), (13, 4), (13, 5)] ++ ([(14, 0), (14, 1), (14, 2), (14, 3), (14, 4), (14, 5), (15, 0), (15, 1), (15, 2), (15, 3), (15, 4), (15, 5)] ++ ([(16, 0), (16, 1), (16, 2), (16, 3), (16, 4), (16, 5), (17, 0), (17, 1), (17, 2), (17, 3), (17, 4), (17, 5)] ++ ([(18, 0), (18, 1), (18, 2), (18, 3), (18, 4), (18, 5)]))))))))) := by rfl
  rw [e]
  rw [List.foldl_append]
  rw [show List.foldl detailSidesCell gC2Cor9 [(0, 0), (0, 1), (0, 2), (0, 3), (0, 4), (0, 5), (1, 0), (1, 1), (1, 2), (1, 3), (1, 4), (1, 5)] = gC2Sides0 from by rfl]
  rw [List.foldl_append]
  rw [show List.foldl detailSidesCell gC2Sides0 [(2, 0), (2, 1), (2, 2), (2, 3), (2, 4), (2, 5), (3, 0), (3, 1), (3, 2), (3, 3), (3, 4), (3, 5)] = gC2Sides1 from by rfl]
  rw [List.foldl_append]
  rw [show List.foldl detailSidesCell gC2Sides1 [(4, 0), (4, 1), (4, 2), (4, 3), (4, 4), (4, 5), (5, 0), (5, 1), (5, 2), (5, 3), (5, 4), (5, 5)] = gC2Sides2 from by rfl]
  rw [List.foldl_append]
  rw [show List.foldl detailSidesCell gC2Sides2 [(6, 0), (6, 1), (6, 2), (6, 3), (6, 4), (6, 5), (7, 0), (7, 1), (7, 2), (7, 3), (7, 4), (7, 5)] = gC2Sides3 from by rfl]
  rw [List.foldl_append]
  rw [show List.foldl detailSidesCell gC2Sides3 [(8, 0), (8, 1), (8, 2), (8, 3), (8, 4), (8, 5), (9, 0), (9, 1), (9, 2), (9, 3), (9, 4), (9, 5)] = gC2Sides4 from by rfl]
  rw [List.foldl_append]
  rw [show List.foldl detailSidesCell gC2Sides4 [(10, 0), (10, 1), (10, 2), (10, 3), (10, 4), (10, 5), (11, 0), (11, 1), (11, 2), (11, 3), (11, 4), (11, 5)] = gC2Sides5 from by rfl]
  rw [List.foldl_append]
  rw [show List.foldl detailSidesCell gC2Sides5 [(12, 0), (12, 1), (12, 2), (12, 3), (12, 4), (12, 5), (13, 0), (13, 1), (13, 2), (13, 3), (13, 4), (13, 5)] = gC2Sides6 from by rfl]
  rw [List.foldl_append]
  rw [show List.foldl detailSidesCell gC2Sides6 [(14, 0), (14, 1), (14, 2), (14, 3), (14, 4), (14, 5), (15, 0), (15, 1), (15, 2), (15, 3), (15, 4), (15, 5)] = gC2Sides7 from by rfl]
  rw [List.foldl_append]
  rw [show List.foldl detailSidesCell gC2Sides7 [(16, 0), (16, 1), (16, 2), (16, 3), (16, 4), (16, 5), (17, 0), (17, 1), (17, 2), (17, 3), (17, 4), (17, 5)] = gC2Sides8 from by rfl]
  rw [show List.foldl detailSidesCell gC2Sides8 [(18, 0), (18, 1), (18, 2), (18, 3), (18, 4), (18, 5)] = gC2Sides9 from by rfl]
theorem hC2TB :
    detailPass detailTopBottomCell gC2Sides9 = gC2TB9 := by
  show (cellsColMajor gC2Sides9.width gC2Sides9.height).foldl detailTopBottomCell gC2Sides9 = gC2TB9
  have e : cellsColMajor gC2Sides9.width gC2Sides9.height =
      [(0, 0), (0, 1), (0, 2), (0, 3), (0, 4), (0, 5), (1, 0), (1, 1), (1, 2), (1, 3), (1, 4), (1, 5)] ++ ([(2, 0), (2, 1), (2, 2), (2, 3), (2, 4), (2, 5), (3, 0), (3, 1), (3, 2), (3, 3), (3, 4), (3, 5)] ++ ([(4, 0), (4, 1), (4, 2), (4, 3), (4, 4), (4, 5), (5, 0), (5, 1), (5, 2), (5, 3), (5, 4), (5, 5)] ++ ([(6, 0), (6, 1), (6, 2), (6, 3), (6, 4), (6, 5), (7, 0), (7, 1), (7, 2), (7, 3), (7, 4), (7, 5)] ++ ([(8, 0), (8, 1), (8, 2), (8, 3), (8, 4), (8, 5), (9, 0), (9, 1), (9, 2), (9, 3), (9, 4), (9, 5)] ++ ([(10, 0), (10, 1), (10, 2), (10, 3), (10, 4), (10, 5), (11, 0), (11, 1), (11, 2), (11, 3), (11, 4), (11, 5)] ++ ([(12, 0), (12, 1), (12, 2), (12, 3), (12, 4), (12, 5), (13, 0), (13, 1), (13, 2), (13, 3), (13, 4), (13, 5)] ++ ([(14, 0), (14, 1), (14, 2), (14, 3), (14, 4), (14, 5), (15, 0), (15, 1), (15, 2), (15, 3), (15, 4), (15, 5)] ++ ([(16, 0), (16, 1), (16, 2), (16, 3), (16, 4), (16, 5), (17, 0), (17, 1), (17, 2), (17, 3), (17, 4), (17, 5)] ++ ([(18, 0), (18, 1), (18, 2), (18, 3), (18, 4), (18, 5)]))))))))) := by rfl
  rw [e]
  rw [List.foldl_append]
  rw [show List.foldl detailTopBottomCell gC2Sides9 [(0, 0), (0, 1), (0, 2), (0, 3), (0, 4), (0, 5), (1, 0), (1, 1), (1, 2), (1, 3), (1, 4), (1, 5)] = gC2TB0 from by rfl]
  rw [List.foldl_append]
  rw [show List.foldl detailTopBottomCell gC2TB0 [(2, 0), (2, 1), (2, 2), (2, 3), (2, 4), (2, 5), (3, 0), (3, 1), (3, 2), (3, 3), (3, 4), (3, 5)] = gC2TB1 from by rfl]
  rw [List.foldl_append]
  rw [show List.foldl detailTopBottomCell gC2TB1 [(4, 0), (4, 1), (4, 2), (4, 3), (4, 4), (4, 5), (5, 0), (5, 1), (5, 2), (5, 3), (5, 4), (5, 5)] = gC2TB2 from by rfl]
  rw [List.foldl_append]
  rw [show List.foldl detailTopBottomCell gC2TB2 [(6, 0), (6, 1), (6, 2), (6, 3), (6, 4), (6, 5), (7, 0), (7, 1), (7, 2), (7, 3), (7, 4), (7, 5)] = gC2TB3 from by rfl]
  rw [List.foldl_append]
  rw [show List.foldl detailTopBottomCell gC2TB3 [(8, 0), (8, 1), (8, 2), (8, 3), (8, 4), (8, 5), (9, 0), (9, 1), (9, 2), (9, 3), (9, 4), (9, 5)] = gC2TB4 from by rfl]
  rw [List.foldl_append]
  rw [show List.foldl detailTopBottomCell gC2TB4 [(10, 0), (10, 1), (10, 2), (10, 3), (10, 4), (10, 5), (11, 0), (11, 1), (11, 2), (11, 3), (11, 4), (11, 5)] = gC2TB5 from by rfl]
  rw [List.foldl_append]
  rw [show List.foldl detailTopBottomCell gC2TB5 [(12, 0), (12, 1), (12, 2), (12, 3), (12, 4), (12, 5), (13, 0), (13, 1), (13, 2), (13, 3), (13, 4), (13, 5)] = gC2TB6 from by rfl]
  rw [List.foldl_append]
  rw [show List.foldl detailTopBottomCell gC2TB6 [(14, 0), (14, 1), (14, 2), (14, 3), (14, 4), (14, 5), (15, 0), (15, 1), (15, 2), (15, 3), (15, 4), (15, 5)] = gC2TB7 from by rfl]
  rw [List.foldl_append]
  rw [show List.foldl detailTopBottomCell gC2TB7 [(16, 0), (16, 1), (16, 2), (16, 3), (16, 4), (16, 5), (17, 0), (17, 1), (17, 2), (17, 3), (17, 4), (17, 5)] = gC2TB8 from by rfl]
  rw [show List.foldl detailTopBottomCell gC2TB8 [(18, 0), (18, 1), (18, 2), (18, 3), (18, 4), (18, 5)] = gC2TB9 from by rfl]
theorem hC2Fac :
    detailPass detailFacadesCell gC2TB9 = gC2Fac9 := by
  show (cellsColMajor gC2TB9.width gC2TB9.height).foldl detailFacadesCell gC2TB9 = gC2Fac9
  have e : cellsColMajor gC2TB9.width gC2TB9.height =
      [(0, 0), (0, 1), (0, 2), (0, 3), (0, 4), (0, 5), (1, 0), (1, 1), (1, 2), (1, 3), (1, 4), (1, 5)] ++ ([(2, 0), (2, 1), (2, 2), (2, 3), (2, 4), (2, 5), (3, 0), (3, 1), (3, 2), (3, 3), (3, 4), (3, 5)] ++ ([(4, 0), (4, 1), (4, 2), (4, 3), (4, 4), (4, 5), (5, 0), (5, 1), (5, 2), (5, 3), (5, 4), (5, 5)] ++ ([(6, 0), (6, 1), (6, 2), (6, 3), (6, 4), (6, 5), (7, 0), (7, 1), (7, 2), (7, 3), (7, 4), (7, 5)] ++ ([(8, 0), (8, 1), (8, 2), (8, 3), (8, 4), (8, 5), (9, 0), (9, 1), (9, 2), (9, 3), (9, 4), (9, 5)] ++ ([(10, 0), (10, 1), (10, 2), (10, 3), (10, 4), (10, 5), (11, 0), (11, 1), (11, 2), (11, 3), (11, 4), (11, 5)] ++ ([(12, 0), (12, 1), (12, 2), (12, 3), (12, 4), (12, 5), (13, 0), (13, 1), (13, 2), (13, 3), (13, 4), (13, 5)] ++ ([(14, 0), (14, 1), (14, 2), (14, 3), (14, 4), (14, 5), (15, 0), (15, 1), (15, 2), (15, 3), (15, 4), (15, 5)] ++ ([(16, 0), (16, 1), (16, 2), (16, 3), (16, 4), (16, 5), (17, 0), (17, 1), (17, 2), (17, 3), (17, 4), (17, 5)] ++ ([(18, 0), (18, 1), (18, 2), (18, 3), (18, 4), (18, 5)]))))))))) := by rfl
  rw [e]
  rw [List.foldl_append]
  rw [show List.foldl detailFacadesCell gC2TB9 [(0, 0), (0, 1), (0, 2), (0, 3), (0, 4), (0, 5), (1, 0), (1, 1), (1, 2), (1, 3), (1, 4), (1, 5)] = gC2Fac0 from by rfl]
  rw [List.foldl_append]
  rw [show List.foldl detailFacadesCell gC2Fac0 [(2, 0), (2, 1), (2, 2), (2, 3), (2, 4), (2, 5), (3, 0), (3, 1), (3, 2), (3, 3), (3, 4), (3, 5)] = gC2Fac1 from by rfl]
  rw [List.foldl_append]
  rw [show List.foldl detailFacadesCell gC2Fac1 [(4, 0), (4, 1), (4, 2), (4, 3), (4, 4), (4, 5), (5, 0), (5, 1), (5, 2), (5, 3), (5, 4), (5, 5)] = gC2Fac2 from by rfl]
  rw [List.foldl_append]
  rw [show List.foldl detailFacadesCell gC2Fac2 [(6, 0), (6, 1), (6, 2), (6, 3), (6, 4), (6, 5), (7, 0), (7, 1), (7, 2), (7, 3), (7, 4), (7, 5)] = gC2Fac3 from by rfl]
  rw [List.foldl_append]
  rw [show List.foldl detailFacadesCell gC2Fac3 [(8, 0), (8, 1), (8, 2), (8, 3), (8, 4), (8, 5), (9, 0), (9, 1), (9, 2), (9, 3), (9, 4), (9, 5)] = gC2Fac4 from by rfl]
  rw [List.foldl_append]
  rw [show List.foldl detailFacadesCell gC2Fac4 [(10, 0), (10, 1), (10, 2), (10, 3), (10, 4), (10, 5), (11, 0), (11, 1), (11, 2), (11, 3), (11, 4), (11, 5)] = gC2Fac5 from by rfl]
  rw [List.foldl_append]
  rw [show List.foldl detailFacadesCell gC2Fac5 [(12, 0), (12, 1), (12, 2), (12, 3), (12, 4), (12, 5), (13, 0), (13, 1), (13, 2), (13, 3), (13, 4), (13, 5)] = gC2Fac6 from by rfl]
  rw [List.foldl_append]
  rw [show List.foldl detailFacadesCell gC2Fac6 [(14, 0), (14, 1), (14, 2), (14, 3), (14, 4), (14, 5), (15, 0), (15, 1), (15, 2), (15, 3), (15, 4), (15, 5)] = gC2Fac7 from by rfl]
  rw [List.foldl_append]
  rw [show List.foldl detailFacadesCell gC2Fac7 [(16, 0), (16, 1), (16, 2), (16, 3), (16, 4), (16, 5), (17, 0), (17, 1), (17, 2), (17, 3), (17, 4), (17, 5)] = gC2Fac8 from by rfl]
  rw [show List.foldl detailFacadesCell gC2Fac8 [(18, 0), (18, 1), (18, 2), (18, 3), (18, 4), (18, 5)] = gC2Fac9 from by rfl]
theorem hC2Det : rewrite_wall_details gC2Room = gC2Fac9 := by
  show detailPass detailFacadesCell (detailPass detailTopBottomCell (detailPass detailSidesCell
      (detailPass detailCornersCell (cleanupLoop (gC2Room.width * gC2Room.height + 1) gC2Room)))) = gC2Fac9
  rw [hC2Clean, hC2Cor, hC2Sides, hC2TB, hC2Fac]
theorem hC2Tail : doorStage cfgC2 roomsC2 gC2Fac9 sC2Room = some resC2 := by rfl
theorem hC2Gen : generate_layer cfgC2 [0, 0, 0, 0, 0, 0, 9, 0, 0, 2, 0] = some resC2 := by
  show doorStage cfgC2 (roomPhase cfgC2 [0, 0, 0, 0, 0, 0, 9, 0, 0, 2, 0]).rooms
      (rewrite_wall_details (roomPhase cfgC2 [0, 0, 0, 0, 0, 0, 9, 0, 0, 2, 0]).g) (roomPhase cfgC2 [0, 0, 0, 0, 0, 0, 9, 0, 0, 2, 0]).s = some resC2
  rw [hC2Room]
  show doorStage cfgC2 roomsC2 (rewrite_wall_details gC2Room) sC2Room = some resC2
  rw [hC2Det]
  exact hC2Tail
theorem hFRoom : roomPhase cfgF [] = ⟨gFRoom, roomsF, sFRoom⟩ := by rfl
theorem hFClean : cleanupLoop (gFRoom.width * gFRoom.height + 1) gFRoom = gFClean := by rfl
theorem hFCor :
    detailPass detailCornersCell gFClean = gFCor3 := by
  show (cellsColMajor gFClean.width gFClean.height).foldl detailCornersCell gFClean = gFCor3
  have e : cellsColMajor gFClean.width gFClean.height =
      [(0, 0), (0, 1), (0, 2), (0, 3), (0, 4), (0, 5), (0, 6), (0, 7), (1, 0), (1, 1), (1, 2), (1, 3), (1, 4), (1, 5), (1, 6), (1, 7)] ++ ([(2, 0), (2, 1), (2, 2), (2, 3), (2, 4), (2, 5), (2, 6), (2, 7), (3, 0), (3, 1), (3, 2), (3, 3), (3, 4), (3, 5), (3, 6), (3, 7)] ++ ([(4, 0), (4, 1), (4, 2), (4, 3), (4, 4), (4, 5), (4, 6), (4, 7), (5, 0), (5, 1), (5, 2), (5, 3), (5, 4), (5, 5), (5, 6), (5, 7)] ++ ([(6, 0), (6, 1), (6, 2), (6, 3), (6, 4), (6, 5), (6, 6), (6, 7), (7, 0), (7, 1), (7, 2), (7, 3), (7, 4), (7, 5), (7, 6), (7, 7)]))) := by rfl
  rw [e]
  rw [List.foldl_append]
  rw [show List.foldl detailCornersCell gFClean [(0, 0), (0, 1), (0, 2), (0, 3), (0, 4), (0, 5), (0, 6), (0, 7), (1, 0), (1, 1), (1, 2), (1, 3), (1, 4), (1, 5), (1, 6), (1, 7)] = gFCor0 from by rfl]
  rw [List.foldl_append]
  rw [show List.foldl detailCornersCell gFCor0 [(2, 0), (2, 1), (2, 2), (2, 3), (2, 4), (2, 5), (2, 6), (2, 7), (3, 0), (3, 1), (3, 2), (3, 3), (3, 4), (3, 5), (3, 6), (3, 7)] = gFCor1 from by rfl]
  rw [List.foldl_append]
  rw [show List.foldl detailCornersCell gFCor1 [(4, 0), (4, 1), (4, 2), (4, 3), (4, 4), (4, 5), (4, 6), (4, 7), (5, 0), (5, 1), (5, 2), (5, 3), (5, 4), (5, 5), (5, 6), (5, 7)] = gFCor2 from by rfl]
  rw [show List.foldl detailCornersCell gFCor2 [(6, 0), (6, 1), (6, 2), (6, 3), (6, 4), (6, 5), (6, 6), (6, 7), (7, 0), (7, 1), (7, 2), (7, 3), (7, 4), (7, 5), (7, 6), (7, 7)] = gFCor3 from by rfl]
theorem hFSides :
    detailPass detailSidesCell gFCor3 = gFSides3 := by
  show (cellsColMajor gFCor3.width gFCor3.height).foldl detailSidesCell gFCor3 = gFSides3
  have e : cellsColMajor gFCor3.width gFCor3.height =
      [(0, 0), (0, 1), (0, 2), (0, 3), (0, 4), (0, 5), (0, 6), (0, 7), (1, 0), (1, 1), (1, 2), (1, 3), (1, 4), (1, 5), (1, 6), (1, 7)] ++ ([(2, 0), (2, 1), (2, 2), (2, 3), (2, 4), (2, 5), (2, 6), (2, 7), (3, 0), (3, 1), (3, 2), (3, 3), (3, 4), (3, 5), (3, 6), (3, 7)] ++ ([(4, 0), (4, 1), (4, 2), (4, 3), (4, 4), (4, 5), (4, 6), (4, 7), (5, 0), (5, 1), (5, 2), (5, 3), (5, 4), (5, 5), (5, 6), (5, 7)] ++ ([(6, 0), (6, 1), (6, 2), (6, 3), (6, 4), (6, 5), (6, 6), (6, 7), (7, 0), (7, 1), (7, 2), (7, 3), (7, 4), (7, 5), (7, 6), (7, 7)]))) := by rfl
  rw [e]
  rw [List.foldl_append]
  rw [show List.foldl detailSidesCell gFCor3 [(0, 0), (0, 1), (0, 2), (0, 3), (0, 4), (0, 5), (0, 6), (0, 7), (1, 0), (1, 1), (1, 2), (1, 3), (1, 4), (1, 5), (1, 6), (1, 7)] = gFSides0 from by rfl]
  rw [List.foldl_append]
  rw [show List.foldl detailSidesCell gFSides0 [(2, 0), (2, 1), (2, 2), (2, 3), (2, 4), (2, 5), (2, 6), (2, 7), (3, 0), (3, 1), (3, 2), (3, 3), (3, 4), (3, 5), (3, 6), (3, 7)] = gFSides1 from by rfl]
  rw [List.foldl_append]
  rw [show List.foldl detailSidesCell gFSides1 [(4, 0), (4, 1), (4, 2), (4, 3), (4, 4), (4, 5), (4, 6), (4, 7), (5, 0), (5, 1), (5, 2), (5, 3), (5, 4), (5, 5), (5, 6), (5, 7)] = gFSides2 from by rfl]
  rw [show List.foldl detailSidesCell gFSides2 [(6, 0), (6, 1), (6, 2), (6, 3), (6, 4), (6, 5), (6, 6), (6, 7), (7, 0), (7, 1), (7, 2), (7, 3), (7, 4), (7, 5), (7, 6), (7, 7)] = gFSides3 from by rfl]
theorem hFTB :
    detailPass detailTopBottomCell gFSides3 = gFTB3 := by
  show (cellsColMajor gFSides3.width gFSides3.height).foldl detailTopBottomCell gFSides3 = gFTB3
  have e : cellsColMajor gFSides3.width gFSides3.height =
      [(0, 0), (0, 1), (0, 2), (0, 3), (0, 4), (0, 5), (0, 6), (0, 7), (1, 0), (1, 1), (1, 2), (1, 3), (1, 4), (1, 5), (1, 6), (1, 7)] ++ ([(2, 0), (2, 1), (2, 2), (2, 3), (2, 4), (2, 5), (2, 6), (2, 7), (3, 0), (3, 1), (3, 2), (3, 3), (3, 4), (3, 5), (3, 6), (3, 7)] ++ ([(4, 0), (4, 1), (4, 2), (4, 3), (4, 4), (4, 5), (4, 6), (4, 7), (5, 0), (5, 1), (5, 2), (5, 3), (5, 4), (5, 5), (5, 6), (5, 7)] ++ ([(6, 0), (6, 1), (6, 2), (6, 3), (6, 4), (6, 5), (6, 6), (6, 7), (7, 0), (7, 1), (7, 2), (7, 3), (7, 4), (7, 5), (7, 6), (7, 7)]))) := by rfl
  rw [e]
  rw [List.foldl_append]
  rw [show List.foldl detailTopBottomCell gFSides3 [(0, 0), (0, 1), (0, 2), (0, 3), (0, 4), (0, 5), (0, 6), (0, 7), (1, 0), (1, 1), (1, 2), (1, 3), (1, 4), (1, 5), (1, 6), (1, 7)] = gFTB0 from by rfl]
  rw [List.foldl_append]
  rw [show List.foldl detailTopBottomCell gFTB0 [(2, 0), (2, 1), (2, 2), (2, 3), (2, 4), (2, 5), (2, 6), (2, 7), (3, 0), (3, 1), (3, 2), (3, 3), (3, 4), (3, 5), (3, 6), (3, 7)] = gFTB1 from by rfl]
  rw [List.foldl_append]
  rw [show List.foldl detailTopBottomCell gFTB1 [(4, 0), (4, 1), (4, 2), (4, 3), (4, 4), (4, 5), (4, 6), (4, 7), (5, 0), (5, 1), (5, 2), (5, 3), (5, 4), (5, 5), (5, 6), (5, 7)] = gFTB2 from by rfl]
  rw [show List.foldl detailTopBottomCell gFTB2 [(6, 0), (6, 1), (6, 2), (6, 3), (6, 4), (6, 5), (6, 6), (6, 7), (7, 0), (7, 1), (7, 2), (7, 3), (7, 4), (7, 5), (7, 6), (7, 7)] = gFTB3 from by rfl]
theorem hFFac :
    detailPass detailFacadesCell gFTB3 = gFFac3 := by
  show (cellsColMajor gFTB3.width gFTB3.height).foldl detailFacadesCell gFTB3 = gFFac3
  have e : cellsColMajor gFTB3.width gFTB3.height =
      [(0, 0), (0, 1), (0, 2), (0, 3), (0, 4), (0, 5), (0, 6), (0, 7), (1, 0), (1, 1), (1, 2), (1, 3), (1, 4), (1, 5), (1, 6), (1, 7)] ++ ([(2, 0), (2, 1), (2, 2), (2, 3), (2, 4), (2, 5), (2, 6), (2, 7), (3, 0), (3, 1), (3, 2), (3, 3), (3, 4), (3, 5), (3, 6), (3, 7)] ++ ([(4, 0), (4, 1), (4, 2), (4, 3), (4, 4), (4, 5), (4, 6), (4, 7), (5, 0), (5, 1), (5, 2), (5, 3), (5, 4), (5, 5), (5, 6), (5, 7)] ++ ([(6, 0), (6, 1), (6, 2), (6, 3), (6, 4), (6, 5), (6, 6), (6, 7), (7, 0), (7, 1), (7, 2), (7, 3), (7, 4), (7, 5), (7, 6), (7, 7)]))) := by rfl
  rw [e]
  rw [List.foldl_append]
  rw [show List.foldl detailFacadesCell gFTB3 [(0, 0), (0, 1), (0, 2), (0, 3), (0, 4), (0, 5), (0, 6), (0, 7), (1, 0), (1, 1), (1, 2), (1, 3), (1, 4), (1, 5), (1, 6), (1, 7)] = gFFac0 from by rfl]
  rw [List.foldl_append]
  rw [show List.foldl detailFacadesCell gFFac0 [(2, 0), (2, 1), (2, 2), (2, 3), (2, 4), (2, 5), (2, 6), (2, 7), (3, 0), (3, 1), (3, 2), (3, 3), (3, 4), (3, 5), (3, 6), (3, 7)] = gFFac1 from by rfl]
  rw [List.foldl_append]
  rw [show List.foldl detailFacadesCell gFFac1 [(4, 0), (4, 1), (4, 2), (4, 3), (4, 4), (4, 5), (4, 6), (4, 7), (5, 0), (5, 1), (5, 2), (5, 3), (5, 4), (5, 5), (5, 6), (5, 7)] = gFFac2 from by rfl]
  rw [show List.foldl detailFacadesCell gFFac2 [(6, 0), (6, 1), (6, 2), (6, 3), (6, 4), (6, 5), (6, 6), (6, 7), (7, 0), (7, 1), (7, 2), (7, 3), (7, 4), (7, 5), (7, 6), (7, 7)] = gFFac3 from by rfl]
theorem hFDet : rewrite_wall_details gFRoom = gFFac3 := by
  show detailPass detailFacadesCell (detailPass detailTopBottomCell (detailPass detailSidesCell
      (detailPass detailCornersCell (cleanupLoop (gFRoom.width * gFRoom.height + 1) gFRoom)))) = gFFac3
  rw [hFClean, hFCor, hFSides, hFTB, hFFac]
theorem hFTail : doorStage cfgF roomsF gFFac3 sFRoom = none := by rfl
theorem hFGen : generate_layer cfgF [] = none := by
  show doorStage cfgF (roomPhase cfgF []).rooms
      (rewrite_wall_details (roomPhase cfgF []).g) (roomPhase cfgF []).s = none
  rw [hFRoom]
  show doorStage cfgF roomsF (rewrite_wall_details gFRoom) sFRoom = none
  rw [hFDet]
  exact hFTail

/-! ## Claim C1: the Phase-A loop is not a fixed-point loop -/

theorem hC1Room : roomPhase cfgC1 sC1 = ⟨gC1Room, roomsC1, sC1Room⟩ := by rfl

/-- C1 (code bug): the source re-initialises `needs_scan` to `false` at the
top of every cell's loop body, so the scan's flag is the last cell's flag
only and the Phase-A loop always stops after a single scan.  On the
room-phase grid of `cfgC1` the returned grid still contains a neighbourhood
on which a further honest scan fires a cleanup rewrite. -/
theorem c1_cleanup_loop_not_fixed_point :
    (cleanupScanAny (cleanupLoop
      ((roomPhase cfgC1 sC1).g.width * (roomPhase cfgC1 sC1).g.height + 1)
      (roomPhase cfgC1 sC1).g)).1 = true := by
  rw [hC1Room]
  rfl

/-! ## Claim C3: the retry loop does not restore the grid -/

/-- C3 (counterexample): on `gC3` with stream `sC3` the first attempt
places one door of the required two (mutating the grid), and the coded
retry — rerunning on the mutated grid — finds no candidates and ends with
no doors at all, while the claim's restoring retry places both. -/
theorem c3_counterexample :
    (doorAttempts cfgC3 10 2 gC3 sC3).1 = [] ∧
    (doorAttemptsRestoring cfgC3 10 2 gC3 sC3).1 = [⟨1, 1⟩, ⟨5, 1⟩] :=
  ⟨by rfl, by rfl⟩

/-- C3 (amended): when an attempt falls short, the loop reruns the whole
candidate search and placement on the grid **as the failed attempt left
it** (neither the grid nor the recorded positions are restored), for up to
10 attempts; and a final shortfall aborts generation (`generate_layer`
returns `none`, the model of the failed `assert_eq!`). -/
theorem c3_retry_on_mutated_grid (self : MapGenerator) (fuel num : Nat)
    (g : Layer) (s sr : List Nat) :
    (¬ ((generate_guard_doors self num g s).1.length = num ∨ fuel = 0) →
      doorAttempts self (fuel + 1) num g s =
        doorAttempts self fuel num (generate_guard_doors self num g s).2.1
          (generate_guard_doors self num g s).2.2) ∧
    ((roomPhase self sr).rooms.length ≠
        (doorAttempts self 10 (roomPhase self sr).rooms.length
          (rewrite_wall_details (roomPhase self sr).g)
          (roomPhase self sr).s).1.length →
      generate_layer self sr = none) := by
  constructor
  · intro h
    rw [doorAttempts_succ]
    rw [if_neg h]
  · intro h
    show doorStage self (roomPhase self sr).rooms
      (rewrite_wall_details (roomPhase self sr).g) (roomPhase self sr).s = none
    simp only [doorStage]
    rw [if_neg h]

/-! ## Counterexample and witnesses on the concrete runs -/

/-- C2 (counterexample): the `cfgC2` run returns, yet its exit door and
guard door sit only 3 columns apart, so their 4-cell footprints overlap. -/
theorem c2_counterexample :
    generate_layer cfgC2 [0, 0, 0, 0, 0, 0, 9, 0, 0, 2, 0] = some resC2 ∧
    ¬ claimNonOverlap resC2 :=
  ⟨hC2Gen, by decide⟩

/-- Witness for C2 on the fully successful `cfgW` run. -/
theorem c2_door_count_and_separation_witness :
    resW.guard_doors.length + 1 = resW.rooms.length ∧
    (resW.exit_door :: resW.guard_doors).Pairwise doorSep :=
  c2_door_count_and_separation cfgW [] resW (by decide) hWGen

/-- Witness for C4 on the `cfgW` run. -/
theorem c4_rooms_never_overlap_witness :
    resW.rooms.Pairwise (fun a b => rectOverlaps a b = false) :=
  c4_rooms_never_overlap cfgW [] resW hWGen

/-- Witness for C5 on the `cfgW` run. -/
theorem c5_grid_populated_border_walls_witness :
    allCellsSome resW.layer ∧ borderWallClass resW.layer :=
  c5_grid_populated_border_walls cfgW [] resW (by decide) hWGen


end Stonehold
